import Mathlib

/-!
RSA-OAEP codec of `xsecure_plat_rsa.c` (versal_net server)

A shallow embedding of `XSecure_RsaOaepEncode`, `XSecure_RsaOaepDecode`,
`XSecure_RsaOaepEncrypt`, `XSecure_RsaOaepDecrypt`, the exponentiation wrappers
`XSecure_RsaExpCRT` and `XSecure_RsaExp` and the key accessors `XSecure_GetRsaPrivateKey` and
`XSecure_GetRsaPublicKey`, followed by the properties of the OAEP codec (the block written by
the encoder, the checks of encoder and decoder, the round trip), of the wrappers (reset
bracket, rejection of missing operands, reset invariant), of the byte reversal in Decrypt,
the frame properties (what a failing or succeeding call leaves untouched, the key material),
the bounds of the array accesses of encoder and decoder, and the shape and arithmetic
consistency of the compiled-in key.

Modelling conventions

* A byte is a natural number; the C operator `^` on bytes is `^^^`.
* `u32` arithmetic is written with `add32`, `sub32`, `mul32` (reduction modulo `2 ^ 32`).
* A local C array is a list whose length is the declared array size.  Every access to a
  local array is bounds checked: the embedded functions return `none` as soon as the C code
  would read or write outside one of its arrays (undefined behaviour in C).
* Caller memory reached through the 64-bit addresses of `XSecure_RsaOaepParam` is a function
  from addresses to bytes; a region is assumed not to wrap around the address space.
* The collaborators that are not part of the file (hash table, entropy source, mask
  generator, public-key engine) are fields of `Env`; each of them reports a status and, for
  the producers of bytes, the byte to be stored at every index of the destination.
* The macro `XSECURE_TEMPORAL_CHECK(END, Status, f, ...)` is not defined in the file; following
  the propagation policy of the specification it is a call of `f` whose status is returned at
  once when it is not `XST_SUCCESS`.
* Every embedded function also returns the list of collaborator calls and output writes it
  performed, in program order.
* The engine primitives `RSA_ExpCrtQ` and `RSA_ExpQ` are fields of `RsaEngine`; a pointer to
  a byte array is the array it points to, `none` for `NULL`.  The soft-reset register is a
  number passed in and returned.
* The objects with static storage duration are the record `Statics`, on which the key
  accessors work.  For the question which operation can store to the key material, the
  static arrays are placed in memory at the addresses of a `KeyLayout` (`Machine`,
  `Call.run`): the result pointer of an exponentiation and `OutputDataAddr` range over the
  same memory.
* The cast `(UINTPTR)` of a 64-bit address keeps the low 32 bits (32-bit platform processor).
-/

namespace XSecure

/-! ## Status codes and constants -/

/-- Modelled from the spec: the header `xsecure_error.h` with the numeric values of the
status codes is missing; the codes used by the file are kept as distinct constructors, and
`External` stands for any other code reported by a collaborator. -/
inductive Status where
  | XST_SUCCESS
  | XST_FAILURE
  | XSECURE_RSA_OAEP_INVALID_PARAM
  | XSECURE_RSA_OAEP_INVALID_MSG_LEN
  | XSECURE_RSA_OAEP_BYTE_MISMATCH_ERROR
  | XSECURE_RSA_OAEP_DATA_CPY_ERROR
  | XSECURE_RSA_OAEP_DATA_CMP_ERROR
  | XSECURE_RSA_OAEP_DB_MISMATCH_ERROR
  | XSECURE_RSA_EXPONENT_INVALID_PARAM
  | External (code : Nat)
  deriving DecidableEq, Repr

open Status

/-- Modelled from the spec: `XSECURE_RSA_KEY_GEN_SIZE_IN_BYTES` (header missing) is the
modulus length of the 3072-bit deployment, the size of the compiled-in `Modulus` array. -/
def XSECURE_RSA_KEY_GEN_SIZE_IN_BYTES : Nat := 384

/-- Modelled from the spec: `XSECURE_SHA3_HASH_LENGTH_IN_BYTES` (header `xsecure_sha.h`
missing) is the reference hash length, 48 bytes. -/
def XSECURE_SHA3_HASH_LENGTH_IN_BYTES : Nat := 48

/-- The macro `XSECURE_RSA_MAX_MSG_SIZE_IN_BYTES`. -/
def XSECURE_RSA_MAX_MSG_SIZE_IN_BYTES : Nat :=
  XSECURE_RSA_KEY_GEN_SIZE_IN_BYTES - (2 * XSECURE_SHA3_HASH_LENGTH_IN_BYTES) - 2

/-- The macro `XSECURE_RSA_MAX_PS_SIZE_IN_BYTES`. -/
def XSECURE_RSA_MAX_PS_SIZE_IN_BYTES : Nat := XSECURE_RSA_MAX_MSG_SIZE_IN_BYTES

/-- The macro `XSECURE_RSA_MAX_DB_SIZE_IN_BYTES`. -/
def XSECURE_RSA_MAX_DB_SIZE_IN_BYTES : Nat :=
  XSECURE_RSA_MAX_PS_SIZE_IN_BYTES + XSECURE_SHA3_HASH_LENGTH_IN_BYTES + 1

/-! ## Machine arithmetic -/

/-- Addition of two `u32` values. -/
def add32 (a b : Nat) : Nat := (a + b) % 4294967296

/-- Subtraction of two `u32` values (wraps around below zero). -/
def sub32 (a b : Nat) : Nat :=
  if b % 4294967296 ≤ a % 4294967296 then a % 4294967296 - b % 4294967296
  else a % 4294967296 + 4294967296 - b % 4294967296

/-- Multiplication of two `u32` values. -/
def mul32 (a b : Nat) : Nat := (a * b) % 4294967296

/-! ## Caller memory and local arrays -/

/-- Caller memory: one byte per address. -/
abbrev Mem := Nat → Nat

/-- The `n` bytes stored from address `addr` on. -/
def memRead (mem : Mem) (addr n : Nat) : List Nat :=
  (List.range n).map fun i => mem (addr + i)

/-- Memory after `bytes` has been stored from address `addr` on. -/
def memWrite (mem : Mem) (addr : Nat) (bytes : List Nat) : Mem :=
  fun a => if addr ≤ a ∧ a < addr + bytes.length then bytes.getD (a - addr) 0 else mem a

/-- The first `n` bytes produced by a collaborator that reports its output per index. -/
def bytesOf (f : Nat → Nat) (n : Nat) : List Nat := (List.range n).map f

/-- A zero-initialised local array of `n` bytes (`u8 X[n] = {0U}`). -/
def zeros (n : Nat) : List Nat := List.replicate n 0

/-- Copy `src` into the array `b` from index `off` on; `none` when it does not fit. -/
def bufWrite (b : List Nat) (off : Nat) (src : List Nat) : Option (List Nat) :=
  if off + src.length ≤ b.length then
    some (b.take off ++ src ++ b.drop (off + src.length))
  else none

/-- The `n` bytes of the array `b` from index `off` on; `none` when out of bounds. -/
def bufRead (b : List Nat) (off n : Nat) : Option (List Nat) :=
  if off + n ≤ b.length then some ((b.drop off).take n) else none

/-- The assignment `b[i] = v`; `none` when `i` is out of bounds. -/
def bufSet (b : List Nat) (i v : Nat) : Option (List Nat) :=
  if i < b.length then some (b.set i v) else none

/-- The read `b[i]`; `none` when `i` is out of bounds. -/
def bufGet (b : List Nat) (i : Nat) : Option Nat := b.get? i

/-- The loop `for (Index = 0; Index < n; Index++) b[Index] ^= m[Index];`. -/
def bufXor (b m : List Nat) (n : Nat) : Option (List Nat) :=
  if n ≤ b.length ∧ n ≤ m.length then
    some (List.zipWith (fun x y => x ^^^ y) (b.take n) (m.take n) ++ b.drop n)
  else none

/-! ## Data model and collaborators -/

/-- The hash descriptor `XSecure_HashAlgInfo`: selector, digest length, digest function.
`ShaDigest data` is the status of the digest of `data` and the digest byte at each index;
the provider stores `HashLen` bytes at the destination.  The selector and the engine handle
`ShaInstancePtr` that the C code passes along are not arguments: the descriptor is already
the one of the selector, and the digest is a function of the data. -/
structure XSecure_HashAlgInfo where
  Shatype : Nat
  HashLen : Nat
  ShaDigest : List Nat → Status × (Nat → Nat)

/-- The operation parameters `XSecure_RsaOaepParam`. -/
structure XSecure_RsaOaepParam where
  InputDataAddr : Nat
  OutputDataAddr : Nat
  InputDataSize : Nat
  OutputDataSize : Nat
  OptionalLabelAddr : Nat
  OptionalLabelSize : Nat
  ShaInstancePtr : Nat
  ShaType : Nat
  deriving DecidableEq, Repr

/-- Modelled from the spec: the public key instance `XSecure_Rsa` (declaration missing) is
the pair of a modulus and a public exponent. -/
structure XSecure_Rsa where
  Mod : List Nat
  ModExpo : List Nat
  deriving DecidableEq, Repr

/-- The collaborators of the file, none of which is defined in it.

* `XSecure_GetHashInstance sel` is the descriptor of the selector, `none` for `NULL`.
* `XSecure_GetRandomNum n` is the status of the entropy source and the `n` bytes it delivers.
* `XSecure_MaskGenFunc sel seed n` is the status of the mask generator and the `n` mask
  bytes it derives from `seed`.
* `XSecure_RsaPublicEncrypt_64Bit key block size out mem` is the status of the public-key
  operation and the memory it leaves. -/
structure Env where
  XSecure_GetHashInstance : Nat → Option XSecure_HashAlgInfo
  XSecure_GetRandomNum : Nat → Status × (Nat → Nat)
  XSecure_MaskGenFunc : Nat → List Nat → Nat → Status × (Nat → Nat)
  XSecure_RsaPublicEncrypt_64Bit : XSecure_Rsa → List Nat → Nat → Nat → Mem → Status × Mem

/-- What a function did, in program order.  `SoftReset val` is the register write
`XSecure_Out32(XSECURE_ECDSA_RSA_SOFT_RESET, val)`; `RSA_ExpCrtQ` and `RSA_ExpQ` are the
invocations of the engine primitives. -/
inductive Event where
  | ShaDigest (data : List Nat)
  | GetRandomNum (len : Nat)
  | MaskGenFunc (seed : List Nat) (outLen : Nat)
  | OutWrite (off : Nat) (bytes : List Nat)
  | MemWrite (addr : Nat) (bytes : List Nat)
  | PublicEncrypt (block : List Nat) (size : Nat) (out : Nat)
  | SoftReset (val : Nat)
  | RSA_ExpCrtQ (Hash : List Nat) (Len : Int)
  | RSA_ExpQ (Hash : List Nat) (Len : Int)
  deriving DecidableEq, Repr

/-- Number of bytes stored by the output writes of a trace. -/
def emittedBytes : List Event → Nat
  | [] => 0
  | Event.OutWrite _ bytes :: t => bytes.length + emittedBytes t
  | Event.MemWrite _ bytes :: t => bytes.length + emittedBytes t
  | _ :: t => emittedBytes t

/-- Result of `XSecure_RsaOaepEncode`: the returned status, the parameter block, the array at
`OutputAddr` and the trace. -/
structure EncodeResult where
  Status : Status
  OaepParam : XSecure_RsaOaepParam
  Output : List Nat
  Trace : List Event
  deriving DecidableEq, Repr

/-- Result of `XSecure_RsaOaepDecode`: the returned status, the parameter block, caller
memory and the trace. -/
structure DecodeResult where
  Status : Status
  OaepParam : XSecure_RsaOaepParam
  Mem : Mem
  Trace : List Event

/-- Result of the public operations: the returned status, the parameter block (`none` for a
`NULL` pointer), caller memory and the trace. -/
structure OpResult where
  Status : Status
  OaepParam : Option XSecure_RsaOaepParam
  Mem : Mem
  Trace : List Event

/-! ## `XSecure_RsaOaepEncode` -/

/-- The maximum message length `ActualMsgLen` computed by `XSecure_RsaOaepEncode` from the
hash length (lines 131-138). -/
def XSecure_RsaOaepEncode_ActualMsgLen (HashLen : Nat) : Nat :=
  let DiffHashLen :=
    if HashLen > XSECURE_SHA3_HASH_LENGTH_IN_BYTES then
      sub32 HashLen XSECURE_SHA3_HASH_LENGTH_IN_BYTES
    else
      sub32 XSECURE_SHA3_HASH_LENGTH_IN_BYTES HashLen
  sub32 XSECURE_RSA_MAX_MSG_SIZE_IN_BYTES (mul32 DiffHashLen 2)

/-- The function `XSecure_RsaOaepEncode`.  `Output` is the array `OutputAddr` points to. -/
def XSecure_RsaOaepEncode (env : Env) (mem : Mem) (OaepParam : XSecure_RsaOaepParam)
    (Output : List Nat) : Option EncodeResult :=
  let Seed := zeros XSECURE_SHA3_HASH_LENGTH_IN_BYTES
  let DB := zeros XSECURE_RSA_MAX_DB_SIZE_IN_BYTES
  let DBMask := zeros XSECURE_RSA_MAX_DB_SIZE_IN_BYTES
  let SeedMask := zeros XSECURE_SHA3_HASH_LENGTH_IN_BYTES
  match env.XSecure_GetHashInstance OaepParam.ShaType with
  | none => some ⟨XSECURE_RSA_OAEP_INVALID_PARAM, OaepParam, Output, []⟩
  | some HashPtr =>
    if OaepParam.InputDataAddr = 0 ∨ OaepParam.OutputDataAddr = 0 then
      some ⟨XSECURE_RSA_OAEP_INVALID_PARAM, OaepParam, Output, []⟩
    else
    let ActualMsgLen := XSecure_RsaOaepEncode_ActualMsgLen HashPtr.HashLen
    if OaepParam.InputDataSize > ActualMsgLen then
      some ⟨XSECURE_RSA_OAEP_INVALID_MSG_LEN, OaepParam, Output, []⟩
    else
    let Label := memRead mem OaepParam.OptionalLabelAddr OaepParam.OptionalLabelSize
    let Digest := HashPtr.ShaDigest Label
    let T1 := [Event.ShaDigest Label]
    if Digest.1 ≠ XST_SUCCESS then some ⟨Digest.1, OaepParam, Output, T1⟩ else
    match bufWrite DB 0 (bytesOf Digest.2 HashPtr.HashLen) with
    | none => none
    | some DB =>
    let Index := sub32 ActualMsgLen OaepParam.InputDataSize
    match bufSet DB (add32 HashPtr.HashLen Index) 1 with
    | none => none
    | some DB =>
    match bufWrite DB (add32 (add32 HashPtr.HashLen Index) 1)
      (memRead mem OaepParam.InputDataAddr OaepParam.InputDataSize) with
    | none => none
    | some DB =>
    let Rnd := env.XSecure_GetRandomNum HashPtr.HashLen
    let T2 := T1 ++ [Event.GetRandomNum HashPtr.HashLen]
    if Rnd.1 ≠ XST_SUCCESS then some ⟨Rnd.1, OaepParam, Output, T2⟩ else
    match bufWrite Seed 0 (bytesOf Rnd.2 HashPtr.HashLen) with
    | none => none
    | some Seed =>
    let DBLen := add32 (add32 (add32 Index OaepParam.InputDataSize) HashPtr.HashLen) 1
    match bufRead Seed 0 HashPtr.HashLen with
    | none => none
    | some MgfSeed =>
    let Mgf1 := env.XSecure_MaskGenFunc OaepParam.ShaType MgfSeed DBLen
    let T3 := T2 ++ [Event.MaskGenFunc MgfSeed DBLen]
    if Mgf1.1 ≠ XST_SUCCESS then some ⟨Mgf1.1, OaepParam, Output, T3⟩ else
    match bufWrite DBMask 0 (bytesOf Mgf1.2 DBLen) with
    | none => none
    | some DBMask =>
    match bufXor DB DBMask DBLen with
    | none => none
    | some DB =>
    match bufRead DB 0 DBLen with
    | none => none
    | some MgfSeed2 =>
    let Mgf2 := env.XSecure_MaskGenFunc OaepParam.ShaType MgfSeed2 HashPtr.HashLen
    let T4 := T3 ++ [Event.MaskGenFunc MgfSeed2 HashPtr.HashLen]
    if Mgf2.1 ≠ XST_SUCCESS then some ⟨Mgf2.1, OaepParam, Output, T4⟩ else
    match bufWrite SeedMask 0 (bytesOf Mgf2.2 HashPtr.HashLen) with
    | none => none
    | some SeedMask =>
    match bufXor Seed SeedMask HashPtr.HashLen with
    | none => none
    | some Seed =>
    match bufSet Output 0 0 with
    | none => none
    | some Output =>
    match bufRead Seed 0 HashPtr.HashLen with
    | none => none
    | some SeedOut =>
    match bufWrite Output 1 SeedOut with
    | none => none
    | some Output =>
    match bufRead DB 0 DBLen with
    | none => none
    | some DBOut =>
    match bufWrite Output (HashPtr.HashLen + 1) DBOut with
    | none => none
    | some Output =>
    some ⟨Mgf2.1, OaepParam, Output,
      T4 ++ [Event.OutWrite 0 [0], Event.OutWrite 1 SeedOut,
        Event.OutWrite (HashPtr.HashLen + 1) DBOut]⟩

/-! ## `XSecure_RsaOaepDecode` -/

/-- Modelled from the spec: `Xil_SMemCmp` (library code, missing) compares the first `CmpLen`
bytes of two arrays and reports `XST_SUCCESS` exactly when they agree; `none` when one of
the arrays is shorter than `CmpLen`. -/
def Xil_SMemCmp (Src1 Src2 : List Nat) (CmpLen : Nat) : Option Status :=
  match bufRead Src1 0 CmpLen with
  | none => none
  | some A =>
  match bufRead Src2 0 CmpLen with
  | none => none
  | some B => some (if A = B then XST_SUCCESS else XST_FAILURE)

/-- The padding scan of `XSecure_RsaOaepDecode` (lines 264-272), by recursion on the number
`Bound - Index` of iterations the loop condition still allows.  The result is the pair
`(Index, IsPsZero)` with which the loop is left. -/
def XSecure_RsaOaepDecode_PsScan (DB : List Nat) : Nat → Nat → Nat → Option (Nat × Nat)
  | 0, Index, IsPsZero => some (Index, IsPsZero)
  | Remaining + 1, Index, IsPsZero =>
    match bufGet DB Index with
    | none => none
    | some DBTmp =>
      if DBTmp = 0 ∧ DBTmp = 0 then
        XSecure_RsaOaepDecode_PsScan DB Remaining (add32 Index 1) (IsPsZero ||| DBTmp)
      else some (Index, IsPsZero)

/-- The validation part of `XSecure_RsaOaepDecode` (lines 256-288): comparison of the label
hash, padding scan, separator and length checks, copy of the message.  `DB` and `Hash` are
the local arrays of that name, `DBLen` is `XSECURE_RSA_KEY_GEN_SIZE_IN_BYTES - HashLen - 1`
and `T` is the trace so far. -/
def XSecure_RsaOaepDecode_Validate (mem : Mem) (OaepParam : XSecure_RsaOaepParam)
    (HashLen DBLen : Nat) (DB Hash : List Nat) (T : List Event) : Option DecodeResult :=
  match Xil_SMemCmp DB Hash HashLen with
  | none => none
  | some Cmp =>
  if Cmp ≠ XST_SUCCESS then
    some ⟨XSECURE_RSA_OAEP_DATA_CMP_ERROR, OaepParam, mem, T⟩
  else
  match XSecure_RsaOaepDecode_PsScan DB (DBLen - HashLen) HashLen 0 with
  | none => none
  | some (Index, IsPsZero) =>
  match bufGet DB Index with
  | none => none
  | some Separator =>
  if Separator ≠ 1 ∨ IsPsZero ≠ 0 then
    some ⟨XSECURE_RSA_OAEP_DB_MISMATCH_ERROR, OaepParam, mem, T⟩
  else
  let Index := add32 Index 1
  let ActualMsgLen := sub32 DBLen Index
  if ActualMsgLen >
      sub32 (sub32 XSECURE_RSA_KEY_GEN_SIZE_IN_BYTES (mul32 2 HashLen)) 2 then
    some ⟨XSECURE_RSA_OAEP_INVALID_MSG_LEN, OaepParam, mem, T⟩
  else
  match bufRead DB Index ActualMsgLen with
  | none => none
  | some Message =>
  some ⟨XST_SUCCESS, { OaepParam with OutputDataSize := ActualMsgLen },
    memWrite mem OaepParam.OutputDataAddr Message,
    T ++ [Event.MemWrite OaepParam.OutputDataAddr Message]⟩

/-- The function `XSecure_RsaOaepDecode`.  `Input` is the array `InputDataAddr` points to.
Lines 212-254 (parameter check, leading byte, label hash, unmasking) are written out here;
lines 256-288 are `XSecure_RsaOaepDecode_Validate`. -/
def XSecure_RsaOaepDecode (env : Env) (mem : Mem) (OaepParam : XSecure_RsaOaepParam)
    (Input : List Nat) : Option DecodeResult :=
  let Hash := zeros XSECURE_SHA3_HASH_LENGTH_IN_BYTES
  let DB := zeros XSECURE_RSA_MAX_DB_SIZE_IN_BYTES
  let DBMask := zeros XSECURE_RSA_MAX_DB_SIZE_IN_BYTES
  let SeedMask := zeros XSECURE_SHA3_HASH_LENGTH_IN_BYTES
  let Seed := zeros XSECURE_SHA3_HASH_LENGTH_IN_BYTES
  match env.XSecure_GetHashInstance OaepParam.ShaType with
  | none => some ⟨XSECURE_RSA_OAEP_INVALID_PARAM, OaepParam, mem, []⟩
  | some HashPtr =>
    match bufGet Input 0 with
    | none => none
    | some Byte0 =>
    if Byte0 ≠ 0 then some ⟨XSECURE_RSA_OAEP_BYTE_MISMATCH_ERROR, OaepParam, mem, []⟩ else
    let Label := memRead mem OaepParam.OptionalLabelAddr OaepParam.OptionalLabelSize
    let Digest := HashPtr.ShaDigest Label
    let T1 := [Event.ShaDigest Label]
    if Digest.1 ≠ XST_SUCCESS then
      some ⟨XSECURE_RSA_OAEP_DATA_CPY_ERROR, OaepParam, mem, T1⟩
    else
    match bufWrite Hash 0 (bytesOf Digest.2 HashPtr.HashLen) with
    | none => none
    | some Hash =>
    let DBLen := sub32 (sub32 XSECURE_RSA_KEY_GEN_SIZE_IN_BYTES HashPtr.HashLen) 1
    match bufRead Input 1 HashPtr.HashLen with
    | none => none
    | some MaskedSeed =>
    match bufWrite SeedMask 0 MaskedSeed with
    | none => none
    | some SeedMask =>
    match bufRead Input (1 + HashPtr.HashLen) DBLen with
    | none => none
    | some MaskedDB =>
    match bufWrite DBMask 0 MaskedDB with
    | none => none
    | some DBMask =>
    match bufRead DBMask 0 DBLen with
    | none => none
    | some MgfSeed =>
    let Mgf1 := env.XSecure_MaskGenFunc OaepParam.ShaType MgfSeed HashPtr.HashLen
    let T2 := T1 ++ [Event.MaskGenFunc MgfSeed HashPtr.HashLen]
    if Mgf1.1 ≠ XST_SUCCESS then some ⟨Mgf1.1, OaepParam, mem, T2⟩ else
    match bufWrite Seed 0 (bytesOf Mgf1.2 HashPtr.HashLen) with
    | none => none
    | some Seed =>
    match bufXor Seed SeedMask HashPtr.HashLen with
    | none => none
    | some Seed =>
    match bufRead Seed 0 HashPtr.HashLen with
    | none => none
    | some MgfSeed2 =>
    let Mgf2 := env.XSecure_MaskGenFunc OaepParam.ShaType MgfSeed2 DBLen
    let T3 := T2 ++ [Event.MaskGenFunc MgfSeed2 DBLen]
    if Mgf2.1 ≠ XST_SUCCESS then some ⟨Mgf2.1, OaepParam, mem, T3⟩ else
    match bufWrite DB 0 (bytesOf Mgf2.2 DBLen) with
    | none => none
    | some DB =>
    match bufXor DB DBMask DBLen with
    | none => none
    | some DB =>
    XSecure_RsaOaepDecode_Validate mem OaepParam HashPtr.HashLen DBLen DB Hash T3

/-! ## `XSecure_RsaOaepEncrypt` -/

/-- The function `XSecure_RsaOaepEncrypt`; `none` stands for a `NULL` pointer argument. -/
def XSecure_RsaOaepEncrypt (env : Env) (mem : Mem) (InstancePtr : Option XSecure_Rsa)
    (OaepParam : Option XSecure_RsaOaepParam) : Option OpResult :=
  let Output := zeros XSECURE_RSA_KEY_GEN_SIZE_IN_BYTES
  match InstancePtr, OaepParam with
  | some Instance, some Param =>
    match XSecure_RsaOaepEncode env mem Param Output with
    | none => none
    | some Enc =>
      if Enc.Status ≠ XST_SUCCESS then
        some ⟨Enc.Status, some Enc.OaepParam, mem, Enc.Trace⟩
      else
        let Pub := env.XSecure_RsaPublicEncrypt_64Bit Instance Enc.Output
          XSECURE_RSA_KEY_GEN_SIZE_IN_BYTES Enc.OaepParam.OutputDataAddr mem
        some ⟨Pub.1, some Enc.OaepParam, Pub.2,
          Enc.Trace ++ [Event.PublicEncrypt Enc.Output XSECURE_RSA_KEY_GEN_SIZE_IN_BYTES
            Enc.OaepParam.OutputDataAddr]⟩
  | _, _ => some ⟨XSECURE_RSA_OAEP_INVALID_PARAM, OaepParam, mem, []⟩

/-! ## The exponentiation wrappers `XSecure_RsaExpCRT` and `XSecure_RsaExp` -/

/-- The exponentiation primitives of the RSA engine (IP core library, not part of the file).
A pointer to a byte array is the array it points to, `none` for `NULL`.
`RSA_ExpCrtQ Hash P Q Dp Dq Qinv Pub Mod Len Res` and
`RSA_ExpQ Hash Exp Mod P Q Pub Tot Len Res` are the status of the engine and the contents it
leaves in the result buffer `Res`.  The primitives are functions of their operands: they do
not touch the soft-reset register or caller memory. -/
structure RsaEngine where
  RSA_ExpCrtQ : List Nat → List Nat → List Nat → List Nat → List Nat → List Nat →
    Option (List Nat) → Option (List Nat) → Int → List Nat → Status × List Nat
  RSA_ExpQ : List Nat → List Nat → List Nat → Option (List Nat) → Option (List Nat) →
    Option (List Nat) → Option (List Nat) → Int → List Nat → Status × List Nat

/-- Result of an exponentiation wrapper: the returned status, the result buffer, the value
of the soft-reset register and the trace. -/
structure ExpResult where
  Status : Status
  Res : Option (List Nat)
  SoftReset : Nat
  Trace : List Event
  deriving DecidableEq, Repr

/-- The function `XSecure_RsaExpCRT`.  `SoftReset` is the value of the register
`XSECURE_ECDSA_RSA_SOFT_RESET` when the function is entered. -/
def XSecure_RsaExpCRT (eng : RsaEngine) (SoftReset : Nat)
    (Hash P Q Dp Dq Qinv Pub Mod : Option (List Nat)) (Len : Int) (Res : Option (List Nat)) :
    ExpResult :=
  match Hash, P, Q, Dp, Dq, Qinv, Res with
  | some hash, some p, some q, some dp, some dq, some qinv, some res =>
    let Engine := eng.RSA_ExpCrtQ hash p q dp dq qinv Pub Mod Len res
    ⟨Engine.1, some Engine.2, 1,
      [Event.SoftReset 0, Event.RSA_ExpCrtQ hash Len, Event.SoftReset 1]⟩
  | _, _, _, _, _, _, _ => ⟨XSECURE_RSA_EXPONENT_INVALID_PARAM, Res, SoftReset, []⟩

/-- The function `XSecure_RsaExp`.  `SoftReset` is the value of the register
`XSECURE_ECDSA_RSA_SOFT_RESET` when the function is entered. -/
def XSecure_RsaExp (eng : RsaEngine) (SoftReset : Nat)
    (Hash Exp Mod P Q Pub Tot : Option (List Nat)) (Len : Int) (Res : Option (List Nat)) :
    ExpResult :=
  match Hash, Exp, Mod, Res with
  | some hash, some exp, some mod, some res =>
    let Engine := eng.RSA_ExpQ hash exp mod P Q Pub Tot Len res
    ⟨Engine.1, some Engine.2, 1,
      [Event.SoftReset 0, Event.RSA_ExpQ hash Len, Event.SoftReset 1]⟩
  | _, _, _, _ => ⟨XSECURE_RSA_EXPONENT_INVALID_PARAM, Res, SoftReset, []⟩

/-! ## `XSecure_RsaOaepDecrypt` -/

/-- The private key `XSecure_RsaKey` (declaration missing; fields as used by the file):
pointers to the byte arrays of the key, `none` for `NULL`. -/
structure XSecure_RsaKey where
  Modulus : Option (List Nat)
  P : Option (List Nat)
  Q : Option (List Nat)
  DP : Option (List Nat)
  DQ : Option (List Nat)
  QInv : Option (List Nat)
  deriving DecidableEq, Repr

/-- Result of `XSecure_RsaOaepDecrypt`: the returned status, the parameter block (`none` for
a `NULL` pointer), caller memory, the value of the soft-reset register and the trace. -/
structure DecryptResult where
  Status : Status
  OaepParam : Option XSecure_RsaOaepParam
  Mem : Mem
  SoftReset : Nat
  Trace : List Event

/-- The byte-swap loop of `XSecure_RsaOaepDecrypt` (lines 360-364), by recursion on the
number of iterations the loop condition still allows. -/
def XSecure_RsaOaepDecrypt_Swap : List Nat → Nat → Nat → Option (List Nat)
  | Output, 0, _ => some Output
  | Output, Remaining + 1, Index =>
    match bufGet Output Index with
    | none => none
    | some Data =>
    match bufGet Output (sub32 (sub32 XSECURE_RSA_KEY_GEN_SIZE_IN_BYTES Index) 1) with
    | none => none
    | some Mirror =>
    match bufSet Output Index Mirror with
    | none => none
    | some Output =>
    match bufSet Output (sub32 (sub32 XSECURE_RSA_KEY_GEN_SIZE_IN_BYTES Index) 1) Data with
    | none => none
    | some Output => XSecure_RsaOaepDecrypt_Swap Output Remaining (add32 Index 1)

/-- Modelled from the spec: the type `UINTPTR` (header `xil_types.h`, missing) is the
unsigned integer of pointer width.  The server code runs on the 32-bit platform processor,
so the cast `(UINTPTR)` of a 64-bit address keeps its low 32 bits. -/
def UINTPTR (Addr : Nat) : Nat := Addr % 4294967296

/-- The function `XSecure_RsaOaepDecrypt`; `none` stands for a `NULL` pointer argument.
The operand `Hash` of the exponentiation is the pointer
`(u8*)(UINTPTR)OaepParam->InputDataAddr` (line 354): `NULL` when the truncated address is
zero, otherwise the `XSECURE_RSA_KEY_GEN_SIZE_IN_BYTES` bytes stored at the truncated
address. -/
def XSecure_RsaOaepDecrypt (env : Env) (eng : RsaEngine) (mem : Mem) (SoftReset : Nat)
    (PrivKey : Option XSecure_RsaKey) (OaepParam : Option XSecure_RsaOaepParam) :
    Option DecryptResult :=
  let Output := zeros XSECURE_RSA_KEY_GEN_SIZE_IN_BYTES
  match PrivKey, OaepParam with
  | some Key, some Param =>
    let Hash :=
      if UINTPTR Param.InputDataAddr = 0 then none
      else some (memRead mem (UINTPTR Param.InputDataAddr) XSECURE_RSA_KEY_GEN_SIZE_IN_BYTES)
    let Exp := XSecure_RsaExpCRT eng SoftReset Hash Key.P Key.Q Key.DP Key.DQ Key.QInv none
      Key.Modulus (mul32 XSECURE_RSA_KEY_GEN_SIZE_IN_BYTES 8) (some Output)
    if Exp.Status ≠ XST_SUCCESS then
      some ⟨Exp.Status, some Param, mem, Exp.SoftReset, Exp.Trace⟩
    else
    match XSecure_RsaOaepDecrypt_Swap (Exp.Res.getD Output)
      (XSECURE_RSA_KEY_GEN_SIZE_IN_BYTES / 2) 0 with
    | none => none
    | some Output =>
    match XSecure_RsaOaepDecode env mem Param Output with
    | none => none
    | some Dec =>
      some ⟨Dec.Status, some Dec.OaepParam, Dec.Mem, Exp.SoftReset, Exp.Trace ++ Dec.Trace⟩
  | _, _ => some ⟨XSECURE_RSA_OAEP_INVALID_PARAM, OaepParam, mem, SoftReset, []⟩

/-! ## Compiled-in key material -/

/-- The static array `Modulus` (lines 63-88): the compiled-in 3072-bit modulus. -/
def Modulus : List Nat :=
  [
    0xA5, 0x1E, 0xB7, 0x46, 0x95, 0x2D, 0x4A, 0x19, 0x7C, 0xA9, 0x18, 0x44, 0xF3, 0xB6, 0xBB, 0xE1,
    0xAD, 0x63, 0x47, 0x38, 0x02, 0x6C, 0x81, 0xA5, 0x3C, 0x4A, 0x00, 0xFF, 0x97, 0x8F, 0xFC, 0x52,
    0xDD, 0x44, 0x61, 0x6E, 0x87, 0xC4, 0x31, 0x38, 0xFF, 0x38, 0xA5, 0xFE, 0x2A, 0xAA, 0x47, 0xE2,
    0xA3, 0xF5, 0xA9, 0x53, 0x66, 0xD5, 0xFA, 0xFA, 0x17, 0x5B, 0xBC, 0x5D, 0x49, 0xC3, 0xFD, 0x86,
    0xDA, 0xBD, 0xF5, 0x32, 0x2D, 0x63, 0x0B, 0xEC, 0x89, 0xC6, 0x31, 0x25, 0xFF, 0x0B, 0xF9, 0x5F,
    0x6A, 0x1F, 0x39, 0x26, 0x87, 0x29, 0xF6, 0x3B, 0xD7, 0x2A, 0xA8, 0x02, 0x94, 0xA6, 0x1E, 0x2C,
    0x62, 0x4C, 0x6F, 0x58, 0xD0, 0xE7, 0xB6, 0x7D, 0x1E, 0xCE, 0x65, 0xB0, 0x50, 0x05, 0x5F, 0xC1,
    0x3F, 0xC3, 0x57, 0x7E, 0x28, 0xEA, 0x8E, 0x79, 0x1B, 0xFD, 0xEA, 0x09, 0xF5, 0x18, 0x84, 0x08,
    0x9A, 0x38, 0x8A, 0x76, 0x76, 0x14, 0xD5, 0x3A, 0x28, 0xD6, 0xD9, 0xC2, 0x0B, 0x46, 0xEC, 0x9E,
    0xEE, 0xDA, 0x57, 0xBB, 0xF1, 0x30, 0x7B, 0x99, 0x61, 0x4C, 0x9A, 0x4F, 0x26, 0xFA, 0xB6, 0xE9,
    0xEC, 0x4C, 0xCE, 0xF7, 0x62, 0x1B, 0x9D, 0x6A, 0xC0, 0x9A, 0x65, 0x19, 0xDC, 0xF3, 0x4E, 0x21,
    0x09, 0x36, 0x39, 0x43, 0x3C, 0xFC, 0x7C, 0x38, 0x46, 0x11, 0x99, 0xC2, 0x7B, 0x2E, 0x09, 0x17,
    0xFB, 0x99, 0x6A, 0xBE, 0xE1, 0xFC, 0xDB, 0x4A, 0xDC, 0xFC, 0x84, 0x59, 0xA2, 0xA9, 0x16, 0xE1,
    0xCB, 0x20, 0x6E, 0x7F, 0x4F, 0xF1, 0x02, 0xBF, 0xD6, 0xBA, 0x1F, 0x63, 0xB2, 0x04, 0x43, 0xF1,
    0xD6, 0x26, 0x0E, 0x41, 0xCD, 0x51, 0x81, 0x81, 0xF9, 0x90, 0xD6, 0x69, 0xDA, 0x1D, 0xEC, 0x90,
    0x75, 0x8F, 0xA4, 0xB2, 0x9B, 0x22, 0x8E, 0x1B, 0xCD, 0x83, 0xAD, 0x57, 0x2A, 0xBC, 0x23, 0x29,
    0x73, 0x22, 0xE0, 0x5D, 0x8A, 0xF9, 0x79, 0xC4, 0x93, 0xF8, 0x8F, 0x5D, 0x6A, 0x87, 0x5D, 0xE3,
    0xB3, 0x8A, 0x70, 0x54, 0x4C, 0x46, 0x6C, 0xCA, 0x55, 0x8A, 0x7E, 0x07, 0x45, 0x7E, 0x45, 0x24,
    0x56, 0x40, 0x43, 0x6B, 0x4E, 0x32, 0x2F, 0x16, 0x9E, 0x65, 0x49, 0x77, 0x25, 0xFC, 0x62, 0x58,
    0xFE, 0x20, 0x7D, 0xBD, 0x63, 0xD6, 0x6F, 0x81, 0x92, 0x54, 0x22, 0x1B, 0xD4, 0x6B, 0xEC, 0x44,
    0xB8, 0x3F, 0x31, 0x00, 0x4A, 0xB3, 0xDA, 0x3E, 0x4E, 0x2A, 0xF7, 0x92, 0x42, 0x01, 0x45, 0x5F,
    0x14, 0x92, 0xA7, 0x99, 0xF8, 0xA5, 0x51, 0xB3, 0x30, 0x63, 0x55, 0x74, 0x62, 0xDE, 0x79, 0x6F,
    0xB9, 0xD9, 0x35, 0xBD, 0x85, 0xD3, 0xD3, 0x5F, 0xD5, 0x7F, 0x36, 0x8B, 0x0A, 0x82, 0x46, 0x98,
    0x46, 0xAE, 0x7A, 0xD2, 0x16, 0x3B, 0xCF, 0xA2, 0x2E, 0xB6, 0x98, 0x3D, 0x04, 0xC2, 0x10, 0xE5]

/-- The static array `P` of `XSecure_GetRsaPrivateKey`. -/
def XSecure_GetRsaPrivateKey_P : List Nat :=
  [
    0xE5, 0x15, 0x60, 0xAE, 0x8E, 0xAB, 0x44, 0x48, 0x9F, 0xD7, 0x54, 0x98, 0xA5, 0x6D, 0xD8, 0x8C,
    0x29, 0x85, 0x1E, 0x9E, 0x52, 0xDB, 0x04, 0xC1, 0x50, 0x17, 0x43, 0xFF, 0xE9, 0x5C, 0xFA, 0x9F,
    0x84, 0x9E, 0xAC, 0x8B, 0x95, 0xB3, 0x35, 0xD3, 0x7F, 0x06, 0x76, 0x6E, 0x45, 0x28, 0x47, 0x83,
    0x9F, 0x24, 0x98, 0x51, 0xF9, 0xFB, 0x18, 0xA1, 0xDE, 0x06, 0x65, 0x4C, 0xD0, 0xAE, 0xE5, 0xE8,
    0x82, 0x4C, 0x6A, 0x57, 0x64, 0xCC, 0xD5, 0xFE, 0x95, 0x8C, 0x2A, 0x36, 0x5C, 0x53, 0x1B, 0xCF,
    0xB6, 0x3A, 0x79, 0xB0, 0xFC, 0x1C, 0xE9, 0x39, 0x26, 0xCB, 0x41, 0x17, 0x8D, 0x42, 0x9A, 0x65,
    0x2D, 0x9E, 0xE3, 0xDC, 0x43, 0xA3, 0x5D, 0xE8, 0x4B, 0xC4, 0x50, 0xEA, 0xFE, 0x5E, 0x18, 0x64,
    0x91, 0x3F, 0xF6, 0x6C, 0x81, 0x6F, 0xF7, 0x02, 0xBC, 0xCE, 0x87, 0x5C, 0xA4, 0x2C, 0x22, 0xCC,
    0x68, 0x6F, 0xEF, 0x66, 0x48, 0x27, 0x88, 0xB0, 0xDD, 0xBD, 0x7A, 0xCD, 0xAE, 0x69, 0xD7, 0x74,
    0x2B, 0x71, 0x51, 0x58, 0xD5, 0x57, 0x22, 0x08, 0xA4, 0x9B, 0x5D, 0xD5, 0x79, 0x82, 0x77, 0x6B,
    0x86, 0x05, 0x41, 0xDA, 0x97, 0x82, 0x15, 0x93, 0x0A, 0x96, 0x90, 0xF0, 0xC5, 0xE2, 0x5F, 0x04,
    0x62, 0xA6, 0xB6, 0x79, 0xB7, 0xD6, 0x10, 0x47, 0x7E, 0xB8, 0x1F, 0x5E, 0x04, 0xC5, 0xF5, 0xF9]

/-- The static array `Q` of `XSecure_GetRsaPrivateKey`. -/
def XSecure_GetRsaPrivateKey_Q : List Nat :=
  [
    0xC1, 0x59, 0x62, 0x7B, 0x4B, 0xDB, 0xB8, 0xA6, 0xC4, 0x65, 0x74, 0x4E, 0x0C, 0xAF, 0xDD, 0xF6,
    0x80, 0xF3, 0xD9, 0x55, 0xF5, 0x33, 0x86, 0x6E, 0x62, 0x0A, 0xF3, 0x76, 0x2B, 0xA8, 0x53, 0x15,
    0x59, 0x20, 0xDE, 0xE4, 0x10, 0xFD, 0x40, 0x9B, 0xD0, 0xA6, 0x91, 0xCC, 0x08, 0x42, 0xDE, 0x2F,
    0x7E, 0xCE, 0x23, 0xB8, 0x2B, 0xB6, 0x10, 0x2C, 0x3F, 0x64, 0x1E, 0x9F, 0x21, 0x42, 0xBF, 0xD4,
    0x02, 0xF5, 0xB5, 0x6F, 0xB1, 0xBD, 0xAB, 0x09, 0xF0, 0x13, 0xBF, 0xCC, 0x31, 0x0E, 0x7C, 0x8F,
    0x42, 0x78, 0x13, 0x1C, 0x7E, 0xF1, 0x5F, 0x1C, 0x37, 0x97, 0x20, 0xAC, 0x9B, 0xD8, 0xC5, 0x58,
    0xB7, 0xDD, 0x76, 0x5A, 0xBD, 0x9B, 0xEB, 0xBF, 0xB3, 0xE2, 0xFD, 0xD5, 0x27, 0x51, 0xE7, 0x34,
    0x22, 0x11, 0x21, 0x7A, 0x20, 0xCA, 0xF2, 0xE9, 0x1F, 0xD0, 0x63, 0xDA, 0xFA, 0xEE, 0xCF, 0x08,
    0x07, 0x5E, 0x3C, 0xD6, 0xA5, 0xDD, 0xAB, 0x9B, 0xC2, 0xFD, 0x7A, 0xE4, 0x8B, 0x39, 0xE2, 0x64,
    0x94, 0xB1, 0xF1, 0x88, 0x13, 0xB1, 0xF4, 0x47, 0xF3, 0x2D, 0x55, 0x9F, 0x24, 0x42, 0x5C, 0xFE,
    0xA9, 0x4B, 0x68, 0xF3, 0x46, 0x2D, 0xC6, 0xF0, 0x03, 0x85, 0x82, 0xD6, 0xCD, 0xC0, 0xC7, 0xF6,
    0x01, 0xDA, 0x1C, 0xEC, 0xA3, 0x73, 0x84, 0x33, 0x07, 0x69, 0x36, 0xFC, 0x7D, 0xBC, 0x99, 0xEA]

/-- The static array `DP` of `XSecure_GetRsaPrivateKey`. -/
def XSecure_GetRsaPrivateKey_DP : List Nat :=
  [
    0x59, 0x65, 0x49, 0x6E, 0xA8, 0x50, 0xD4, 0x5B, 0x95, 0x91, 0x38, 0xDE, 0x48, 0x6F, 0xD1, 0x2C,
    0xC2, 0xD8, 0x5C, 0x84, 0x3C, 0xA1, 0xF4, 0x5C, 0xEF, 0x0C, 0x64, 0x72, 0xA4, 0xC7, 0x06, 0x86,
    0xE1, 0x44, 0x12, 0x08, 0x52, 0x19, 0x39, 0x2E, 0x64, 0x1D, 0x59, 0xA0, 0x4E, 0xC3, 0x7A, 0x50,
    0x03, 0x0F, 0xF1, 0x5C, 0x48, 0x75, 0x57, 0x17, 0x5C, 0x2B, 0xB5, 0x61, 0xE0, 0x0D, 0xE0, 0xD0,
    0x91, 0x01, 0xB2, 0x86, 0x18, 0x9B, 0x5D, 0x11, 0x70, 0xEC, 0x80, 0x5B, 0xC5, 0x77, 0x54, 0x97,
    0x90, 0x8A, 0xAB, 0xB4, 0x22, 0x73, 0x8C, 0xEA, 0xBF, 0xB6, 0x7B, 0x8D, 0x8A, 0x42, 0xC2, 0xEC,
    0xEA, 0x88, 0x9D, 0xCA, 0x82, 0x05, 0xFE, 0xAA, 0x56, 0x56, 0x8E, 0x87, 0xA9, 0x88, 0xFB, 0xB5,
    0x1D, 0x29, 0x84, 0xEE, 0xA0, 0x4D, 0xD6, 0x07, 0x62, 0xC0, 0xAE, 0x70, 0xBC, 0x15, 0x5B, 0x97,
    0xE4, 0x95, 0x53, 0x33, 0x4C, 0x7B, 0xE8, 0xE3, 0xB4, 0x95, 0x3D, 0xC4, 0x78, 0x12, 0xAF, 0x5A,
    0x43, 0x5D, 0x54, 0x7E, 0x29, 0x7D, 0x56, 0xB2, 0x7A, 0xBA, 0x5C, 0xFF, 0x6D, 0x8A, 0xA2, 0x89,
    0x36, 0x44, 0x30, 0x99, 0x4B, 0x4B, 0x8B, 0xCD, 0x9E, 0x2D, 0x7E, 0xD9, 0xB5, 0x78, 0xAB, 0x3F,
    0x4D, 0x92, 0xB1, 0x70, 0x83, 0xC1, 0x24, 0xB4, 0x42, 0xD1, 0xC4, 0xC7, 0xDF, 0x01, 0xD4, 0x98]

/-- The static array `DQ` of `XSecure_GetRsaPrivateKey`. -/
def XSecure_GetRsaPrivateKey_DQ : List Nat :=
  [
    0x81, 0x03, 0xED, 0x07, 0x3F, 0xB0, 0xC0, 0xF7, 0xAE, 0x34, 0x4F, 0xA2, 0x80, 0x18, 0x5E, 0x76,
    0x5E, 0xB3, 0x98, 0x63, 0xA9, 0xFC, 0x22, 0xD7, 0xFC, 0x9F, 0x01, 0x03, 0xFE, 0xF3, 0xC3, 0x1B,
    0xBD, 0xDD, 0xD1, 0x57, 0x2D, 0x85, 0x25, 0xC8, 0xD2, 0x87, 0x06, 0x14, 0xE4, 0xBC, 0xDF, 0x64,
    0x2A, 0xE6, 0x7A, 0x24, 0x7E, 0x99, 0xB8, 0xC2, 0x11, 0xAA, 0xBF, 0xDC, 0x26, 0x51, 0x2F, 0x6B,
    0x93, 0x1C, 0x1A, 0xF4, 0xAB, 0x3D, 0xF6, 0xCA, 0x49, 0xD7, 0x98, 0xB6, 0x81, 0xB9, 0xD1, 0x6B,
    0xC8, 0x64, 0xE4, 0xA8, 0x19, 0x1B, 0x16, 0x5C, 0x4C, 0x66, 0xA2, 0x6D, 0x4B, 0xE1, 0xC8, 0x3A,
    0x6A, 0x1C, 0x2A, 0x73, 0xB2, 0xD5, 0x0D, 0x39, 0x1C, 0x89, 0x0F, 0x3E, 0x8F, 0x66, 0xFE, 0x7D,
    0xA5, 0xF0, 0xA7, 0x4F, 0x1A, 0x2D, 0x88, 0x71, 0x2E, 0x38, 0x0A, 0xC8, 0x60, 0xF1, 0x06, 0x31,
    0x16, 0xAE, 0x5D, 0x49, 0xE6, 0x82, 0xCC, 0x3E, 0xD6, 0xC4, 0xE5, 0x16, 0x0E, 0x53, 0x25, 0x96,
    0x83, 0x5E, 0x2E, 0x05, 0x7E, 0xFD, 0x24, 0x1E, 0x70, 0x5B, 0x44, 0x49, 0x0C, 0xDF, 0x45, 0x6E,
    0x79, 0x77, 0x37, 0x6F, 0x49, 0x70, 0x9B, 0x13, 0x63, 0x4F, 0xD0, 0xE6, 0xF1, 0x49, 0xF5, 0xCF,
    0x7A, 0xAF, 0x73, 0x2D, 0xB8, 0x07, 0x8B, 0xEE, 0xB8, 0x62, 0x6F, 0x73, 0x8D, 0x11, 0xA6, 0x9A]

/-- The static array `QInv` of `XSecure_GetRsaPrivateKey`. -/
def XSecure_GetRsaPrivateKey_QInv : List Nat :=
  [
    0x66, 0x3E, 0xF3, 0xB9, 0x77, 0xC9, 0xE9, 0x65, 0x83, 0x1B, 0xE8, 0xBB, 0x9B, 0xEB, 0x64, 0xBD,
    0xC8, 0xF2, 0x30, 0x06, 0xFA, 0x9F, 0x2E, 0x91, 0xB3, 0x12, 0xA0, 0x5A, 0x05, 0xD3, 0x7A, 0x01,
    0x6D, 0x71, 0x9E, 0xB6, 0xBD, 0xCB, 0x74, 0x93, 0x74, 0x3F, 0xE1, 0x89, 0xED, 0xD6, 0x3C, 0x3B,
    0xF6, 0xBB, 0x98, 0x57, 0x5E, 0x91, 0x09, 0xE1, 0xE2, 0x07, 0x6F, 0xFB, 0x34, 0xC5, 0x86, 0x67,
    0xB9, 0xB3, 0xDA, 0x62, 0x43, 0xF5, 0xC7, 0x3F, 0x38, 0xD6, 0x44, 0xB6, 0xAE, 0xDB, 0xE3, 0x92,
    0xA6, 0x2C, 0x90, 0x9C, 0x2D, 0xA0, 0x80, 0x9E, 0x4A, 0x57, 0x63, 0x24, 0x1B, 0x6F, 0x72, 0x0A,
    0x08, 0x00, 0x5A, 0x3C, 0xEE, 0xFC, 0x62, 0x23, 0x4A, 0x06, 0xA5, 0x16, 0x3A, 0x90, 0x61, 0x8C,
    0xB3, 0xC8, 0x7A, 0xA4, 0xED, 0xAE, 0xCA, 0x98, 0x31, 0xD4, 0xAD, 0xAB, 0x75, 0x30, 0xE1, 0x0C,
    0xCA, 0xF4, 0xA4, 0x31, 0x1E, 0x67, 0x02, 0x27, 0x7D, 0x05, 0x33, 0x1D, 0xF0, 0x54, 0x9D, 0x83,
    0x37, 0xC4, 0xBE, 0x43, 0x95, 0x01, 0x30, 0x0F, 0xF7, 0x43, 0x47, 0x33, 0xA8, 0xC4, 0xC2, 0xC9,
    0x7A, 0x82, 0x6E, 0x66, 0x11, 0xD6, 0x32, 0x7E, 0x51, 0xD9, 0xAB, 0xEA, 0xE0, 0x15, 0xCB, 0xC4,
    0x56, 0x92, 0x36, 0x99, 0xDC, 0xB0, 0x4C, 0x4B, 0x4A, 0x93, 0x26, 0xC3, 0x7E, 0xD6, 0x69, 0x85]

/-! ## Key accessors and the static objects of the file -/

/-- Modelled from the spec: `XSECURE_RSA_3072_KEY_SIZE` (header missing) is the byte length
of a 3072-bit modulus. -/
def XSECURE_RSA_3072_KEY_SIZE : Nat := 384

/-- The public key `XSecure_RsaPubKey` (declaration missing; fields as used by the file):
pointers to the modulus and to the exponent bytes, `none` for `NULL`. -/
structure XSecure_RsaPubKey where
  Modulus : Option (List Nat)
  Exponent : Option (List Nat)
  deriving DecidableEq, Repr

/-- The objects with static storage duration: the key arrays, the word `PublicExp` and the
two key structures `RsaPrivKey` and `RsaPubKey` handed out by the accessors. -/
structure Statics where
  Modulus : List Nat
  P : List Nat
  Q : List Nat
  DP : List Nat
  DQ : List Nat
  QInv : List Nat
  PublicExp : Nat
  RsaPrivKey : XSecure_RsaKey
  RsaPubKey : XSecure_RsaPubKey
  deriving DecidableEq, Repr

/-- The static objects as initialised by their declarations. -/
def initialStatics : Statics :=
  { Modulus := Modulus
    P := XSecure_GetRsaPrivateKey_P
    Q := XSecure_GetRsaPrivateKey_Q
    DP := XSecure_GetRsaPrivateKey_DP
    DQ := XSecure_GetRsaPrivateKey_DQ
    QInv := XSecure_GetRsaPrivateKey_QInv
    PublicExp := 0x1000100
    RsaPrivKey := ⟨none, none, none, none, none, none⟩
    RsaPubKey := ⟨none, none⟩ }

/-- The four bytes of a `u32` in memory order (little-endian). -/
def u32Bytes (x : Nat) : List Nat :=
  [x % 256, x / 256 % 256, x / 65536 % 256, x / 16777216 % 256]

/-- The function `XSecure_GetRsaPrivateKey`: the static objects after the call and the key
structure the returned pointer refers to.  A pointer to a static array is the array. -/
def XSecure_GetRsaPrivateKey (s : Statics) : Statics × XSecure_RsaKey :=
  if XSECURE_RSA_KEY_GEN_SIZE_IN_BYTES = XSECURE_RSA_3072_KEY_SIZE then
    let RsaPrivKey : XSecure_RsaKey :=
      { Modulus := some s.Modulus, P := some s.P, Q := some s.Q, DP := some s.DP,
        DQ := some s.DQ, QInv := some s.QInv }
    ({ s with RsaPrivKey := RsaPrivKey }, RsaPrivKey)
  else (s, s.RsaPrivKey)

/-- The function `XSecure_GetRsaPublicKey`: the static objects after the call and the key
structure the returned pointer refers to. -/
def XSecure_GetRsaPublicKey (s : Statics) : Statics × XSecure_RsaPubKey :=
  if XSECURE_RSA_KEY_GEN_SIZE_IN_BYTES = XSECURE_RSA_3072_KEY_SIZE then
    let RsaPubKey : XSecure_RsaPubKey :=
      { Modulus := some s.Modulus, Exponent := some (u32Bytes s.PublicExp) }
    ({ s with RsaPubKey := RsaPubKey }, RsaPubKey)
  else (s, s.RsaPubKey)

/-- The key material held by the static objects. -/
def Statics.keyMaterial (s : Statics) : List (List Nat) × Nat :=
  ([s.Modulus, s.P, s.Q, s.DP, s.DQ, s.QInv], s.PublicExp)

/-- Everything the operations of the file act on: caller memory, the soft-reset register
and the static objects. -/
structure World where
  Mem : Mem
  SoftReset : Nat
  Statics : Statics

/-- A call of one of the operations of the file, with its arguments. -/
inductive CoreOp where
  | GetRsaPrivateKey
  | GetRsaPublicKey
  | RsaOaepEncode (OaepParam : XSecure_RsaOaepParam) (Output : List Nat)
  | RsaOaepDecode (OaepParam : XSecure_RsaOaepParam) (Input : List Nat)
  | RsaOaepEncrypt (InstancePtr : Option XSecure_Rsa) (OaepParam : Option XSecure_RsaOaepParam)
  | RsaOaepDecrypt (PrivKey : Option XSecure_RsaKey) (OaepParam : Option XSecure_RsaOaepParam)
  | RsaExpCRT (Hash P Q Dp Dq Qinv Pub Mod : Option (List Nat)) (Len : Int)
      (Res : Option (List Nat))
  | RsaExp (Hash Exp Mod P Q Pub Tot : Option (List Nat)) (Len : Int)
      (Res : Option (List Nat))

/-- The world after a call; `none` when the call leaves the bounds of a local array. -/
def CoreOp.run (env : Env) (eng : RsaEngine) (w : World) : CoreOp → Option World
  | CoreOp.GetRsaPrivateKey =>
    some { w with Statics := (XSecure_GetRsaPrivateKey w.Statics).1 }
  | CoreOp.GetRsaPublicKey =>
    some { w with Statics := (XSecure_GetRsaPublicKey w.Statics).1 }
  | CoreOp.RsaOaepEncode OaepParam Output =>
    (XSecure_RsaOaepEncode env w.Mem OaepParam Output).map fun _ => w
  | CoreOp.RsaOaepDecode OaepParam Input =>
    (XSecure_RsaOaepDecode env w.Mem OaepParam Input).map fun r => { w with Mem := r.Mem }
  | CoreOp.RsaOaepEncrypt InstancePtr OaepParam =>
    (XSecure_RsaOaepEncrypt env w.Mem InstancePtr OaepParam).map fun r =>
      { w with Mem := r.Mem }
  | CoreOp.RsaOaepDecrypt PrivKey OaepParam =>
    (XSecure_RsaOaepDecrypt env eng w.Mem w.SoftReset PrivKey OaepParam).map fun r =>
      { w with Mem := r.Mem, SoftReset := r.SoftReset }
  | CoreOp.RsaExpCRT Hash P Q Dp Dq Qinv Pub Mod Len Res =>
    some { w with
      SoftReset := (XSecure_RsaExpCRT eng w.SoftReset Hash P Q Dp Dq Qinv Pub Mod Len
        Res).SoftReset }
  | CoreOp.RsaExp Hash Exp Mod P Q Pub Tot Len Res =>
    some { w with
      SoftReset := (XSecure_RsaExp eng w.SoftReset Hash Exp Mod P Q Pub Tot Len Res).SoftReset }

/-- The world after a sequence of calls. -/
def runOps (env : Env) (eng : RsaEngine) : World → List CoreOp → Option World
  | w, [] => some w
  | w, op :: ops =>
    match op.run env eng w with
    | none => none
    | some w1 => runOps env eng w1 ops

/-- An engine whose primitives succeed and leave the byte-reversed operand `Hash` in the
result buffer. -/
def exampleEngine : RsaEngine :=
  ⟨fun hash _ _ _ _ _ _ _ _ _ => (XST_SUCCESS, hash.reverse),
    fun hash _ _ _ _ _ _ _ _ => (XST_SUCCESS, hash.reverse)⟩

/-- An engine whose primitives fail. -/
def failingEngine : RsaEngine :=
  ⟨fun _ _ _ _ _ _ _ _ _ res => (XST_FAILURE, res),
    fun _ _ _ _ _ _ _ _ res => (XST_FAILURE, res)⟩

/-! ## Reference definition of the OAEP block (from the specification) -/

/-- Byte-wise exclusive or of two byte strings. -/
def xorBytes (a b : List Nat) : List Nat := List.zipWith (fun x y => x ^^^ y) a b

/-- The data block `DB = Hash(Label) ‖ PS ‖ 0x01 ‖ Message` of the specification, with a
padding string `PS` of `PSLen` zero bytes. -/
def OaepReferenceDB (LHash : List Nat) (PSLen : Nat) (Message : List Nat) : List Nat :=
  LHash ++ zeros PSLen ++ [1] ++ Message

/-- The padded block of the specification, `0x00 ‖ maskedSeed ‖ maskedDB`, where
`maskedDB = DB xor MGF(Seed, len(DB))` and `maskedSeed = Seed xor MGF(maskedDB, HashLen)`. -/
def OaepReferenceBlock (Mgf : List Nat → Nat → List Nat) (HashLen : Nat)
    (DB Seed : List Nat) : List Nat :=
  let maskedDB := xorBytes DB (Mgf Seed DB.length)
  let maskedSeed := xorBytes Seed (Mgf maskedDB HashLen)
  [0] ++ maskedSeed ++ maskedDB

/-- The mask generator of an environment as a function to byte strings. -/
def Env.Mgf (env : Env) (sel : Nat) (seed : List Nat) (n : Nat) : List Nat :=
  bytesOf (env.XSecure_MaskGenFunc sel seed n).2 n

/-- The label bytes of a parameter block. -/
def labelOf (mem : Mem) (P : XSecure_RsaOaepParam) : List Nat :=
  memRead mem P.OptionalLabelAddr P.OptionalLabelSize

/-- The message bytes of a parameter block. -/
def messageOf (mem : Mem) (P : XSecure_RsaOaepParam) : List Nat :=
  memRead mem P.InputDataAddr P.InputDataSize

/-- The digest of a byte string under a hash descriptor, as a byte string. -/
def XSecure_HashAlgInfo.digest (hp : XSecure_HashAlgInfo) (data : List Nat) : List Nat :=
  bytesOf (hp.ShaDigest data).2 hp.HashLen

/-- The trace of a successful run of `XSecure_RsaOaepEncode`. -/
def encodeTrace (Label Seed maskedSeed maskedDB : List Nat) : List Event :=
  [Event.ShaDigest Label, Event.GetRandomNum Seed.length,
    Event.MaskGenFunc Seed maskedDB.length, Event.MaskGenFunc maskedDB Seed.length,
    Event.OutWrite 0 [0], Event.OutWrite 1 maskedSeed,
    Event.OutWrite (Seed.length + 1) maskedDB]

/-- The unmasked data block of the specification:
`DB = maskedDB xor MGF(maskedSeed xor MGF(maskedDB, HashLen), ModulusLen - HashLen - 1)`,
where `maskedSeed` and `maskedDB` are the bytes of the block after its leading byte. -/
def OaepUnmaskedDB (Mgf : List Nat → Nat → List Nat) (HashLen : Nat) (Block : List Nat) :
    List Nat :=
  let DBLen := XSECURE_RSA_KEY_GEN_SIZE_IN_BYTES - HashLen - 1
  let maskedSeed := (Block.drop 1).take HashLen
  let maskedDB := (Block.drop (1 + HashLen)).take DBLen
  xorBytes maskedDB (Mgf (xorBytes maskedSeed (Mgf maskedDB HashLen)) DBLen)

/-- The trace of `XSecure_RsaOaepDecode` up to the comparison of the label hash. -/
def decodeTrace (Mgf : List Nat → Nat → List Nat) (HashLen : Nat) (Label Block : List Nat) :
    List Event :=
  let DBLen := XSECURE_RSA_KEY_GEN_SIZE_IN_BYTES - HashLen - 1
  let maskedSeed := (Block.drop 1).take HashLen
  let maskedDB := (Block.drop (1 + HashLen)).take DBLen
  [Event.ShaDigest Label, Event.MaskGenFunc maskedDB HashLen,
    Event.MaskGenFunc (xorBytes maskedSeed (Mgf maskedDB HashLen)) DBLen]

/-! ## Concrete collaborators used to exercise the functions -/

/-- A hash descriptor with digest length `H` whose digest always succeeds. -/
def exampleHash (H : Nat) : XSecure_HashAlgInfo :=
  ⟨0, H, fun data => (XST_SUCCESS, fun i => (data.length + i) % 256)⟩

/-- Collaborators that always succeed: selector `0` resolves to `exampleHash H`. -/
def exampleEnv (H : Nat) : Env :=
  ⟨fun sel => if sel = 0 then some (exampleHash H) else none,
    fun _ => (XST_SUCCESS, fun i => (7 * i + 3) % 256),
    fun _ seed n => (XST_SUCCESS, fun i => (seed.length + n + i) % 256),
    fun _ block _ out mem => (XST_SUCCESS, memWrite mem out block)⟩

/-- Collaborators that always succeed and deliver zero bytes only. -/
def zeroEnv : Env :=
  ⟨fun _ => some ⟨0, XSECURE_SHA3_HASH_LENGTH_IN_BYTES, fun _ => (XST_SUCCESS, fun _ => 0)⟩,
    fun _ => (XST_SUCCESS, fun _ => 0),
    fun _ _ _ => (XST_SUCCESS, fun _ => 0),
    fun _ _ _ _ mem => (XST_SUCCESS, mem)⟩

/-- A caller memory. -/
def exampleMem : Mem := fun a => a % 256

/-- A parameter block: a 3-byte message at address 4096, a 2-byte label at address 256, the
output region at address 8192, selector `0`. -/
def exampleParam : XSecure_RsaOaepParam :=
  { InputDataAddr := 4096, OutputDataAddr := 8192, InputDataSize := 3, OutputDataSize := 0,
    OptionalLabelAddr := 256, OptionalLabelSize := 2, ShaInstancePtr := 1, ShaType := 0 }

/-- A public key instance. -/
def exampleKey : XSecure_Rsa := ⟨[], []⟩

/-- The hash descriptor every selector resolves to under `zeroEnv`. -/
def zeroHash : XSecure_HashAlgInfo :=
  ⟨0, XSECURE_SHA3_HASH_LENGTH_IN_BYTES, fun _ => (XST_SUCCESS, fun _ => 0)⟩

/-- A 384-byte block which, under `zeroEnv`, unmasks to the data block
`Hash(label) ‖ 0x00^284 ‖ 0x01 ‖ 05 06`. -/
def exampleBlock : List Nat := [0] ++ zeros 48 ++ (zeros 48 ++ zeros 284 ++ [1] ++ [5, 6])

/-- A 384-byte block with leading byte `0x00` which, under `zeroEnv`, unmasks to a data
block starting with the byte `0x09`, not with the label hash. -/
def exampleBadHashBlock : List Nat := [0] ++ zeros 48 ++ ([9] ++ zeros 334)

/-- A world in its initial state: the memory `exampleMem`, the engine out of reset and the
static objects as declared. -/
def exampleWorld : World := ⟨exampleMem, 0, initialStatics⟩

/-- A sequence of calls: the private key is fetched, its operands are handed to
`XSecure_RsaExpCRT` with a 384-byte result buffer, and the public key is fetched. -/
def exampleOps : List CoreOp :=
  [CoreOp.GetRsaPrivateKey,
    CoreOp.RsaExpCRT (some (zeros 384)) (some XSecure_GetRsaPrivateKey_P)
      (some XSecure_GetRsaPrivateKey_Q) (some XSecure_GetRsaPrivateKey_DP)
      (some XSecure_GetRsaPrivateKey_DQ) (some XSecure_GetRsaPrivateKey_QInv) none
      (some Modulus) 3072 (some (zeros 384)),
    CoreOp.GetRsaPublicKey]

/-- The world `exampleOps` leads to from `exampleWorld`: both key structures are filled in
and the engine is in reset. -/
def exampleWorldAfter : World :=
  ⟨exampleMem, 1,
    (XSecure_GetRsaPublicKey (XSecure_GetRsaPrivateKey initialStatics).1).1⟩

/-- The unsigned integer a byte string denotes when byte 0 is the least significant one. -/
def littleEndianValue : List Nat → Nat
  | [] => 0
  | b :: rest => b + 256 * littleEndianValue rest

/-- The unsigned integer a byte string denotes when byte 0 is the most significant one. -/
def bigEndianValue (bytes : List Nat) : Nat := littleEndianValue bytes.reverse

/-- Whether a call is one of the two exponentiations `XSecure_RsaExpCRT`, `XSecure_RsaExp`. -/
def CoreOp.isExponentiation : CoreOp → Bool
  | CoreOp.RsaExpCRT _ _ _ _ _ _ _ _ _ _ => true
  | CoreOp.RsaExp _ _ _ _ _ _ _ _ _ => true
  | _ => false

/-- Three exponentiations in a row: a CRT exponentiation, an exponentiation whose operand
`Hash` is `NULL`, and a plain exponentiation. -/
def exampleExponentiations : List CoreOp :=
  [CoreOp.RsaExpCRT (some [1]) (some [2]) (some [3]) (some [4]) (some [5]) (some [6]) none
      none 3072 (some [0]),
    CoreOp.RsaExp none (some [1]) (some [1]) none none none none 3072 (some [0]),
    CoreOp.RsaExp (some [1]) (some [2]) (some [3]) none none none none 3072 (some [0])]

/-- Collaborators as in `exampleEnv 48`, except that the digest function of the hash
descriptor reports the failure status `External 77`. -/
def failingHashEnv : Env :=
  ⟨fun _ => some ⟨0, 48, fun _ => (External 77, fun _ => 0)⟩,
    (exampleEnv 48).XSecure_GetRandomNum, (exampleEnv 48).XSecure_MaskGenFunc,
    (exampleEnv 48).XSecure_RsaPublicEncrypt_64Bit⟩

/-- A 384-byte block with leading byte `0x00` which, under `exampleEnv 48` and the label of
`exampleParam`, unmasks to the label hash followed by 287 bytes `0x00`: the encoding, with
seed `3, 10, 17, …`, of a data block without separator. -/
def examplePaddingOnlyBlock : List Nat :=
  OaepReferenceBlock ((exampleEnv 48).Mgf 0) 48
    ((exampleHash 48).digest [0, 1] ++ zeros 287) (bytesOf (fun i => (7 * i + 3) % 256) 48)

/-- The padded block as the specification lays it out for the modulus length of the
deployment: `0x00 ‖ MaskedSeed(HashLen) ‖ MaskedDB(ModulusLen - HashLen - 1)` with
`DB = Hash(Label) ‖ PS ‖ 0x01 ‖ Message`, the zero padding `PS` having the length
`ModulusLen - 2 * HashLen - 2 - len(Message)` that makes the block exactly `ModulusLen`
bytes. -/
def OaepSpecPaddedBlock (Mgf : List Nat → Nat → List Nat) (HashLen : Nat)
    (LHash Message Seed : List Nat) : List Nat :=
  OaepReferenceBlock Mgf HashLen
    (OaepReferenceDB LHash
      (XSECURE_RSA_KEY_GEN_SIZE_IN_BYTES - 2 * HashLen - 2 - Message.length) Message) Seed

/-- The collaborators of `exampleEnv H` with an entropy source that delivers zero bytes. -/
def exampleZeroSeedEnv (H : Nat) : Env :=
  ⟨(exampleEnv H).XSecure_GetHashInstance, fun _ => (XST_SUCCESS, fun _ => 0),
    (exampleEnv H).XSecure_MaskGenFunc, (exampleEnv H).XSecure_RsaPublicEncrypt_64Bit⟩

/-- The parameter block `exampleParam` with a label of three bytes instead of two. -/
def exampleOtherLabelParam : XSecure_RsaOaepParam :=
  { exampleParam with OptionalLabelSize := 3 }

/-- The 384-byte block the specification prescribes, under the collaborators of
`exampleEnv 32` (hash length 32), for the message `05 06`, the label of `exampleParam` and
the seed `3, 10, 17, …`: its data block is `Hash(label) ‖ 0x00^316 ‖ 0x01 ‖ 05 06`. -/
def exampleSpecBlock32 : List Nat :=
  OaepSpecPaddedBlock ((exampleEnv 32).Mgf 0) 32 ((exampleHash 32).digest [0, 1]) [5, 6]
    (bytesOf (fun i => (7 * i + 3) % 256) 32)

/-! ## The static key arrays in memory -/

/-- The addresses of the static arrays `Modulus`, `P`, `Q`, `DP`, `DQ`, `QInv` and of the
word `PublicExp`.  The objects are not `const`: they lie in the memory that the result and
output pointers handed to the operations range over. -/
structure KeyLayout where
  Modulus : Nat
  P : Nat
  Q : Nat
  DP : Nat
  DQ : Nat
  QInv : Nat
  PublicExp : Nat
  deriving DecidableEq, Repr

/-- The state the operations act on when the static arrays are part of memory: memory, the
soft-reset register and the two static key structures filled in by the accessors. -/
structure Machine where
  Mem : Mem
  SoftReset : Nat
  RsaPrivKey : XSecure_RsaKey
  RsaPubKey : XSecure_RsaPubKey

/-- The static objects of a machine: the key arrays and the word `PublicExp` as they stand
in memory at the addresses of the layout, and the two key structures. -/
def Machine.statics (L : KeyLayout) (m : Machine) : Statics :=
  { Modulus := memRead m.Mem L.Modulus XSECURE_RSA_KEY_GEN_SIZE_IN_BYTES
    P := memRead m.Mem L.P (XSECURE_RSA_KEY_GEN_SIZE_IN_BYTES / 2)
    Q := memRead m.Mem L.Q (XSECURE_RSA_KEY_GEN_SIZE_IN_BYTES / 2)
    DP := memRead m.Mem L.DP (XSECURE_RSA_KEY_GEN_SIZE_IN_BYTES / 2)
    DQ := memRead m.Mem L.DQ (XSECURE_RSA_KEY_GEN_SIZE_IN_BYTES / 2)
    QInv := memRead m.Mem L.QInv (XSECURE_RSA_KEY_GEN_SIZE_IN_BYTES / 2)
    PublicExp := littleEndianValue (memRead m.Mem L.PublicExp 4)
    RsaPrivKey := m.RsaPrivKey
    RsaPubKey := m.RsaPubKey }

/-- A call of one of the public functions of the file.  An operand that is only read is the
array it points to (`none` for `NULL`); the result pointer `Res` of an exponentiation is an
address, zero for `NULL`.  `XSecure_RsaOaepEncode` and `XSecure_RsaOaepDecode` are `static`
and run as part of Encrypt and Decrypt. -/
inductive Call where
  | GetRsaPrivateKey
  | GetRsaPublicKey
  | RsaOaepEncrypt (InstancePtr : Option XSecure_Rsa) (OaepParam : Option XSecure_RsaOaepParam)
  | RsaOaepDecrypt (PrivKey : Option XSecure_RsaKey) (OaepParam : Option XSecure_RsaOaepParam)
  | RsaExpCRT (Hash P Q Dp Dq Qinv Pub Mod : Option (List Nat)) (Len : Int) (Res : Nat)
  | RsaExp (Hash Exp Mod P Q Pub Tot : Option (List Nat)) (Len : Int) (Res : Nat)

/-- The number of bytes of the result of an exponentiation of `Len` bits. -/
def resultBytes (Len : Int) : Nat := (Len / 8).toNat

/-- The result buffer an exponentiation is handed: `NULL` for the address zero, otherwise
the `resultBytes Len` bytes at `Res`. -/
def resultBuffer (mem : Mem) (Res : Nat) (Len : Int) : Option (List Nat) :=
  if Res = 0 then none else some (memRead mem Res (resultBytes Len))

/-- Memory after the contents of the result buffer have been stored at `Res`. -/
def storeResult (mem : Mem) (Res : Nat) : Option (List Nat) → Mem
  | some R => memWrite mem Res R
  | none => mem

/-- The machine after a call; `none` when the call leaves the bounds of a local array.  The
accessors store into the static structures only (lines 450-455 and 475-476). -/
def Call.run (L : KeyLayout) (env : Env) (eng : RsaEngine) (m : Machine) :
    Call → Option Machine
  | Call.GetRsaPrivateKey =>
    some { m with RsaPrivKey := (XSecure_GetRsaPrivateKey (m.statics L)).1.RsaPrivKey }
  | Call.GetRsaPublicKey =>
    some { m with RsaPubKey := (XSecure_GetRsaPublicKey (m.statics L)).1.RsaPubKey }
  | Call.RsaOaepEncrypt InstancePtr OaepParam =>
    (XSecure_RsaOaepEncrypt env m.Mem InstancePtr OaepParam).map fun r =>
      { m with Mem := r.Mem }
  | Call.RsaOaepDecrypt PrivKey OaepParam =>
    (XSecure_RsaOaepDecrypt env eng m.Mem m.SoftReset PrivKey OaepParam).map fun r =>
      { m with Mem := r.Mem, SoftReset := r.SoftReset }
  | Call.RsaExpCRT Hash P Q Dp Dq Qinv Pub Mod Len Res =>
    let r := XSecure_RsaExpCRT eng m.SoftReset Hash P Q Dp Dq Qinv Pub Mod Len
      (resultBuffer m.Mem Res Len)
    some { m with Mem := storeResult m.Mem Res r.Res, SoftReset := r.SoftReset }
  | Call.RsaExp Hash Exp Mod P Q Pub Tot Len Res =>
    let r := XSecure_RsaExp eng m.SoftReset Hash Exp Mod P Q Pub Tot Len
      (resultBuffer m.Mem Res Len)
    some { m with Mem := storeResult m.Mem Res r.Res, SoftReset := r.SoftReset }

@[simp] theorem zeros_length (n : Nat) : (zeros n).length = n := by
  simp [zeros]

@[simp] theorem bytesOf_length (f : Nat → Nat) (n : Nat) : (bytesOf f n).length = n := by
  simp [bytesOf]

@[simp] theorem memRead_length (mem : Mem) (a n : Nat) : (memRead mem a n).length = n := by
  simp [memRead]

@[simp] theorem xorBytes_length (a b : List Nat) :
    (xorBytes a b).length = min a.length b.length := by
  simp [xorBytes]

theorem zeros_add (m n : Nat) : zeros (m + n) = zeros m ++ zeros n := by
  unfold zeros
  exact List.replicate_add m n 0

theorem zeros_succ (n : Nat) : zeros (n + 1) = 0 :: zeros n := by
  simp [zeros, List.replicate_succ]

theorem xorBytes_cancel (a b : List Nat) (h : a.length ≤ b.length) :
    xorBytes (xorBytes a b) b = a := by
  induction a generalizing b with
  | nil => simp [xorBytes]
  | cons x t ih =>
    cases b with
    | nil => simp at h
    | cons y u =>
      have hu : t.length ≤ u.length := by simpa using h
      have := ih u hu
      simp only [xorBytes, List.zipWith_cons_cons] at this ⊢
      rw [this, Nat.xor_cancel_right]

theorem sub32_of_le (a b : Nat) (h : b ≤ a) (ha : a < 4294967296) : sub32 a b = a - b := by
  unfold sub32
  split <;> omega

theorem sub32_of_lt (a b : Nat) (h : a < b) (hb : b < 4294967296) :
    sub32 a b = a + 4294967296 - b := by
  unfold sub32
  split <;> omega

theorem add32_of_lt (a b : Nat) (h : a + b < 4294967296) : add32 a b = a + b := by
  unfold add32
  omega

theorem mul32_of_lt (a b : Nat) (h : a * b < 4294967296) : mul32 a b = a * b := by
  unfold mul32
  omega

theorem bufWrite_mid (a b c src : List Nat) (off : Nat) (hoff : off = a.length)
    (hlen : src.length = b.length) :
    bufWrite (a ++ b ++ c) off src = some (a ++ src ++ c) := by
  subst hoff
  unfold bufWrite
  rw [if_pos (by simp [hlen])]
  simp [hlen, List.take_append_eq_append_take, List.drop_append_eq_append_drop]

theorem bufRead_mid (a b c : List Nat) (off n : Nat) (hoff : off = a.length)
    (hn : n = b.length) :
    bufRead (a ++ b ++ c) off n = some b := by
  subst hoff hn
  unfold bufRead
  rw [if_pos (by simp)]
  simp [List.take_append_eq_append_take, List.drop_append_eq_append_drop]

theorem bufSet_mid (a c : List Nat) (x v i : Nat) (hi : i = a.length) :
    bufSet (a ++ x :: c) i v = some (a ++ v :: c) := by
  subst hi
  unfold bufSet
  rw [if_pos (by simp)]
  simp

theorem bufGet_mid (a c : List Nat) (x i : Nat) (hi : i = a.length) :
    bufGet (a ++ x :: c) i = some x := by
  subst hi
  unfold bufGet
  rw [List.get?_eq_getElem?, List.getElem?_append_right (le_refl _)]
  simp

theorem bufXor_head (a c m : List Nat) (n : Nat) (hn : n = a.length)
    (hm : a.length ≤ m.length) :
    bufXor (a ++ c) m n = some (xorBytes a (m.take n) ++ c) := by
  subst hn
  unfold bufXor
  rw [if_pos (by simp [hm])]
  simp [xorBytes]

theorem bufWrite_ok (b : List Nat) (off : Nat) (src : List Nat)
    (h : off + src.length ≤ b.length) :
    ∃ b1, bufWrite b off src = some b1 ∧ b1.length = b.length := by
  refine ⟨_, if_pos h, ?_⟩
  simp only [List.length_append, List.length_take, List.length_drop]
  omega

theorem bufSet_ok (b : List Nat) (i v : Nat) (h : i < b.length) :
    ∃ b1, bufSet b i v = some b1 ∧ b1.length = b.length :=
  ⟨_, if_pos h, List.length_set _ _ _⟩

theorem bufRead_ok (b : List Nat) (off n : Nat) (h : off + n ≤ b.length) :
    ∃ r, bufRead b off n = some r ∧ r.length = n := by
  refine ⟨_, if_pos h, ?_⟩
  simp only [List.length_take, List.length_drop]
  omega

theorem bufXor_ok (b m : List Nat) (n : Nat) (hb : n ≤ b.length) (hm : n ≤ m.length) :
    ∃ b1, bufXor b m n = some b1 ∧ b1.length = b.length := by
  refine ⟨_, if_pos ⟨hb, hm⟩, ?_⟩
  simp only [List.length_append, List.length_zipWith, List.length_take, List.length_drop]
  omega

/-! ## The block written by `XSecure_RsaOaepEncode` -/

theorem ActualMsgLen_small (H : Nat) (hH : H ≤ XSECURE_SHA3_HASH_LENGTH_IN_BYTES) :
    XSecure_RsaOaepEncode_ActualMsgLen H = 190 + 2 * H := by
  simp only [XSecure_RsaOaepEncode_ActualMsgLen, XSECURE_SHA3_HASH_LENGTH_IN_BYTES,
    XSECURE_RSA_MAX_MSG_SIZE_IN_BYTES, XSECURE_RSA_KEY_GEN_SIZE_IN_BYTES] at hH ⊢
  rw [if_neg (by omega), sub32_of_le 48 H hH (by omega),
    mul32_of_lt (48 - H) 2 (by omega), sub32_of_le _ _ (by omega) (by omega)]
  omega

theorem ActualMsgLen_large (H : Nat) (hH : XSECURE_SHA3_HASH_LENGTH_IN_BYTES ≤ H)
    (hH2 : 2 * H + 2 ≤ XSECURE_RSA_KEY_GEN_SIZE_IN_BYTES) :
    XSecure_RsaOaepEncode_ActualMsgLen H = XSECURE_RSA_KEY_GEN_SIZE_IN_BYTES - 2 * H - 2 := by
  simp only [XSecure_RsaOaepEncode_ActualMsgLen, XSECURE_SHA3_HASH_LENGTH_IN_BYTES,
    XSECURE_RSA_MAX_MSG_SIZE_IN_BYTES, XSECURE_RSA_KEY_GEN_SIZE_IN_BYTES] at hH hH2 ⊢
  split
  · rw [sub32_of_le H 48 hH (by omega), mul32_of_lt (H - 48) 2 (by omega),
      sub32_of_le _ _ (by omega) (by omega)]
    omega
  · rw [sub32_of_le 48 H (by omega) (by omega), mul32_of_lt (48 - H) 2 (by omega),
      sub32_of_le _ _ (by omega) (by omega)]
    omega

theorem list_split3 (l : List Nat) (a b : Nat) :
    l = l.take a ++ (l.drop a).take b ++ l.drop (a + b) := by
  rw [List.append_assoc, ← List.drop_drop, List.take_append_drop, List.take_append_drop]

theorem encode_DB_build (lH M : List Nat) (k R : Nat) :
    ∃ DB1 DB2, bufWrite (zeros (lH.length + k + 1 + M.length + R)) 0 lH = some DB1 ∧
      bufSet DB1 (lH.length + k) 1 = some DB2 ∧
      bufWrite DB2 (lH.length + k + 1) M = some (OaepReferenceDB lH k M ++ zeros R) := by
  refine ⟨lH ++ zeros k ++ 0 :: (zeros M.length ++ zeros R),
    lH ++ zeros k ++ 1 :: (zeros M.length ++ zeros R), ?_, ?_, ?_⟩
  · have h : zeros (lH.length + k + 1 + M.length + R) =
        [] ++ zeros lH.length ++ (zeros k ++ 0 :: (zeros M.length ++ zeros R)) := by
      rw [zeros_add, zeros_add, zeros_add, zeros_add]
      simp [show zeros 1 = [0] from rfl]
    rw [h, bufWrite_mid [] (zeros lH.length) _ lH 0 rfl (by simp)]
    simp
  · exact bufSet_mid (lH ++ zeros k) (zeros M.length ++ zeros R) 0 1 _ (by simp)
  · have h : lH ++ zeros k ++ 1 :: (zeros M.length ++ zeros R) =
        (lH ++ zeros k ++ [1]) ++ zeros M.length ++ zeros R := by simp
    rw [h, bufWrite_mid (lH ++ zeros k ++ [1]) (zeros M.length) (zeros R) M _
      (by simp; omega) (by simp)]
    simp [OaepReferenceDB]

theorem buf_fill_read (src : List Nat) (cap : Nat) (h : src.length ≤ cap) :
    bufWrite (zeros cap) 0 src = some (src ++ zeros (cap - src.length)) ∧
      bufRead (src ++ zeros (cap - src.length)) 0 src.length = some src := by
  constructor
  · have hz : zeros cap = [] ++ zeros src.length ++ zeros (cap - src.length) := by
      rw [List.nil_append, ← zeros_add]
      congr 1
      omega
    rw [hz, bufWrite_mid [] (zeros src.length) _ src 0 rfl (by simp)]
    simp
  · have := bufRead_mid [] src (zeros (cap - src.length)) 0 src.length rfl rfl
    simpa using this

theorem encode_Output_build (Output ms mdb : List Nat)
    (h : 1 + ms.length + mdb.length ≤ Output.length) :
    ∃ O1 O2, bufSet Output 0 0 = some O1 ∧ bufWrite O1 1 ms = some O2 ∧
      bufWrite O2 (ms.length + 1) mdb =
        some ([0] ++ ms ++ mdb ++ Output.drop (1 + ms.length + mdb.length)) := by
  cases Output with
  | nil => simp at h
  | cons o rest =>
    have hr : ms.length + mdb.length ≤ rest.length := by
      simp only [List.length_cons] at h
      omega
    have hsplit := list_split3 rest ms.length mdb.length
    refine ⟨0 :: rest, [0] ++ ms ++ ((rest.drop ms.length).take mdb.length ++
      rest.drop (ms.length + mdb.length)), ?_, ?_, ?_⟩
    · exact bufSet_mid [] rest o 0 0 rfl
    · have h1 : (0 :: rest) = [0] ++ rest.take ms.length ++
          ((rest.drop ms.length).take mdb.length ++ rest.drop (ms.length + mdb.length)) := by
        conv_lhs => rw [hsplit]
        simp
      conv_lhs => rw [h1]
      exact bufWrite_mid [0] _ _ ms 1 rfl (by simp; omega)
    · have h2 : [0] ++ ms ++ ((rest.drop ms.length).take mdb.length ++
          rest.drop (ms.length + mdb.length)) =
          ([0] ++ ms) ++ (rest.drop ms.length).take mdb.length ++
            rest.drop (ms.length + mdb.length) := by simp
      rw [h2, bufWrite_mid ([0] ++ ms) _ _ mdb _ (by simp) (by simp; omega)]
      congr 2
      rw [show 1 + ms.length + mdb.length = (ms.length + mdb.length) + 1 by omega]
      simp

theorem encode_eq (env : Env) (mem : Mem) (P : XSecure_RsaOaepParam) (Output : List Nat)
    (hp : XSecure_HashAlgInfo)
    (hres : env.XSecure_GetHashInstance P.ShaType = some hp)
    (hH : hp.HashLen ≤ XSECURE_SHA3_HASH_LENGTH_IN_BYTES)
    (hin : P.InputDataAddr ≠ 0) (hout : P.OutputDataAddr ≠ 0)
    (hn : P.InputDataSize ≤ XSecure_RsaOaepEncode_ActualMsgLen hp.HashLen)
    (hdig : (hp.ShaDigest (labelOf mem P)).1 = XST_SUCCESS)
    (hrnd : (env.XSecure_GetRandomNum hp.HashLen).1 = XST_SUCCESS)
    (hmgf : ∀ seed n, (env.XSecure_MaskGenFunc P.ShaType seed n).1 = XST_SUCCESS)
    (hO : Output.length = XSECURE_RSA_KEY_GEN_SIZE_IN_BYTES) :
    XSecure_RsaOaepEncode env mem P Output =
      some ⟨XST_SUCCESS, P,
        OaepReferenceBlock (env.Mgf P.ShaType) hp.HashLen
            (OaepReferenceDB (hp.digest (labelOf mem P))
              (XSecure_RsaOaepEncode_ActualMsgLen hp.HashLen - P.InputDataSize)
              (messageOf mem P))
            (bytesOf (env.XSecure_GetRandomNum hp.HashLen).2 hp.HashLen) ++
          Output.drop (XSecure_RsaOaepEncode_ActualMsgLen hp.HashLen + 2 * hp.HashLen + 2),
        encodeTrace (labelOf mem P) (bytesOf (env.XSecure_GetRandomNum hp.HashLen).2 hp.HashLen)
          (xorBytes (bytesOf (env.XSecure_GetRandomNum hp.HashLen).2 hp.HashLen)
            (env.Mgf P.ShaType (xorBytes (OaepReferenceDB (hp.digest (labelOf mem P))
              (XSecure_RsaOaepEncode_ActualMsgLen hp.HashLen - P.InputDataSize)
              (messageOf mem P)) (env.Mgf P.ShaType (bytesOf (env.XSecure_GetRandomNum hp.HashLen).2 hp.HashLen) (XSecure_RsaOaepEncode_ActualMsgLen hp.HashLen + hp.HashLen + 1))) hp.HashLen))
          (xorBytes (OaepReferenceDB (hp.digest (labelOf mem P))
              (XSecure_RsaOaepEncode_ActualMsgLen hp.HashLen - P.InputDataSize)
              (messageOf mem P)) (env.Mgf P.ShaType (bytesOf (env.XSecure_GetRandomNum hp.HashLen).2 hp.HashLen) (XSecure_RsaOaepEncode_ActualMsgLen hp.HashLen + hp.HashLen + 1)))⟩ := by
  have hA := ActualMsgLen_small hp.HashLen hH
  unfold XSecure_RsaOaepEncode
  simp only [hres, hin, hout, or_self, if_false, not_lt.mpr hn, gt_iff_lt]
  simp only [XSecure_HashAlgInfo.digest, labelOf, messageOf] at hdig ⊢
  simp only [hdig, hrnd, hmgf, ne_eq, not_true_eq_false, if_false]
  generalize hLdef : memRead mem P.OptionalLabelAddr P.OptionalLabelSize = L
  have hlH : (bytesOf (hp.ShaDigest L).2 hp.HashLen).length = hp.HashLen := by simp
  generalize bytesOf (hp.ShaDigest L).2 hp.HashLen = lH at hlH ⊢
  have hM : (memRead mem P.InputDataAddr P.InputDataSize).length = P.InputDataSize := by simp
  generalize memRead mem P.InputDataAddr P.InputDataSize = M at hM ⊢
  have hS : (bytesOf (env.XSecure_GetRandomNum hp.HashLen).2 hp.HashLen).length = hp.HashLen := by
    simp
  generalize bytesOf (env.XSecure_GetRandomNum hp.HashLen).2 hp.HashLen = S at hS ⊢
  rw [hA] at hn ⊢
  generalize hp.HashLen = H at *
  generalize P.InputDataSize = n at *
  simp only [XSECURE_SHA3_HASH_LENGTH_IN_BYTES] at hH
  have hI : sub32 (190 + 2 * H) n = 190 + 2 * H - n := sub32_of_le _ _ hn (by omega)
  have hO1 : add32 H (190 + 2 * H - n) = lH.length + (190 + 2 * H - n) := by
    rw [hlH]; exact add32_of_lt _ _ (by omega)
  have hO2 : add32 (lH.length + (190 + 2 * H - n)) 1 = lH.length + (190 + 2 * H - n) + 1 := by
    rw [hlH]; exact add32_of_lt _ _ (by omega)
  have hD : add32 (add32 (add32 (190 + 2 * H - n) n) H) 1 = 190 + 2 * H + H + 1 := by
    simp only [add32]; omega
  have hcap : XSECURE_RSA_MAX_DB_SIZE_IN_BYTES =
      lH.length + (190 + 2 * H - n) + 1 + M.length + (144 - 3 * H) := by
    simp only [XSECURE_RSA_MAX_DB_SIZE_IN_BYTES, XSECURE_RSA_MAX_PS_SIZE_IN_BYTES,
      XSECURE_RSA_MAX_MSG_SIZE_IN_BYTES, XSECURE_RSA_KEY_GEN_SIZE_IN_BYTES,
      XSECURE_SHA3_HASH_LENGTH_IN_BYTES]
    omega
  rw [hI, hO1, hO2, hD]
  obtain ⟨DB1, DB2, e1, e2, e3⟩ := encode_DB_build lH M (190 + 2 * H - n) (144 - 3 * H)
  rw [← hcap] at e1
  simp only [e1, e2, e3]
  have hsc : S.length ≤ XSECURE_SHA3_HASH_LENGTH_IN_BYTES := by
    simp only [XSECURE_SHA3_HASH_LENGTH_IN_BYTES]; omega
  obtain ⟨s1, s2⟩ := buf_fill_read S XSECURE_SHA3_HASH_LENGTH_IN_BYTES hsc
  have s3 : bufRead (S ++ zeros (XSECURE_SHA3_HASH_LENGTH_IN_BYTES - S.length)) 0 H = some S := by
    rw [← hS]; exact s2
  simp only [s1, s3]
  have hDB : (OaepReferenceDB lH (190 + 2 * H - n) M).length = 190 + 2 * H + H + 1 := by
    simp [OaepReferenceDB]; omega
  generalize OaepReferenceDB lH (190 + 2 * H - n) M = DB at hDB e3 ⊢
  have hm1 : (bytesOf (env.XSecure_MaskGenFunc P.ShaType S (190 + 2 * H + H + 1)).2
      (190 + 2 * H + H + 1)).length = 190 + 2 * H + H + 1 := by simp
  simp only [OaepReferenceBlock, Env.Mgf, hDB]
  generalize bytesOf (env.XSecure_MaskGenFunc P.ShaType S (190 + 2 * H + H + 1)).2
      (190 + 2 * H + H + 1) = m1 at hm1 ⊢
  have hmc : m1.length ≤ XSECURE_RSA_MAX_DB_SIZE_IN_BYTES := by
    simp only [XSECURE_RSA_MAX_DB_SIZE_IN_BYTES, XSECURE_RSA_MAX_PS_SIZE_IN_BYTES,
      XSECURE_RSA_MAX_MSG_SIZE_IN_BYTES, XSECURE_RSA_KEY_GEN_SIZE_IN_BYTES,
      XSECURE_SHA3_HASH_LENGTH_IN_BYTES]
    omega
  obtain ⟨d1, -⟩ := buf_fill_read m1 XSECURE_RSA_MAX_DB_SIZE_IN_BYTES hmc
  simp only [d1]
  have x1 : bufXor (DB ++ zeros (144 - 3 * H))
      (m1 ++ zeros (XSECURE_RSA_MAX_DB_SIZE_IN_BYTES - m1.length)) (190 + 2 * H + H + 1) =
      some (xorBytes DB m1 ++ zeros (144 - 3 * H)) := by
    have := bufXor_head DB (zeros (144 - 3 * H))
      (m1 ++ zeros (XSECURE_RSA_MAX_DB_SIZE_IN_BYTES - m1.length)) (190 + 2 * H + H + 1)
      hDB.symm (by simp; omega)
    rwa [List.take_left' hm1] at this
  have x2 : bufRead (xorBytes DB m1 ++ zeros (144 - 3 * H)) 0 (190 + 2 * H + H + 1) =
      some (xorBytes DB m1) := by
    have := bufRead_mid [] (xorBytes DB m1) (zeros (144 - 3 * H)) 0 (190 + 2 * H + H + 1) rfl
      (by simp [hDB, hm1])
    simpa using this
  simp only [x1, x2]
  have hm2 : (bytesOf (env.XSecure_MaskGenFunc P.ShaType (xorBytes DB m1) H).2 H).length = H := by
    simp
  generalize bytesOf (env.XSecure_MaskGenFunc P.ShaType (xorBytes DB m1) H).2 H = m2 at hm2 ⊢
  have hm2c : m2.length ≤ XSECURE_SHA3_HASH_LENGTH_IN_BYTES := by
    simp only [XSECURE_SHA3_HASH_LENGTH_IN_BYTES]; omega
  obtain ⟨d2, -⟩ := buf_fill_read m2 XSECURE_SHA3_HASH_LENGTH_IN_BYTES hm2c
  have x3 : bufXor (S ++ zeros (XSECURE_SHA3_HASH_LENGTH_IN_BYTES - S.length))
      (m2 ++ zeros (XSECURE_SHA3_HASH_LENGTH_IN_BYTES - m2.length)) H =
      some (xorBytes S m2 ++ zeros (XSECURE_SHA3_HASH_LENGTH_IN_BYTES - S.length)) := by
    have := bufXor_head S (zeros (XSECURE_SHA3_HASH_LENGTH_IN_BYTES - S.length))
      (m2 ++ zeros (XSECURE_SHA3_HASH_LENGTH_IN_BYTES - m2.length)) H
      hS.symm (by simp; omega)
    rwa [List.take_left' hm2] at this
  have x4 : bufRead (xorBytes S m2 ++ zeros (XSECURE_SHA3_HASH_LENGTH_IN_BYTES - S.length)) 0 H =
      some (xorBytes S m2) := by
    have := bufRead_mid [] (xorBytes S m2) (zeros (XSECURE_SHA3_HASH_LENGTH_IN_BYTES - S.length))
      0 H rfl (by simp [hS, hm2])
    simpa using this
  simp only [d2, x3, x4]
  have hlen : 1 + (xorBytes S m2).length + (xorBytes DB m1).length ≤ Output.length := by
    simp only [xorBytes_length, hS, hm2, hDB, hm1, hO, XSECURE_RSA_KEY_GEN_SIZE_IN_BYTES]
    omega
  obtain ⟨O1, O2, o1, o2, o3⟩ := encode_Output_build Output (xorBytes S m2) (xorBytes DB m1) hlen
  have hl1 : (xorBytes S m2).length = H := by simp [hS, hm2]
  have hl2 : (xorBytes DB m1).length = 190 + 2 * H + H + 1 := by simp [hDB, hm1]
  rw [hl1, hl2] at o3
  simp only [o1, o2, o3, encodeTrace, hS, hl2]
  have hd : 1 + H + (190 + 2 * H + H + 1) = 190 + 2 * H + 2 * H + 2 := by omega
  rw [hd]
  simp

/-! ## Unmasking in `XSecure_RsaOaepDecode` -/

theorem xorBytes_comm (a b : List Nat) : xorBytes a b = xorBytes b a := by
  induction a generalizing b with
  | nil => cases b <;> simp [xorBytes]
  | cons x t ih =>
    cases b with
    | nil => simp [xorBytes]
    | cons y u =>
      have := ih u
      simp only [xorBytes, List.zipWith_cons_cons] at this ⊢
      rw [this, Nat.xor_comm]

theorem bufWrite_full (src : List Nat) (cap : Nat) (h : src.length = cap) :
    bufWrite (zeros cap) 0 src = some src := by
  have := (buf_fill_read src cap (by omega)).1
  rw [this, h]
  simp [zeros]

theorem bufRead_full (b : List Nat) (n : Nat) (h : b.length = n) : bufRead b 0 n = some b := by
  subst h
  simp [bufRead]

theorem bufRead_eq (b : List Nat) (off n : Nat) (h : off + n ≤ b.length) :
    bufRead b off n = some ((b.drop off).take n) := by
  simp [bufRead, h]

theorem bufXor_full (a m : List Nat) (n : Nat) (ha : a.length = n) (hm : m.length = n) :
    bufXor a m n = some (xorBytes a m) := by
  have := bufXor_head a [] m n ha.symm (by omega)
  rw [List.append_nil, List.append_nil] at this
  rw [this]
  congr 2
  rw [← hm]
  exact List.take_length m

theorem decode_unmask (env : Env) (mem : Mem) (P : XSecure_RsaOaepParam) (Input : List Nat)
    (hp : XSecure_HashAlgInfo)
    (hres : env.XSecure_GetHashInstance P.ShaType = some hp)
    (hH : hp.HashLen = XSECURE_SHA3_HASH_LENGTH_IN_BYTES)
    (hI : Input.length = XSECURE_RSA_KEY_GEN_SIZE_IN_BYTES)
    (h0 : bufGet Input 0 = some 0)
    (hdig : (hp.ShaDigest (labelOf mem P)).1 = XST_SUCCESS)
    (hmgf : ∀ seed n, (env.XSecure_MaskGenFunc P.ShaType seed n).1 = XST_SUCCESS) :
    XSecure_RsaOaepDecode env mem P Input =
      XSecure_RsaOaepDecode_Validate mem P hp.HashLen
        (XSECURE_RSA_KEY_GEN_SIZE_IN_BYTES - hp.HashLen - 1)
        (OaepUnmaskedDB (env.Mgf P.ShaType) hp.HashLen Input) (hp.digest (labelOf mem P))
        (decodeTrace (env.Mgf P.ShaType) hp.HashLen (labelOf mem P) Input) := by
  unfold XSecure_RsaOaepDecode
  simp only [hres]
  rw [h0]
  simp only [ne_eq, not_true_eq_false, if_false]
  simp only [XSecure_HashAlgInfo.digest, labelOf, OaepUnmaskedDB, decodeTrace, Env.Mgf]
    at hdig ⊢
  simp only [hdig, hmgf, ne_eq, not_true_eq_false, if_false]
  generalize memRead mem P.OptionalLabelAddr P.OptionalLabelSize = L
  have hlH : (bytesOf (hp.ShaDigest L).2 hp.HashLen).length = hp.HashLen := by simp
  generalize bytesOf (hp.ShaDigest L).2 hp.HashLen = lH at hlH ⊢
  generalize hp.HashLen = H at *
  subst hH
  have hD : sub32 (sub32 XSECURE_RSA_KEY_GEN_SIZE_IN_BYTES XSECURE_SHA3_HASH_LENGTH_IN_BYTES) 1
      = XSECURE_RSA_MAX_DB_SIZE_IN_BYTES := by
    decide
  have hD2 : XSECURE_RSA_KEY_GEN_SIZE_IN_BYTES - XSECURE_SHA3_HASH_LENGTH_IN_BYTES - 1
      = XSECURE_RSA_MAX_DB_SIZE_IN_BYTES := by decide
  rw [hD, hD2]
  have hsum : 1 + XSECURE_SHA3_HASH_LENGTH_IN_BYTES + XSECURE_RSA_MAX_DB_SIZE_IN_BYTES
      = XSECURE_RSA_KEY_GEN_SIZE_IN_BYTES := by decide
  have r1 := bufRead_eq Input 1 XSECURE_SHA3_HASH_LENGTH_IN_BYTES (by omega)
  have r2 := bufRead_eq Input (1 + XSECURE_SHA3_HASH_LENGTH_IN_BYTES)
    XSECURE_RSA_MAX_DB_SIZE_IN_BYTES (by omega)
  have hms : ((Input.drop 1).take XSECURE_SHA3_HASH_LENGTH_IN_BYTES).length
      = XSECURE_SHA3_HASH_LENGTH_IN_BYTES := by
    rw [List.length_take, List.length_drop]; omega
  have hmdb : ((Input.drop (1 + XSECURE_SHA3_HASH_LENGTH_IN_BYTES)).take
      XSECURE_RSA_MAX_DB_SIZE_IN_BYTES).length = XSECURE_RSA_MAX_DB_SIZE_IN_BYTES := by
    rw [List.length_take, List.length_drop]; omega
  generalize (Input.drop 1).take XSECURE_SHA3_HASH_LENGTH_IN_BYTES = ms at r1 hms ⊢
  generalize (Input.drop (1 + XSECURE_SHA3_HASH_LENGTH_IN_BYTES)).take
      XSECURE_RSA_MAX_DB_SIZE_IN_BYTES = mdb at r2 hmdb ⊢
  simp only [r1, r2, bufWrite_full _ _ hlH, bufWrite_full _ _ hms, bufWrite_full _ _ hmdb,
    bufRead_full _ _ hmdb]
  have hg1 : (bytesOf (env.XSecure_MaskGenFunc P.ShaType mdb
      XSECURE_SHA3_HASH_LENGTH_IN_BYTES).2 XSECURE_SHA3_HASH_LENGTH_IN_BYTES).length
      = XSECURE_SHA3_HASH_LENGTH_IN_BYTES := by simp
  generalize bytesOf (env.XSecure_MaskGenFunc P.ShaType mdb
      XSECURE_SHA3_HASH_LENGTH_IN_BYTES).2 XSECURE_SHA3_HASH_LENGTH_IN_BYTES = g1 at hg1 ⊢
  have hx1 : (xorBytes g1 ms).length = XSECURE_SHA3_HASH_LENGTH_IN_BYTES := by
    simp [hg1, hms]
  simp only [bufWrite_full _ _ hg1, bufXor_full g1 ms _ hg1 hms, bufRead_full _ _ hx1]
  rw [xorBytes_comm g1 ms]
  have hg2 : (bytesOf (env.XSecure_MaskGenFunc P.ShaType (xorBytes ms g1)
      XSECURE_RSA_MAX_DB_SIZE_IN_BYTES).2 XSECURE_RSA_MAX_DB_SIZE_IN_BYTES).length
      = XSECURE_RSA_MAX_DB_SIZE_IN_BYTES := by simp
  generalize bytesOf (env.XSecure_MaskGenFunc P.ShaType (xorBytes ms g1)
      XSECURE_RSA_MAX_DB_SIZE_IN_BYTES).2 XSECURE_RSA_MAX_DB_SIZE_IN_BYTES = g2 at hg2 ⊢
  simp only [bufWrite_full _ _ hg2, bufXor_full g2 mdb _ hg2 hmdb]
  rw [xorBytes_comm g2 mdb]
  rfl

/-! ## Validation in `XSecure_RsaOaepDecode` -/

theorem PsScan_found (x : Nat) (hx : x ≠ 0) (rest : List Nat) :
    ∀ (k : Nat) (pre : List Nat) (rem Z : Nat), k < rem → pre.length + k < 4294967295 →
      XSecure_RsaOaepDecode_PsScan (pre ++ zeros k ++ x :: rest) rem pre.length Z
        = some (pre.length + k, Z) := by
  intro k
  induction k with
  | zero =>
    intro pre rem Z hrem _
    obtain ⟨r, rfl⟩ : ∃ r, rem = r + 1 := ⟨rem - 1, by omega⟩
    have hg : bufGet (pre ++ zeros 0 ++ x :: rest) pre.length = some x :=
      bufGet_mid (pre ++ zeros 0) rest x _ (by simp)
    simp only [XSecure_RsaOaepDecode_PsScan, hg, and_self, hx, if_false, Nat.add_zero]
  | succ k ih =>
    intro pre rem Z hrem hlt
    obtain ⟨r, rfl⟩ : ∃ r, rem = r + 1 := ⟨rem - 1, by omega⟩
    have hl : pre ++ zeros (k + 1) ++ x :: rest = (pre ++ [0]) ++ zeros k ++ x :: rest := by
      simp [zeros_succ]
    have hg : bufGet (pre ++ zeros (k + 1) ++ x :: rest) pre.length = some 0 := by
      have := bufGet_mid pre (zeros k ++ x :: rest) 0 pre.length rfl
      simpa [zeros_succ] using this
    have ha : add32 pre.length 1 = (pre ++ [0]).length := by
      rw [add32_of_lt _ _ (by omega)]
      simp
    simp only [XSecure_RsaOaepDecode_PsScan, hg, and_self, if_true, Nat.or_zero, ha]
    rw [hl, ih (pre ++ [0]) r Z (by omega) (by simp; omega)]
    simp
    omega

theorem PsScan_all_zero :
    ∀ (k : Nat) (pre : List Nat) (Z : Nat), pre.length + k < 4294967295 →
      XSecure_RsaOaepDecode_PsScan (pre ++ zeros k) k pre.length Z
        = some (pre.length + k, Z) := by
  intro k
  induction k with
  | zero =>
    intro pre Z _
    simp [XSecure_RsaOaepDecode_PsScan]
  | succ k ih =>
    intro pre Z hlt
    have hl : pre ++ zeros (k + 1) = (pre ++ [0]) ++ zeros k := by
      simp [zeros_succ]
    have hg : bufGet (pre ++ zeros (k + 1)) pre.length = some 0 := by
      have := bufGet_mid pre (zeros k) 0 pre.length rfl
      simpa [zeros_succ] using this
    have ha : add32 pre.length 1 = (pre ++ [0]).length := by
      rw [add32_of_lt _ _ (by omega)]
      simp
    simp only [XSecure_RsaOaepDecode_PsScan, hg, and_self, if_true, Nat.or_zero, ha]
    rw [hl, ih (pre ++ [0]) Z (by simp; omega)]
    simp
    omega

theorem Xil_SMemCmp_eq (DB Hash : List Nat) (H : Nat) (hH : Hash.length = H)
    (hDB : H ≤ DB.length) :
    Xil_SMemCmp DB Hash H = some (if DB.take H = Hash then XST_SUCCESS else XST_FAILURE) := by
  unfold Xil_SMemCmp
  rw [bufRead_eq DB 0 H (by omega), bufRead_full Hash H hH]
  simp

theorem validate_cmp_error (mem : Mem) (P : XSecure_RsaOaepParam) (H DBLen : Nat)
    (DB Hash : List Nat) (T : List Event) (hH : Hash.length = H) (hDB : H ≤ DB.length)
    (hne : DB.take H ≠ Hash) :
    XSecure_RsaOaepDecode_Validate mem P H DBLen DB Hash T =
      some ⟨XSECURE_RSA_OAEP_DATA_CMP_ERROR, P, mem, T⟩ := by
  unfold XSecure_RsaOaepDecode_Validate
  rw [Xil_SMemCmp_eq DB Hash H hH hDB, if_neg hne]
  simp

theorem validate_success (mem : Mem) (P : XSecure_RsaOaepParam) (H DBLen : Nat)
    (lHash M : List Nat) (k : Nat) (T : List Event) (hH : lHash.length = H)
    (hlen : (OaepReferenceDB lHash k M).length = DBLen) (hDBLen : DBLen < 4294967295)
    (hmax : M.length ≤ sub32 (sub32 XSECURE_RSA_KEY_GEN_SIZE_IN_BYTES (mul32 2 H)) 2) :
    XSecure_RsaOaepDecode_Validate mem P H DBLen (OaepReferenceDB lHash k M) lHash T =
      some ⟨XST_SUCCESS, { P with OutputDataSize := M.length },
        memWrite mem P.OutputDataAddr M, T ++ [Event.MemWrite P.OutputDataAddr M]⟩ := by
  have hl : DBLen = H + k + 1 + M.length := by
    rw [← hlen, ← hH]; simp [OaepReferenceDB]; omega
  have htake : (OaepReferenceDB lHash k M).take H = lHash := by
    subst hH
    simp [OaepReferenceDB]
  have hscan : XSecure_RsaOaepDecode_PsScan (OaepReferenceDB lHash k M) (DBLen - H) H 0
      = some (H + k, 0) := by
    have := PsScan_found 1 (by decide) M k lHash (DBLen - H) 0 (by omega) (by omega)
    rw [hH] at this
    simpa [OaepReferenceDB] using this
  have hget : bufGet (OaepReferenceDB lHash k M) (H + k) = some 1 := by
    have := bufGet_mid (lHash ++ zeros k) M 1 (H + k) (by simp [hH])
    simpa [OaepReferenceDB] using this
  have hidx : add32 (H + k) 1 = H + k + 1 := add32_of_lt _ _ (by omega)
  have hact : sub32 DBLen (H + k + 1) = M.length := by
    rw [sub32_of_le _ _ (by omega) (by omega)]; omega
  have hread : bufRead (OaepReferenceDB lHash k M) (H + k + 1) M.length = some M := by
    have := bufRead_mid (lHash ++ zeros k ++ [1]) M [] (H + k + 1) M.length (by simp [hH]; omega) rfl
    simpa [OaepReferenceDB] using this
  unfold XSecure_RsaOaepDecode_Validate
  rw [Xil_SMemCmp_eq _ lHash H hH (by rw [hlen]; omega), if_pos htake]
  simp only [ne_eq, not_true_eq_false, if_false, hscan, hget, or_self, hidx, hact,
    gt_iff_lt, not_lt.mpr hmax, hread]

theorem validate_bad_separator (mem : Mem) (P : XSecure_RsaOaepParam) (H DBLen : Nat)
    (lHash rest : List Nat) (k x : Nat) (T : List Event) (hH : lHash.length = H)
    (hlen : (lHash ++ zeros k ++ x :: rest).length = DBLen) (hDBLen : DBLen < 4294967295)
    (hx0 : x ≠ 0) (hx1 : x ≠ 1) :
    XSecure_RsaOaepDecode_Validate mem P H DBLen (lHash ++ zeros k ++ x :: rest) lHash T =
      some ⟨XSECURE_RSA_OAEP_DB_MISMATCH_ERROR, P, mem, T⟩ := by
  have hl : DBLen = H + k + 1 + rest.length := by
    rw [← hlen, ← hH]; simp; omega
  have htake : (lHash ++ zeros k ++ x :: rest).take H = lHash := by
    subst hH
    simp
  have hscan : XSecure_RsaOaepDecode_PsScan (lHash ++ zeros k ++ x :: rest) (DBLen - H) H 0
      = some (H + k, 0) := by
    have := PsScan_found x hx0 rest k lHash (DBLen - H) 0 (by omega) (by omega)
    rw [hH] at this
    exact this
  have hget : bufGet (lHash ++ zeros k ++ x :: rest) (H + k) = some x :=
    bufGet_mid (lHash ++ zeros k) rest x (H + k) (by simp [hH])
  unfold XSecure_RsaOaepDecode_Validate
  rw [Xil_SMemCmp_eq _ lHash H hH (by rw [hlen]; omega), if_pos htake]
  simp only [ne_eq, not_true_eq_false, if_false, hscan, hget, hx1, not_false_eq_true,
    true_or, if_true]

theorem validate_no_separator (mem : Mem) (P : XSecure_RsaOaepParam) (H DBLen : Nat)
    (lHash : List Nat) (k : Nat) (T : List Event) (hH : lHash.length = H)
    (hlen : (lHash ++ zeros k).length = DBLen) (hDBLen : DBLen < 4294967295) :
    XSecure_RsaOaepDecode_Validate mem P H DBLen (lHash ++ zeros k) lHash T = none := by
  have hl : DBLen = H + k := by
    rw [← hlen, ← hH]; simp
  have htake : (lHash ++ zeros k).take H = lHash := by
    subst hH
    simp
  have hscan : XSecure_RsaOaepDecode_PsScan (lHash ++ zeros k) (DBLen - H) H 0
      = some (H + k, 0) := by
    have := PsScan_all_zero k lHash 0 (by omega)
    rw [hH] at this
    rw [show DBLen - H = k by omega]
    exact this
  have hget : bufGet (lHash ++ zeros k) (H + k) = none := by
    unfold bufGet
    rw [List.get?_eq_none]
    simp [hH]
  unfold XSecure_RsaOaepDecode_Validate
  rw [Xil_SMemCmp_eq _ lHash H hH (by rw [hlen]; omega), if_pos htake]
  simp only [ne_eq, not_true_eq_false, if_false, hscan, hget]

/-! ## Parameter and length checks of `XSecure_RsaOaepEncode` -/

theorem encode_msg_len_error (env : Env) (mem : Mem) (P : XSecure_RsaOaepParam)
    (Output : List Nat) (hp : XSecure_HashAlgInfo)
    (hres : env.XSecure_GetHashInstance P.ShaType = some hp)
    (hin : P.InputDataAddr ≠ 0) (hout : P.OutputDataAddr ≠ 0)
    (hlen : P.InputDataSize > XSecure_RsaOaepEncode_ActualMsgLen hp.HashLen) :
    XSecure_RsaOaepEncode env mem P Output =
      some ⟨XSECURE_RSA_OAEP_INVALID_MSG_LEN, P, Output, []⟩ := by
  unfold XSecure_RsaOaepEncode
  simp only [hres, hin, hout, or_self, if_false, hlen, if_true]

/-- C6. `XSecure_RsaOaepEncode` returns `XSECURE_RSA_OAEP_INVALID_PARAM` whenever the hash
selector does not resolve, or `InputDataAddr` is zero, or `OutputDataAddr` is zero, whatever
the input size is (the checks come before the length check); on this path the trace is
empty (no digest, no entropy, no write) and the output array and the parameter block are
unchanged. -/
theorem C6_encode_invalid_param (env : Env) (mem : Mem) (P : XSecure_RsaOaepParam)
    (Output : List Nat)
    (h : env.XSecure_GetHashInstance P.ShaType = none ∨ P.InputDataAddr = 0 ∨
      P.OutputDataAddr = 0) :
    XSecure_RsaOaepEncode env mem P Output =
      some ⟨XSECURE_RSA_OAEP_INVALID_PARAM, P, Output, []⟩ := by
  unfold XSecure_RsaOaepEncode
  cases hres : env.XSecure_GetHashInstance P.ShaType with
  | none => rfl
  | some hp =>
    have h2 : P.InputDataAddr = 0 ∨ P.OutputDataAddr = 0 := by
      rcases h with h | h
      · rw [hres] at h
        cases h
      · exact h
    simp only [h2, if_true]

/-- Witness of C6: an oversized message with a zero input address under `exampleEnv 48`. -/
theorem C6_encode_invalid_param_witness :
    XSecure_RsaOaepEncode (exampleEnv 48) exampleMem
        { exampleParam with InputDataAddr := 0, InputDataSize := 1000 } (zeros 384) =
      some ⟨XSECURE_RSA_OAEP_INVALID_PARAM,
        { exampleParam with InputDataAddr := 0, InputDataSize := 1000 }, zeros 384, []⟩ :=
  C6_encode_invalid_param (exampleEnv 48) exampleMem
    { exampleParam with InputDataAddr := 0, InputDataSize := 1000 } (zeros 384)
    (Or.inr (Or.inl rfl))

/-- C7. For every hash selector that resolves and every block whose byte 0 is non-zero,
`XSecure_RsaOaepDecode` returns `XSECURE_RSA_OAEP_BYTE_MISMATCH_ERROR`, whatever the
remaining bytes and the label are; memory and the parameter block are unchanged and no
collaborator is called. -/
theorem C7_decode_leading_byte (env : Env) (mem : Mem) (P : XSecure_RsaOaepParam)
    (hp : XSecure_HashAlgInfo) (b : Nat) (rest : List Nat)
    (hres : env.XSecure_GetHashInstance P.ShaType = some hp) (hb : b ≠ 0) :
    XSecure_RsaOaepDecode env mem P (b :: rest) =
      some ⟨XSECURE_RSA_OAEP_BYTE_MISMATCH_ERROR, P, mem, []⟩ := by
  unfold XSecure_RsaOaepDecode
  have hg : bufGet (b :: rest) 0 = some b := rfl
  simp only [hres]
  rw [hg]
  simp only [ne_eq, hb, not_false_eq_true, if_true]

/-- Witness of C7: the block `0x02 ‖ 0x00 … 0x00` of 384 bytes under `exampleEnv 48`. -/
theorem C7_decode_leading_byte_witness :
    XSecure_RsaOaepDecode (exampleEnv 48) exampleMem exampleParam (2 :: zeros 383) =
      some ⟨XSECURE_RSA_OAEP_BYTE_MISMATCH_ERROR, exampleParam, exampleMem, []⟩ :=
  C7_decode_leading_byte (exampleEnv 48) exampleMem exampleParam (exampleHash 48) 2
    (zeros 383) rfl (by decide)

theorem ActualMsgLen_le (H : Nat) (hH : 2 * H + 2 ≤ XSECURE_RSA_KEY_GEN_SIZE_IN_BYTES) :
    XSecure_RsaOaepEncode_ActualMsgLen H ≤ XSECURE_RSA_KEY_GEN_SIZE_IN_BYTES - 2 * H - 2 := by
  by_cases h : H ≤ XSECURE_SHA3_HASH_LENGTH_IN_BYTES
  · rw [ActualMsgLen_small H h]
    simp only [XSECURE_RSA_KEY_GEN_SIZE_IN_BYTES, XSECURE_SHA3_HASH_LENGTH_IN_BYTES] at *
    omega
  · rw [ActualMsgLen_large H (by omega) hH]

theorem encrypt_of_encode_error (env : Env) (mem : Mem) (Instance : XSecure_Rsa)
    (P : XSecure_RsaOaepParam) (r : EncodeResult)
    (henc : XSecure_RsaOaepEncode env mem P (zeros XSECURE_RSA_KEY_GEN_SIZE_IN_BYTES) = some r)
    (hst : r.Status ≠ XST_SUCCESS) :
    XSecure_RsaOaepEncrypt env mem (some Instance) (some P) =
      some ⟨r.Status, some r.OaepParam, mem, r.Trace⟩ := by
  unfold XSecure_RsaOaepEncrypt
  simp only [henc, hst, ne_eq, not_false_eq_true, if_true]

/-- C5. Oversized message rejection: with a resolved hash selector, non-zero addresses and
a hash length for which `MaxMessageLen = ModulusLen - 2*HashLen - 2` exists, every input
size above `MaxMessageLen` makes `XSecure_RsaOaepEncode` return
`XSECURE_RSA_OAEP_INVALID_MSG_LEN` with its output array untouched and an empty trace, and
makes `XSecure_RsaOaepEncrypt` return that status with caller memory unchanged and without
a call of the public-key operation. -/
theorem C5_oversized_message_rejected (env : Env) (mem : Mem) (P : XSecure_RsaOaepParam)
    (Output : List Nat) (hp : XSecure_HashAlgInfo) (Instance : XSecure_Rsa)
    (hres : env.XSecure_GetHashInstance P.ShaType = some hp)
    (hin : P.InputDataAddr ≠ 0) (hout : P.OutputDataAddr ≠ 0)
    (hH : 2 * hp.HashLen + 2 ≤ XSECURE_RSA_KEY_GEN_SIZE_IN_BYTES)
    (hlen : P.InputDataSize > XSECURE_RSA_KEY_GEN_SIZE_IN_BYTES - 2 * hp.HashLen - 2) :
    XSecure_RsaOaepEncode env mem P Output =
        some ⟨XSECURE_RSA_OAEP_INVALID_MSG_LEN, P, Output, []⟩ ∧
      XSecure_RsaOaepEncrypt env mem (some Instance) (some P) =
        some ⟨XSECURE_RSA_OAEP_INVALID_MSG_LEN, some P, mem, []⟩ := by
  have hgt : P.InputDataSize > XSecure_RsaOaepEncode_ActualMsgLen hp.HashLen :=
    lt_of_le_of_lt (ActualMsgLen_le hp.HashLen hH) hlen
  refine ⟨encode_msg_len_error env mem P Output hp hres hin hout hgt, ?_⟩
  exact encrypt_of_encode_error env mem Instance P _
    (encode_msg_len_error env mem P _ hp hres hin hout hgt) (by simp)

/-- Witness of C5: a message of `MaxMessageLen + 1 = 287` bytes under `exampleEnv 48`. -/
theorem C5_oversized_message_rejected_witness :
    XSecure_RsaOaepEncode (exampleEnv 48) exampleMem
          { exampleParam with InputDataSize := 287 } (zeros 384) =
        some ⟨XSECURE_RSA_OAEP_INVALID_MSG_LEN, { exampleParam with InputDataSize := 287 },
          zeros 384, []⟩ ∧
      XSecure_RsaOaepEncrypt (exampleEnv 48) exampleMem (some exampleKey)
          (some { exampleParam with InputDataSize := 287 }) =
        some ⟨XSECURE_RSA_OAEP_INVALID_MSG_LEN, some { exampleParam with InputDataSize := 287 },
          exampleMem, []⟩ :=
  C5_oversized_message_rejected (exampleEnv 48) exampleMem
    { exampleParam with InputDataSize := 287 } (zeros 384) (exampleHash 48) exampleKey rfl
    (by decide) (by decide) (by decide) (by decide)

/-- C4 (code at the failing input). With a hash descriptor of length 32 the bound
`ModulusLen - 2*HashLen - 2` is 318, and `XSecure_RsaOaepEncode` rejects a message of 300
bytes with `XSECURE_RSA_OAEP_INVALID_MSG_LEN`: its own bound `ActualMsgLen` is 254. -/
theorem C4_encode_rejects_admissible_length :
    XSecure_RsaOaepEncode (exampleEnv 32) exampleMem
          { exampleParam with InputDataSize := 300 } (zeros 384) =
        some ⟨XSECURE_RSA_OAEP_INVALID_MSG_LEN, { exampleParam with InputDataSize := 300 },
          zeros 384, []⟩ ∧
      XSecure_RsaOaepEncode_ActualMsgLen 32 = 254 ∧
      XSECURE_RSA_KEY_GEN_SIZE_IN_BYTES - 2 * 32 - 2 = 318 :=
  ⟨encode_msg_len_error (exampleEnv 32) exampleMem { exampleParam with InputDataSize := 300 }
      (zeros 384) (exampleHash 32) rfl (by decide) (by decide) (by decide),
    by decide, by decide⟩

/-! ## The padded block and the number of bytes written -/

theorem OaepReferenceDB_length (lH M : List Nat) (k : Nat) :
    (OaepReferenceDB lH k M).length = lH.length + k + 1 + M.length := by
  simp [OaepReferenceDB]
  omega

theorem OaepReferenceBlock_length (Mgf : List Nat → Nat → List Nat) (H : Nat)
    (DB S : List Nat) (hS : S.length = H)
    (hMgf : ∀ seed n, (Mgf seed n).length = n) :
    (OaepReferenceBlock Mgf H DB S).length = 1 + H + DB.length := by
  simp [OaepReferenceBlock, hMgf, hS]
  omega

theorem Env.Mgf_length (env : Env) (sel : Nat) (seed : List Nat) (n : Nat) :
    (env.Mgf sel seed n).length = n := by
  simp [Env.Mgf]

theorem encode_emitted (env : Env) (mem : Mem) (P : XSecure_RsaOaepParam) (Output : List Nat)
    (hp : XSecure_HashAlgInfo)
    (hres : env.XSecure_GetHashInstance P.ShaType = some hp)
    (hH : hp.HashLen ≤ XSECURE_SHA3_HASH_LENGTH_IN_BYTES)
    (hin : P.InputDataAddr ≠ 0) (hout : P.OutputDataAddr ≠ 0)
    (hn : P.InputDataSize ≤ XSecure_RsaOaepEncode_ActualMsgLen hp.HashLen)
    (hdig : (hp.ShaDigest (labelOf mem P)).1 = XST_SUCCESS)
    (hrnd : (env.XSecure_GetRandomNum hp.HashLen).1 = XST_SUCCESS)
    (hmgf : ∀ seed n, (env.XSecure_MaskGenFunc P.ShaType seed n).1 = XST_SUCCESS)
    (hO : Output.length = XSECURE_RSA_KEY_GEN_SIZE_IN_BYTES) :
    ∃ r, XSecure_RsaOaepEncode env mem P Output = some r ∧ r.Status = XST_SUCCESS ∧
      emittedBytes r.Trace = XSecure_RsaOaepEncode_ActualMsgLen hp.HashLen + 2 * hp.HashLen + 2 ∧
      r.Output.length = XSECURE_RSA_KEY_GEN_SIZE_IN_BYTES := by
  refine ⟨_, encode_eq env mem P Output hp hres hH hin hout hn hdig hrnd hmgf hO, rfl, ?_, ?_⟩
  · simp only [encodeTrace, emittedBytes, xorBytes_length, Env.Mgf_length, bytesOf_length,
      OaepReferenceDB_length, XSecure_HashAlgInfo.digest, messageOf, memRead_length,
      List.length_singleton, List.length_cons, List.length_nil]
    omega
  · have hA := ActualMsgLen_small hp.HashLen hH
    simp only [List.length_append, List.length_drop, hO]
    rw [OaepReferenceBlock_length _ _ _ _ (by simp) (Env.Mgf_length env P.ShaType),
      OaepReferenceDB_length]
    simp only [XSecure_HashAlgInfo.digest, messageOf, bytesOf_length, memRead_length,
      XSECURE_RSA_KEY_GEN_SIZE_IN_BYTES, XSECURE_SHA3_HASH_LENGTH_IN_BYTES] at *
    omega

/-- For every accepted message `M`, label `L` and seed `S` delivered by the entropy
source, with a hash descriptor whose length fits the arrays `Seed` and `SeedMask`
(`HashLen ≤ 48`) and collaborators that succeed, `XSecure_RsaOaepEncode` succeeds and the
block it writes at the start of the output array is the reference block
`0x00 ‖ maskedSeed ‖ maskedDB` with `DB = Hash(L) ‖ PS ‖ 0x01 ‖ M`, `PS` all zero,
`maskedDB = DB xor MGF(S, len(DB))`, `maskedSeed = S xor MGF(maskedDB, HashLen)`; the block
is a function of the hash descriptor, the mask generator, `L`, `M` and `S` only. -/
theorem encode_reference_block (env : Env) (mem : Mem) (P : XSecure_RsaOaepParam)
    (Output : List Nat) (hp : XSecure_HashAlgInfo) (L M S : List Nat)
    (hres : env.XSecure_GetHashInstance P.ShaType = some hp)
    (hH : hp.HashLen ≤ XSECURE_SHA3_HASH_LENGTH_IN_BYTES)
    (hin : P.InputDataAddr ≠ 0) (hout : P.OutputDataAddr ≠ 0)
    (hn : P.InputDataSize ≤ XSecure_RsaOaepEncode_ActualMsgLen hp.HashLen)
    (hL : labelOf mem P = L) (hM : messageOf mem P = M)
    (hS : bytesOf (env.XSecure_GetRandomNum hp.HashLen).2 hp.HashLen = S)
    (hdig : (hp.ShaDigest L).1 = XST_SUCCESS)
    (hrnd : (env.XSecure_GetRandomNum hp.HashLen).1 = XST_SUCCESS)
    (hmgf : ∀ seed n, (env.XSecure_MaskGenFunc P.ShaType seed n).1 = XST_SUCCESS)
    (hO : Output.length = XSECURE_RSA_KEY_GEN_SIZE_IN_BYTES) :
    ∃ r, XSecure_RsaOaepEncode env mem P Output = some r ∧ r.Status = XST_SUCCESS ∧
      r.Output =
        OaepReferenceBlock (env.Mgf P.ShaType) hp.HashLen
            (OaepReferenceDB (hp.digest L)
              (XSecure_RsaOaepEncode_ActualMsgLen hp.HashLen - M.length) M) S ++
          Output.drop (1 + hp.HashLen +
            (OaepReferenceDB (hp.digest L)
              (XSecure_RsaOaepEncode_ActualMsgLen hp.HashLen - M.length) M).length) := by
  subst hL hM hS
  refine ⟨_, encode_eq env mem P Output hp hres hH hin hout hn hdig hrnd hmgf hO, rfl, ?_⟩
  have hA := ActualMsgLen_small hp.HashLen hH
  have hd : 1 + hp.HashLen + (OaepReferenceDB (hp.digest (labelOf mem P))
      (XSecure_RsaOaepEncode_ActualMsgLen hp.HashLen - (messageOf mem P).length)
      (messageOf mem P)).length
      = XSecure_RsaOaepEncode_ActualMsgLen hp.HashLen + 2 * hp.HashLen + 2 := by
    rw [OaepReferenceDB_length]
    simp only [XSecure_HashAlgInfo.digest, messageOf, bytesOf_length, memRead_length]
    omega
  rw [hd]
  simp only [messageOf, memRead_length]

/-- Example: the 3-byte message of `exampleParam` under `exampleEnv 48`. -/
theorem encode_reference_block_example :
    ∃ r, XSecure_RsaOaepEncode (exampleEnv 48) exampleMem exampleParam (zeros 384) = some r ∧
      r.Status = XST_SUCCESS ∧
      r.Output =
        OaepReferenceBlock ((exampleEnv 48).Mgf exampleParam.ShaType) (exampleHash 48).HashLen
            (OaepReferenceDB ((exampleHash 48).digest [0, 1])
              (XSecure_RsaOaepEncode_ActualMsgLen (exampleHash 48).HashLen - [0, 1, 2].length)
              [0, 1, 2])
            (bytesOf (fun i => (7 * i + 3) % 256) 48) ++
          (zeros 384).drop (1 + (exampleHash 48).HashLen +
            (OaepReferenceDB ((exampleHash 48).digest [0, 1])
              (XSecure_RsaOaepEncode_ActualMsgLen (exampleHash 48).HashLen - [0, 1, 2].length)
              [0, 1, 2]).length) :=
  encode_reference_block (exampleEnv 48) exampleMem exampleParam (zeros 384)
    (exampleHash 48) [0, 1] [0, 1, 2] (bytesOf (fun i => (7 * i + 3) % 256) 48) rfl
    (by decide) (by decide) (by decide) (by decide) (by decide) (by decide) rfl rfl rfl
    (fun _ _ => rfl) (zeros_length 384)

/-- With a hash descriptor of length 32 an accepted 3-byte message is
encoded successfully but only 320 bytes are written, not `ModulusLen = 384`. -/
theorem emitted_hash32 :
    ∃ r, XSecure_RsaOaepEncode (exampleEnv 32) exampleMem exampleParam (zeros 384) = some r ∧
      r.Status = XST_SUCCESS ∧ emittedBytes r.Trace = 320 ∧
      emittedBytes r.Trace ≠ XSECURE_RSA_KEY_GEN_SIZE_IN_BYTES := by
  obtain ⟨r, h1, h2, h3, -⟩ := encode_emitted (exampleEnv 32) exampleMem exampleParam
    (zeros 384) (exampleHash 32) rfl (by decide) (by decide) (by decide) (by decide) rfl rfl
    (fun _ _ => rfl) (zeros_length 384)
  have h4 : emittedBytes r.Trace = 320 := by
    rw [h3]
    decide
  exact ⟨r, h1, h2, h4, by rw [h4]; decide⟩

/-- For every hash selector that resolves to a descriptor whose length is the
reference hash length 48, every accepted message length and collaborators that succeed,
`XSecure_RsaOaepEncode` succeeds and the number of bytes it writes,
`1 + HashLen + DBLen` with `DBLen = ActualMsgLen + HashLen + 1`, is exactly
`ModulusLen = 384`. -/
theorem encode_emits_modulus_length (env : Env) (mem : Mem) (P : XSecure_RsaOaepParam)
    (Output : List Nat) (hp : XSecure_HashAlgInfo)
    (hres : env.XSecure_GetHashInstance P.ShaType = some hp)
    (hH : hp.HashLen = XSECURE_SHA3_HASH_LENGTH_IN_BYTES)
    (hin : P.InputDataAddr ≠ 0) (hout : P.OutputDataAddr ≠ 0)
    (hn : P.InputDataSize ≤ XSecure_RsaOaepEncode_ActualMsgLen hp.HashLen)
    (hdig : (hp.ShaDigest (labelOf mem P)).1 = XST_SUCCESS)
    (hrnd : (env.XSecure_GetRandomNum hp.HashLen).1 = XST_SUCCESS)
    (hmgf : ∀ seed n, (env.XSecure_MaskGenFunc P.ShaType seed n).1 = XST_SUCCESS)
    (hO : Output.length = XSECURE_RSA_KEY_GEN_SIZE_IN_BYTES) :
    ∃ r, XSecure_RsaOaepEncode env mem P Output = some r ∧ r.Status = XST_SUCCESS ∧
      emittedBytes r.Trace =
        1 + hp.HashLen + (XSecure_RsaOaepEncode_ActualMsgLen hp.HashLen + hp.HashLen + 1) ∧
      emittedBytes r.Trace = XSECURE_RSA_KEY_GEN_SIZE_IN_BYTES := by
  obtain ⟨r, h1, h2, h3, -⟩ := encode_emitted env mem P Output hp hres (le_of_eq hH) hin hout
    hn hdig hrnd hmgf hO
  refine ⟨r, h1, h2, by rw [h3]; omega, ?_⟩
  rw [h3, ActualMsgLen_small _ (le_of_eq hH), hH]
  decide

/-- Example: the 3-byte message of `exampleParam` under `exampleEnv 48`. -/
theorem encode_emits_modulus_length_example :
    ∃ r, XSecure_RsaOaepEncode (exampleEnv 48) exampleMem exampleParam (zeros 384) = some r ∧
      r.Status = XST_SUCCESS ∧
      emittedBytes r.Trace =
        1 + (exampleHash 48).HashLen +
          (XSecure_RsaOaepEncode_ActualMsgLen (exampleHash 48).HashLen +
            (exampleHash 48).HashLen + 1) ∧
      emittedBytes r.Trace = XSECURE_RSA_KEY_GEN_SIZE_IN_BYTES :=
  encode_emits_modulus_length (exampleEnv 48) exampleMem exampleParam (zeros 384)
    (exampleHash 48) rfl rfl (by decide) (by decide) (by decide) rfl rfl (fun _ _ => rfl)
    (zeros_length 384)

/-! ## Outcomes of `XSecure_RsaOaepDecode` -/

theorem memRead_memWrite (mem : Mem) (addr : Nat) (bytes : List Nat) :
    memRead (memWrite mem addr bytes) addr bytes.length = bytes := by
  apply List.ext_getElem
  · simp
  · intro i h1 h2
    simp only [memRead, memWrite, List.getElem_map, List.getElem_range]
    rw [if_pos ⟨by omega, by omega⟩]
    simp [List.getD_eq_getElem?_getD, List.getElem?_eq_getElem h2]

theorem memWrite_outside (mem : Mem) (addr : Nat) (bytes : List Nat) (a : Nat)
    (h : a < addr ∨ addr + bytes.length ≤ a) : memWrite mem addr bytes a = mem a := by
  unfold memWrite
  rw [if_neg (by omega)]

theorem OaepUnmaskedDB_length (Mgf : List Nat → Nat → List Nat) (Block : List Nat)
    (hMgf : ∀ seed n, (Mgf seed n).length = n)
    (hI : Block.length = XSECURE_RSA_KEY_GEN_SIZE_IN_BYTES) :
    (OaepUnmaskedDB Mgf XSECURE_SHA3_HASH_LENGTH_IN_BYTES Block).length
      = XSECURE_RSA_MAX_DB_SIZE_IN_BYTES := by
  simp only [OaepUnmaskedDB, xorBytes_length, hMgf, List.length_take, List.length_drop, hI]
  decide

theorem decode_bound : sub32 (sub32 XSECURE_RSA_KEY_GEN_SIZE_IN_BYTES
    (mul32 2 XSECURE_SHA3_HASH_LENGTH_IN_BYTES)) 2 = XSECURE_RSA_MAX_MSG_SIZE_IN_BYTES := by
  decide

theorem decode_success (env : Env) (mem : Mem) (P : XSecure_RsaOaepParam) (Block : List Nat)
    (hp : XSecure_HashAlgInfo) (M : List Nat) (k : Nat)
    (hres : env.XSecure_GetHashInstance P.ShaType = some hp)
    (hH : hp.HashLen = XSECURE_SHA3_HASH_LENGTH_IN_BYTES)
    (hI : Block.length = XSECURE_RSA_KEY_GEN_SIZE_IN_BYTES)
    (h0 : bufGet Block 0 = some 0)
    (hdig : (hp.ShaDigest (labelOf mem P)).1 = XST_SUCCESS)
    (hmgf : ∀ seed n, (env.XSecure_MaskGenFunc P.ShaType seed n).1 = XST_SUCCESS)
    (hDB : OaepUnmaskedDB (env.Mgf P.ShaType) hp.HashLen Block =
      OaepReferenceDB (hp.digest (labelOf mem P)) k M) :
    XSecure_RsaOaepDecode env mem P Block =
        some ⟨XST_SUCCESS, { P with OutputDataSize := M.length },
          memWrite mem P.OutputDataAddr M,
          decodeTrace (env.Mgf P.ShaType) hp.HashLen (labelOf mem P) Block ++
            [Event.MemWrite P.OutputDataAddr M]⟩ ∧
      M.length + k = XSECURE_RSA_KEY_GEN_SIZE_IN_BYTES - 2 * hp.HashLen - 2 := by
  have hlen := OaepUnmaskedDB_length (env.Mgf P.ShaType) Block (Env.Mgf_length env P.ShaType) hI
  rw [← hH, hDB] at hlen
  have hk : M.length + k = XSECURE_RSA_KEY_GEN_SIZE_IN_BYTES - 2 * hp.HashLen - 2 := by
    rw [OaepReferenceDB_length] at hlen
    simp only [XSecure_HashAlgInfo.digest, bytesOf_length, hH, XSECURE_RSA_MAX_DB_SIZE_IN_BYTES,
      XSECURE_RSA_MAX_PS_SIZE_IN_BYTES, XSECURE_RSA_MAX_MSG_SIZE_IN_BYTES,
      XSECURE_RSA_KEY_GEN_SIZE_IN_BYTES, XSECURE_SHA3_HASH_LENGTH_IN_BYTES] at hlen ⊢
    omega
  refine ⟨?_, hk⟩
  rw [decode_unmask env mem P Block hp hres hH hI h0 hdig hmgf, hDB]
  have hD : XSECURE_RSA_KEY_GEN_SIZE_IN_BYTES - hp.HashLen - 1
      = XSECURE_RSA_MAX_DB_SIZE_IN_BYTES := by rw [hH]; decide
  rw [hD]
  apply validate_success mem P hp.HashLen XSECURE_RSA_MAX_DB_SIZE_IN_BYTES _ M k _
    (by simp [XSecure_HashAlgInfo.digest]) hlen (by decide)
  rw [hH, decode_bound]
  rw [hH] at hk
  simp only [XSECURE_RSA_MAX_MSG_SIZE_IN_BYTES]
  omega

/-- Decode success postcondition, for a hash descriptor of the reference length 48
(the length the arrays of the function are dimensioned for) and collaborators that
succeed: for every 384-byte block with leading byte `0x00` whose unmasked data block
`DB = maskedDB xor MGF(maskedSeed xor MGF(maskedDB, HashLen), ModulusLen - HashLen - 1)`
equals `Hash(label) ‖ 0x00^k ‖ 0x01 ‖ M`, `XSecure_RsaOaepDecode` returns `XST_SUCCESS`,
stores exactly `M` at `OutputDataAddr` (nothing else in memory changes), sets
`OutputDataSize = len(M)`, and `len(M) ≤ ModulusLen - 2*HashLen - 2`. -/
theorem decode_success_postcondition (env : Env) (mem : Mem) (P : XSecure_RsaOaepParam)
    (Block : List Nat) (hp : XSecure_HashAlgInfo) (M : List Nat) (k : Nat)
    (hres : env.XSecure_GetHashInstance P.ShaType = some hp)
    (hH : hp.HashLen = XSECURE_SHA3_HASH_LENGTH_IN_BYTES)
    (hI : Block.length = XSECURE_RSA_KEY_GEN_SIZE_IN_BYTES)
    (h0 : bufGet Block 0 = some 0)
    (hdig : (hp.ShaDigest (labelOf mem P)).1 = XST_SUCCESS)
    (hmgf : ∀ seed n, (env.XSecure_MaskGenFunc P.ShaType seed n).1 = XST_SUCCESS)
    (hDB : OaepUnmaskedDB (env.Mgf P.ShaType) hp.HashLen Block =
      hp.digest (labelOf mem P) ++ zeros k ++ [1] ++ M) :
    ∃ r, XSecure_RsaOaepDecode env mem P Block = some r ∧ r.Status = XST_SUCCESS ∧
      memRead r.Mem P.OutputDataAddr M.length = M ∧
      (∀ a, a < P.OutputDataAddr ∨ P.OutputDataAddr + M.length ≤ a → r.Mem a = mem a) ∧
      r.OaepParam = { P with OutputDataSize := M.length } ∧
      M.length ≤ XSECURE_RSA_KEY_GEN_SIZE_IN_BYTES - 2 * hp.HashLen - 2 := by
  obtain ⟨h1, h2⟩ := decode_success env mem P Block hp M k hres hH hI h0 hdig hmgf hDB
  exact ⟨_, h1, rfl, memRead_memWrite _ _ _, fun a ha => memWrite_outside _ _ _ a ha, rfl,
    by omega⟩

theorem exampleBlock_length : exampleBlock.length = XSECURE_RSA_KEY_GEN_SIZE_IN_BYTES := by
  simp [exampleBlock, XSECURE_RSA_KEY_GEN_SIZE_IN_BYTES]

set_option maxRecDepth 100000 in
theorem exampleBlock_unmasked :
    OaepUnmaskedDB (zeroEnv.Mgf exampleParam.ShaType) zeroHash.HashLen exampleBlock =
      zeroHash.digest (labelOf exampleMem exampleParam) ++ zeros 284 ++ [1] ++ [5, 6] := by
  decide

/-- Example: `exampleBlock` under `zeroEnv` decodes to the message `05 06`. -/
theorem decode_success_postcondition_example :
    ∃ r, XSecure_RsaOaepDecode zeroEnv exampleMem exampleParam exampleBlock = some r ∧
      r.Status = XST_SUCCESS ∧
      memRead r.Mem exampleParam.OutputDataAddr [5, 6].length = [5, 6] ∧
      (∀ a, a < exampleParam.OutputDataAddr ∨ exampleParam.OutputDataAddr + [5, 6].length ≤ a →
        r.Mem a = exampleMem a) ∧
      r.OaepParam = { exampleParam with OutputDataSize := [5, 6].length } ∧
      [5, 6].length ≤ XSECURE_RSA_KEY_GEN_SIZE_IN_BYTES - 2 * zeroHash.HashLen - 2 :=
  decode_success_postcondition zeroEnv exampleMem exampleParam exampleBlock zeroHash
    [5, 6] 284 rfl rfl exampleBlock_length rfl rfl (fun _ _ => rfl) exampleBlock_unmasked

/-! ## Round trip, label mismatch and malformed padding -/

theorem unmask_encoded (Mgf : List Nat → Nat → List Nat) (DB S : List Nat)
    (hMgf : ∀ seed n, (Mgf seed n).length = n)
    (hS : S.length = XSECURE_SHA3_HASH_LENGTH_IN_BYTES)
    (hDB : DB.length = XSECURE_RSA_MAX_DB_SIZE_IN_BYTES) :
    OaepUnmaskedDB Mgf XSECURE_SHA3_HASH_LENGTH_IN_BYTES
      (OaepReferenceBlock Mgf XSECURE_SHA3_HASH_LENGTH_IN_BYTES DB S) = DB := by
  have hD : XSECURE_RSA_KEY_GEN_SIZE_IN_BYTES - XSECURE_SHA3_HASH_LENGTH_IN_BYTES - 1
      = XSECURE_RSA_MAX_DB_SIZE_IN_BYTES := by decide
  simp only [OaepUnmaskedDB, OaepReferenceBlock, hD, hDB]
  have hmdb : (xorBytes DB (Mgf S XSECURE_RSA_MAX_DB_SIZE_IN_BYTES)).length
      = XSECURE_RSA_MAX_DB_SIZE_IN_BYTES := by
    simp [hMgf, hDB]
  have hms : (xorBytes S (Mgf (xorBytes DB (Mgf S XSECURE_RSA_MAX_DB_SIZE_IN_BYTES))
      XSECURE_SHA3_HASH_LENGTH_IN_BYTES)).length = XSECURE_SHA3_HASH_LENGTH_IN_BYTES := by
    simp [hMgf, hS]
  have e1 : (([0] ++ xorBytes S (Mgf (xorBytes DB (Mgf S XSECURE_RSA_MAX_DB_SIZE_IN_BYTES))
      XSECURE_SHA3_HASH_LENGTH_IN_BYTES) ++ xorBytes DB
      (Mgf S XSECURE_RSA_MAX_DB_SIZE_IN_BYTES)).drop 1).take XSECURE_SHA3_HASH_LENGTH_IN_BYTES
      = xorBytes S (Mgf (xorBytes DB (Mgf S XSECURE_RSA_MAX_DB_SIZE_IN_BYTES))
        XSECURE_SHA3_HASH_LENGTH_IN_BYTES) := by
    rw [List.append_assoc, List.singleton_append, List.drop_succ_cons, List.drop_zero]
    exact List.take_left' hms
  have e2 : (([0] ++ xorBytes S (Mgf (xorBytes DB (Mgf S XSECURE_RSA_MAX_DB_SIZE_IN_BYTES))
      XSECURE_SHA3_HASH_LENGTH_IN_BYTES) ++ xorBytes DB
      (Mgf S XSECURE_RSA_MAX_DB_SIZE_IN_BYTES)).drop
      (1 + XSECURE_SHA3_HASH_LENGTH_IN_BYTES)).take XSECURE_RSA_MAX_DB_SIZE_IN_BYTES
      = xorBytes DB (Mgf S XSECURE_RSA_MAX_DB_SIZE_IN_BYTES) := by
    rw [List.drop_left' (by simp [hMgf, hS]; omega)]
    exact List.take_of_length_le (le_of_eq hmdb)
  rw [e1, e2, xorBytes_cancel S _ (by simp [hMgf, hS]),
    xorBytes_cancel DB _ (by simp [hMgf, hDB])]

theorem encode_block48 (env : Env) (mem : Mem) (P : XSecure_RsaOaepParam) (Output : List Nat)
    (hp : XSecure_HashAlgInfo)
    (hres : env.XSecure_GetHashInstance P.ShaType = some hp)
    (hH : hp.HashLen = XSECURE_SHA3_HASH_LENGTH_IN_BYTES)
    (hin : P.InputDataAddr ≠ 0) (hout : P.OutputDataAddr ≠ 0)
    (hn : P.InputDataSize ≤ XSecure_RsaOaepEncode_ActualMsgLen hp.HashLen)
    (hdig : (hp.ShaDigest (labelOf mem P)).1 = XST_SUCCESS)
    (hrnd : (env.XSecure_GetRandomNum hp.HashLen).1 = XST_SUCCESS)
    (hmgf : ∀ seed n, (env.XSecure_MaskGenFunc P.ShaType seed n).1 = XST_SUCCESS)
    (hO : Output.length = XSECURE_RSA_KEY_GEN_SIZE_IN_BYTES) :
    ∃ r, XSecure_RsaOaepEncode env mem P Output = some r ∧ r.Status = XST_SUCCESS ∧
      r.Output.length = XSECURE_RSA_KEY_GEN_SIZE_IN_BYTES ∧
      bufGet r.Output 0 = some 0 ∧
      OaepUnmaskedDB (env.Mgf P.ShaType) hp.HashLen r.Output =
        OaepReferenceDB (hp.digest (labelOf mem P))
          (XSecure_RsaOaepEncode_ActualMsgLen hp.HashLen - P.InputDataSize)
          (messageOf mem P) := by
  obtain ⟨r, h1, h2, -, h4⟩ := encode_emitted env mem P Output hp hres (le_of_eq hH) hin hout
    hn hdig hrnd hmgf hO
  have heq := encode_eq env mem P Output hp hres (le_of_eq hH) hin hout hn hdig hrnd hmgf hO
  rw [heq] at h1
  have hr := (Option.some.inj h1).symm
  have hA := ActualMsgLen_small hp.HashLen (le_of_eq hH)
  have hdrop : Output.drop (XSecure_RsaOaepEncode_ActualMsgLen hp.HashLen + 2 * hp.HashLen + 2)
      = [] := by
    apply List.drop_eq_nil_of_le
    rw [hO, hA, hH]
    decide
  have hDBlen : (OaepReferenceDB (hp.digest (labelOf mem P))
      (XSecure_RsaOaepEncode_ActualMsgLen hp.HashLen - P.InputDataSize)
      (messageOf mem P)).length = XSECURE_RSA_MAX_DB_SIZE_IN_BYTES := by
    rw [OaepReferenceDB_length]
    simp only [XSecure_HashAlgInfo.digest, messageOf, bytesOf_length, memRead_length,
      XSECURE_RSA_MAX_DB_SIZE_IN_BYTES, XSECURE_RSA_MAX_PS_SIZE_IN_BYTES,
      XSECURE_RSA_MAX_MSG_SIZE_IN_BYTES, XSECURE_RSA_KEY_GEN_SIZE_IN_BYTES,
      XSECURE_SHA3_HASH_LENGTH_IN_BYTES] at *
    omega
  refine ⟨r, heq.trans (congrArg some hr.symm), h2, h4, ?_, ?_⟩
  · rw [hr]
    simp only [OaepReferenceBlock, List.append_assoc, List.singleton_append]
    rfl
  · rw [hr]
    simp only [hdrop, List.append_nil]
    rw [hH] at hDBlen ⊢
    exact unmask_encoded (env.Mgf P.ShaType) _ _ (Env.Mgf_length env P.ShaType)
      (bytesOf_length _ _) hDBlen

theorem encode_leading_zero (env : Env) (mem : Mem) (P : XSecure_RsaOaepParam)
    (Output : List Nat) (hp : XSecure_HashAlgInfo)
    (hres : env.XSecure_GetHashInstance P.ShaType = some hp)
    (hH : hp.HashLen ≤ XSECURE_SHA3_HASH_LENGTH_IN_BYTES)
    (hin : P.InputDataAddr ≠ 0) (hout : P.OutputDataAddr ≠ 0)
    (hn : P.InputDataSize ≤ XSecure_RsaOaepEncode_ActualMsgLen hp.HashLen)
    (hdig : (hp.ShaDigest (labelOf mem P)).1 = XST_SUCCESS)
    (hrnd : (env.XSecure_GetRandomNum hp.HashLen).1 = XST_SUCCESS)
    (hmgf : ∀ seed n, (env.XSecure_MaskGenFunc P.ShaType seed n).1 = XST_SUCCESS)
    (hO : Output.length = XSECURE_RSA_KEY_GEN_SIZE_IN_BYTES) :
    ∃ r, XSecure_RsaOaepEncode env mem P Output = some r ∧ r.Status = XST_SUCCESS ∧
      r.Output.length = XSECURE_RSA_KEY_GEN_SIZE_IN_BYTES ∧ bufGet r.Output 0 = some 0 := by
  obtain ⟨r, h1, h2, -, h4⟩ := encode_emitted env mem P Output hp hres hH hin hout
    hn hdig hrnd hmgf hO
  have heq := encode_eq env mem P Output hp hres hH hin hout hn hdig hrnd hmgf hO
  rw [heq] at h1
  have hr := (Option.some.inj h1).symm
  refine ⟨r, heq.trans (congrArg some hr.symm), h2, h4, ?_⟩
  rw [hr]
  simp only [OaepReferenceBlock, List.append_assoc, List.singleton_append]
  rfl

theorem decode_small_hash_out_of_bounds (env : Env) (mem : Mem) (P : XSecure_RsaOaepParam)
    (Input : List Nat) (hp : XSecure_HashAlgInfo)
    (hres : env.XSecure_GetHashInstance P.ShaType = some hp)
    (hH : hp.HashLen < XSECURE_SHA3_HASH_LENGTH_IN_BYTES)
    (hI : Input.length = XSECURE_RSA_KEY_GEN_SIZE_IN_BYTES)
    (h0 : bufGet Input 0 = some 0)
    (hdig : (hp.ShaDigest (labelOf mem P)).1 = XST_SUCCESS) :
    XSecure_RsaOaepDecode env mem P Input = none := by
  unfold XSecure_RsaOaepDecode
  simp only [hres]
  rw [h0]
  simp only [labelOf] at hdig
  simp only [ne_eq, not_true_eq_false, if_false, hdig]
  generalize hp.HashLen = H at *
  simp only [XSECURE_SHA3_HASH_LENGTH_IN_BYTES, XSECURE_RSA_KEY_GEN_SIZE_IN_BYTES] at hH hI
  have hD : sub32 (sub32 XSECURE_RSA_KEY_GEN_SIZE_IN_BYTES H) 1 = 383 - H := by
    simp only [XSECURE_RSA_KEY_GEN_SIZE_IN_BYTES]
    rw [sub32_of_le 384 H (by omega) (by omega), sub32_of_le _ 1 (by omega) (by omega)]
    omega
  rw [hD]
  have w1 := (buf_fill_read (bytesOf (hp.ShaDigest
    (memRead mem P.OptionalLabelAddr P.OptionalLabelSize)).2 H)
    XSECURE_SHA3_HASH_LENGTH_IN_BYTES
    (by simp only [bytesOf_length, XSECURE_SHA3_HASH_LENGTH_IN_BYTES]; omega)).1
  have r1 := bufRead_eq Input 1 H (by omega)
  have hms : ((Input.drop 1).take H).length = H := by
    rw [List.length_take, List.length_drop]; omega
  have w2 := (buf_fill_read ((Input.drop 1).take H) XSECURE_SHA3_HASH_LENGTH_IN_BYTES
    (by rw [hms]; simp only [XSECURE_SHA3_HASH_LENGTH_IN_BYTES]; omega)).1
  have r2 := bufRead_eq Input (1 + H) (383 - H) (by omega)
  have hmdb : ((Input.drop (1 + H)).take (383 - H)).length = 383 - H := by
    rw [List.length_take, List.length_drop]; omega
  have w3 : bufWrite (zeros XSECURE_RSA_MAX_DB_SIZE_IN_BYTES) 0
      ((Input.drop (1 + H)).take (383 - H)) = none := by
    unfold bufWrite
    rw [if_neg]
    rw [hmdb, zeros_length]
    simp only [XSECURE_RSA_MAX_DB_SIZE_IN_BYTES, XSECURE_RSA_MAX_PS_SIZE_IN_BYTES,
      XSECURE_RSA_MAX_MSG_SIZE_IN_BYTES, XSECURE_RSA_KEY_GEN_SIZE_IN_BYTES,
      XSECURE_SHA3_HASH_LENGTH_IN_BYTES]
    omega
  simp only [w1, r1, w2, r2, w3]

/-- With a hash descriptor of length 32 the 3-byte message of
`exampleParam` is encoded successfully, but `XSecure_RsaOaepDecode` applied to the block
with the same selector and label does not return success: it copies 351 bytes into the
335-byte array `DBMask`. -/
theorem round_trip_hash32 :
    ∃ r, XSecure_RsaOaepEncode (exampleEnv 32) exampleMem exampleParam (zeros 384) = some r ∧
      r.Status = XST_SUCCESS ∧
      XSecure_RsaOaepDecode (exampleEnv 32) exampleMem exampleParam r.Output = none := by
  obtain ⟨r, h1, h2, h3, h4⟩ := encode_leading_zero (exampleEnv 32) exampleMem exampleParam
    (zeros 384) (exampleHash 32) rfl (by decide) (by decide) (by decide) (by decide) rfl rfl
    (fun _ _ => rfl) (zeros_length 384)
  exact ⟨r, h1, h2, decode_small_hash_out_of_bounds (exampleEnv 32) exampleMem exampleParam
    r.Output (exampleHash 32) rfl (by decide) h3 h4 rfl⟩

/-- Round trip for the reference hash length: for every hash selector that
resolves to a descriptor of length 48, every label, every seed delivered by the entropy
source and every message `m` with `0 ≤ len(m) ≤ MaxMessageLen = ModulusLen - 2*HashLen - 2`,
with hash provider and mask generator arbitrary functions that succeed,
`XSecure_RsaOaepDecode` applied (same selector, same label bytes) to the 384-byte block
written by `XSecure_RsaOaepEncode` returns `XST_SUCCESS`, stores exactly `m` at its
`OutputDataAddr` (nothing else in memory changes) and sets `OutputDataSize = len(m)`. -/
theorem round_trip_reference_length (env : Env) (memE memD : Mem) (PE PD : XSecure_RsaOaepParam)
    (Output : List Nat) (hp : XSecure_HashAlgInfo)
    (hres : env.XSecure_GetHashInstance PE.ShaType = some hp)
    (hH : hp.HashLen = XSECURE_SHA3_HASH_LENGTH_IN_BYTES)
    (hin : PE.InputDataAddr ≠ 0) (hout : PE.OutputDataAddr ≠ 0)
    (hn : PE.InputDataSize ≤ XSECURE_RSA_KEY_GEN_SIZE_IN_BYTES - 2 * hp.HashLen - 2)
    (hdig : (hp.ShaDigest (labelOf memE PE)).1 = XST_SUCCESS)
    (hrnd : (env.XSecure_GetRandomNum hp.HashLen).1 = XST_SUCCESS)
    (hmgf : ∀ seed n, (env.XSecure_MaskGenFunc PE.ShaType seed n).1 = XST_SUCCESS)
    (hO : Output.length = XSECURE_RSA_KEY_GEN_SIZE_IN_BYTES)
    (hsel : PD.ShaType = PE.ShaType) (hlab : labelOf memD PD = labelOf memE PE) :
    ∃ rE rD, XSecure_RsaOaepEncode env memE PE Output = some rE ∧
      rE.Status = XST_SUCCESS ∧
      XSecure_RsaOaepDecode env memD PD rE.Output = some rD ∧
      rD.Status = XST_SUCCESS ∧
      memRead rD.Mem PD.OutputDataAddr PE.InputDataSize = messageOf memE PE ∧
      (∀ a, a < PD.OutputDataAddr ∨ PD.OutputDataAddr + PE.InputDataSize ≤ a →
        rD.Mem a = memD a) ∧
      rD.OaepParam = { PD with OutputDataSize := PE.InputDataSize } := by
  have hn2 : PE.InputDataSize ≤ XSecure_RsaOaepEncode_ActualMsgLen hp.HashLen := by
    rw [ActualMsgLen_large hp.HashLen (le_of_eq hH.symm) (by rw [hH]; decide)]
    exact hn
  obtain ⟨rE, e1, e2, e3, e4, e5⟩ := encode_block48 env memE PE Output hp hres hH hin hout hn2
    hdig hrnd hmgf hO
  rw [← hsel] at hres hmgf e5
  rw [← hlab] at hdig e5
  obtain ⟨d1, -⟩ := decode_success env memD PD rE.Output hp (messageOf memE PE) _ hres hH e3 e4
    hdig hmgf e5
  have hml : (messageOf memE PE).length = PE.InputDataSize := by simp [messageOf]
  rw [hml] at d1
  refine ⟨rE, _, e1, e2, d1, rfl, ?_, ?_, rfl⟩
  · have := memRead_memWrite memD PD.OutputDataAddr (messageOf memE PE)
    rw [hml] at this
    exact this
  · intro a ha
    exact memWrite_outside _ _ _ a (by rw [hml]; exact ha)

/-- Example: the 3-byte message of `exampleParam` under `exampleEnv 48`,
decoded into the same memory with the same parameter block. -/
theorem round_trip_reference_length_example :
    ∃ rE rD, XSecure_RsaOaepEncode (exampleEnv 48) exampleMem exampleParam (zeros 384) = some rE ∧
      rE.Status = XST_SUCCESS ∧
      XSecure_RsaOaepDecode (exampleEnv 48) exampleMem exampleParam rE.Output = some rD ∧
      rD.Status = XST_SUCCESS ∧
      memRead rD.Mem exampleParam.OutputDataAddr exampleParam.InputDataSize =
        messageOf exampleMem exampleParam ∧
      (∀ a, a < exampleParam.OutputDataAddr ∨
          exampleParam.OutputDataAddr + exampleParam.InputDataSize ≤ a →
        rD.Mem a = exampleMem a) ∧
      rD.OaepParam = { exampleParam with OutputDataSize := exampleParam.InputDataSize } :=
  round_trip_reference_length (exampleEnv 48) exampleMem exampleMem exampleParam exampleParam (zeros 384)
    (exampleHash 48) rfl rfl (by decide) (by decide) (by decide) rfl rfl (fun _ _ => rfl)
    (zeros_length 384) rfl rfl

theorem decode_cmp_error (env : Env) (mem : Mem) (P : XSecure_RsaOaepParam) (Block : List Nat)
    (hp : XSecure_HashAlgInfo)
    (hres : env.XSecure_GetHashInstance P.ShaType = some hp)
    (hH : hp.HashLen = XSECURE_SHA3_HASH_LENGTH_IN_BYTES)
    (hI : Block.length = XSECURE_RSA_KEY_GEN_SIZE_IN_BYTES)
    (h0 : bufGet Block 0 = some 0)
    (hdig : (hp.ShaDigest (labelOf mem P)).1 = XST_SUCCESS)
    (hmgf : ∀ seed n, (env.XSecure_MaskGenFunc P.ShaType seed n).1 = XST_SUCCESS)
    (hne : (OaepUnmaskedDB (env.Mgf P.ShaType) hp.HashLen Block).take hp.HashLen ≠
      hp.digest (labelOf mem P)) :
    XSecure_RsaOaepDecode env mem P Block =
      some ⟨XSECURE_RSA_OAEP_DATA_CMP_ERROR, P, mem,
        decodeTrace (env.Mgf P.ShaType) hp.HashLen (labelOf mem P) Block⟩ := by
  have hlen := OaepUnmaskedDB_length (env.Mgf P.ShaType) Block (Env.Mgf_length env P.ShaType) hI
  rw [← hH] at hlen
  rw [decode_unmask env mem P Block hp hres hH hI h0 hdig hmgf]
  exact validate_cmp_error mem P hp.HashLen _ _ _ _ (by simp [XSecure_HashAlgInfo.digest])
    (by rw [hlen, hH]; decide) hne

theorem OaepReferenceDB_take (lH M : List Nat) (k : Nat) :
    (OaepReferenceDB lH k M).take lH.length = lH := by
  simp [OaepReferenceDB]

/-- Label mismatch rejection, for a hash descriptor of the reference length 48 (the
length the arrays of the function are dimensioned for) and collaborators that succeed.
First part: whenever the leading byte of a 384-byte block is `0x00` and the first `HashLen`
bytes of its unmasked data block differ from `Hash(label)`, `XSecure_RsaOaepDecode` returns
`XSECURE_RSA_OAEP_DATA_CMP_ERROR` and changes neither memory nor the parameter block.
Second part: for every block produced by `XSecure_RsaOaepEncode` with a label `L`, decoding
with the same selector and a label `L'` such that `Hash(L') ≠ Hash(L)` returns
`XSECURE_RSA_OAEP_DATA_CMP_ERROR`. -/
theorem decode_label_mismatch (env : Env) (mem : Mem) (P : XSecure_RsaOaepParam)
    (hp : XSecure_HashAlgInfo)
    (hres : env.XSecure_GetHashInstance P.ShaType = some hp)
    (hH : hp.HashLen = XSECURE_SHA3_HASH_LENGTH_IN_BYTES)
    (hdig : (hp.ShaDigest (labelOf mem P)).1 = XST_SUCCESS)
    (hmgf : ∀ seed n, (env.XSecure_MaskGenFunc P.ShaType seed n).1 = XST_SUCCESS) :
    (∀ Block : List Nat, Block.length = XSECURE_RSA_KEY_GEN_SIZE_IN_BYTES →
      bufGet Block 0 = some 0 →
      (OaepUnmaskedDB (env.Mgf P.ShaType) hp.HashLen Block).take hp.HashLen ≠
        hp.digest (labelOf mem P) →
      ∃ r, XSecure_RsaOaepDecode env mem P Block = some r ∧
        r.Status = XSECURE_RSA_OAEP_DATA_CMP_ERROR ∧ r.Mem = mem ∧ r.OaepParam = P) ∧
    (∀ (memE : Mem) (PE : XSecure_RsaOaepParam) (Output : List Nat),
      PE.ShaType = P.ShaType → PE.InputDataAddr ≠ 0 → PE.OutputDataAddr ≠ 0 →
      PE.InputDataSize ≤ XSECURE_RSA_KEY_GEN_SIZE_IN_BYTES - 2 * hp.HashLen - 2 →
      (hp.ShaDigest (labelOf memE PE)).1 = XST_SUCCESS →
      (env.XSecure_GetRandomNum hp.HashLen).1 = XST_SUCCESS →
      Output.length = XSECURE_RSA_KEY_GEN_SIZE_IN_BYTES →
      hp.digest (labelOf mem P) ≠ hp.digest (labelOf memE PE) →
      ∃ rE r, XSecure_RsaOaepEncode env memE PE Output = some rE ∧
        rE.Status = XST_SUCCESS ∧
        XSecure_RsaOaepDecode env mem P rE.Output = some r ∧
        r.Status = XSECURE_RSA_OAEP_DATA_CMP_ERROR ∧ r.Mem = mem ∧ r.OaepParam = P) := by
  constructor
  · intro Block hI h0 hne
    exact ⟨_, decode_cmp_error env mem P Block hp hres hH hI h0 hdig hmgf hne, rfl, rfl, rfl⟩
  · intro memE PE Output hsel hin hout hn hdigE hrnd hO hne
    have hn2 : PE.InputDataSize ≤ XSecure_RsaOaepEncode_ActualMsgLen hp.HashLen := by
      rw [ActualMsgLen_large hp.HashLen (le_of_eq hH.symm) (by rw [hH]; decide)]
      exact hn
    obtain ⟨rE, e1, e2, e3, e4, e5⟩ := encode_block48 env memE PE Output hp
      (by rw [hsel]; exact hres) hH hin hout hn2 hdigE hrnd (by rw [hsel]; exact hmgf) hO
    rw [hsel] at e5
    have hne2 : (OaepUnmaskedDB (env.Mgf P.ShaType) hp.HashLen rE.Output).take hp.HashLen ≠
        hp.digest (labelOf mem P) := by
      rw [e5]
      have := OaepReferenceDB_take (hp.digest (labelOf memE PE))
        (messageOf memE PE) (XSecure_RsaOaepEncode_ActualMsgLen hp.HashLen - PE.InputDataSize)
      simp only [XSecure_HashAlgInfo.digest, bytesOf_length] at this hne ⊢
      rw [this]
      exact fun h => hne h.symm
    exact ⟨rE, _, e1, e2, decode_cmp_error env mem P rE.Output hp hres hH e3 e4 hdig hmgf hne2,
      rfl, rfl, rfl⟩

set_option maxRecDepth 100000 in
theorem exampleBadHashBlock_unmasked :
    (OaepUnmaskedDB (zeroEnv.Mgf exampleParam.ShaType) zeroHash.HashLen
        exampleBadHashBlock).take zeroHash.HashLen ≠
      zeroHash.digest (labelOf exampleMem exampleParam) := by
  decide

/-- Example: under `zeroEnv` the block `exampleBadHashBlock` is rejected. -/
theorem decode_label_mismatch_example :
    ∃ r, XSecure_RsaOaepDecode zeroEnv exampleMem exampleParam exampleBadHashBlock = some r ∧
      r.Status = XSECURE_RSA_OAEP_DATA_CMP_ERROR ∧ r.Mem = exampleMem ∧
      r.OaepParam = exampleParam :=
  (decode_label_mismatch zeroEnv exampleMem exampleParam zeroHash rfl rfl rfl
    (fun _ _ => rfl)).1 exampleBadHashBlock
    (by simp [exampleBadHashBlock, XSECURE_RSA_KEY_GEN_SIZE_IN_BYTES]) rfl
    exampleBadHashBlock_unmasked

theorem decode_bad_separator (env : Env) (mem : Mem) (P : XSecure_RsaOaepParam)
    (Block : List Nat) (hp : XSecure_HashAlgInfo) (rest : List Nat) (k x : Nat)
    (hres : env.XSecure_GetHashInstance P.ShaType = some hp)
    (hH : hp.HashLen = XSECURE_SHA3_HASH_LENGTH_IN_BYTES)
    (hI : Block.length = XSECURE_RSA_KEY_GEN_SIZE_IN_BYTES)
    (h0 : bufGet Block 0 = some 0)
    (hdig : (hp.ShaDigest (labelOf mem P)).1 = XST_SUCCESS)
    (hmgf : ∀ seed n, (env.XSecure_MaskGenFunc P.ShaType seed n).1 = XST_SUCCESS)
    (hDB : OaepUnmaskedDB (env.Mgf P.ShaType) hp.HashLen Block =
      hp.digest (labelOf mem P) ++ zeros k ++ x :: rest)
    (hx0 : x ≠ 0) (hx1 : x ≠ 1) :
    XSecure_RsaOaepDecode env mem P Block =
      some ⟨XSECURE_RSA_OAEP_DB_MISMATCH_ERROR, P, mem,
        decodeTrace (env.Mgf P.ShaType) hp.HashLen (labelOf mem P) Block⟩ := by
  have hlen := OaepUnmaskedDB_length (env.Mgf P.ShaType) Block (Env.Mgf_length env P.ShaType) hI
  rw [← hH, hDB] at hlen
  rw [decode_unmask env mem P Block hp hres hH hI h0 hdig hmgf, hDB]
  have hD : XSECURE_RSA_KEY_GEN_SIZE_IN_BYTES - hp.HashLen - 1
      = XSECURE_RSA_MAX_DB_SIZE_IN_BYTES := by rw [hH]; decide
  rw [hD]
  exact validate_bad_separator mem P hp.HashLen XSECURE_RSA_MAX_DB_SIZE_IN_BYTES _ rest k x _
    (by simp [XSecure_HashAlgInfo.digest]) hlen (by decide) hx0 hx1

theorem decode_no_separator (env : Env) (mem : Mem) (P : XSecure_RsaOaepParam)
    (Block : List Nat) (hp : XSecure_HashAlgInfo) (k : Nat)
    (hres : env.XSecure_GetHashInstance P.ShaType = some hp)
    (hH : hp.HashLen = XSECURE_SHA3_HASH_LENGTH_IN_BYTES)
    (hI : Block.length = XSECURE_RSA_KEY_GEN_SIZE_IN_BYTES)
    (h0 : bufGet Block 0 = some 0)
    (hdig : (hp.ShaDigest (labelOf mem P)).1 = XST_SUCCESS)
    (hmgf : ∀ seed n, (env.XSecure_MaskGenFunc P.ShaType seed n).1 = XST_SUCCESS)
    (hDB : OaepUnmaskedDB (env.Mgf P.ShaType) hp.HashLen Block =
      hp.digest (labelOf mem P) ++ zeros k) :
    XSecure_RsaOaepDecode env mem P Block = none := by
  have hlen := OaepUnmaskedDB_length (env.Mgf P.ShaType) Block (Env.Mgf_length env P.ShaType) hI
  rw [← hH, hDB] at hlen
  rw [decode_unmask env mem P Block hp hres hH hI h0 hdig hmgf, hDB]
  have hD : XSECURE_RSA_KEY_GEN_SIZE_IN_BYTES - hp.HashLen - 1
      = XSECURE_RSA_MAX_DB_SIZE_IN_BYTES := by rw [hH]; decide
  rw [hD]
  exact validate_no_separator mem P hp.HashLen XSECURE_RSA_MAX_DB_SIZE_IN_BYTES _ k _
    (by simp [XSecure_HashAlgInfo.digest]) hlen (by decide)

set_option maxRecDepth 100000 in
theorem zeros_block_unmasked :
    OaepUnmaskedDB (zeroEnv.Mgf exampleParam.ShaType) zeroHash.HashLen (zeros 384) =
      zeroHash.digest (labelOf exampleMem exampleParam) ++ zeros 287 := by
  decide

/-- C9 (code at the failing input). Under `zeroEnv` the all-zero 384-byte block has leading
byte `0x00` and unmasks to `Hash(label)` followed by 287 zero bytes, so there is no
non-zero byte after the label hash; `XSecure_RsaOaepDecode` does not return
`XSECURE_RSA_OAEP_DB_MISMATCH_ERROR`: the scan leaves the loop with `Index = 335` and the
separator test reads `DB[335]`, one element past the end of the 335-byte array `DB`. -/
theorem C9_decode_no_separator_reads_past_DB :
    OaepUnmaskedDB (zeroEnv.Mgf exampleParam.ShaType) zeroHash.HashLen (zeros 384) =
        zeroHash.digest (labelOf exampleMem exampleParam) ++ zeros 287 ∧
      XSecure_RsaOaepDecode_PsScan
        (zeroHash.digest (labelOf exampleMem exampleParam) ++ zeros 287) 287 48 0 =
        some (335, 0) ∧
      bufGet (zeroHash.digest (labelOf exampleMem exampleParam) ++ zeros 287) 335 = none ∧
      XSecure_RsaOaepDecode zeroEnv exampleMem exampleParam (zeros 384) = none :=
  ⟨zeros_block_unmasked,
    PsScan_all_zero 287 (zeroHash.digest (labelOf exampleMem exampleParam)) 0 (by decide),
    by rw [bufGet, List.get?_eq_none]; simp [XSecure_HashAlgInfo.digest, zeroHash,
      XSECURE_SHA3_HASH_LENGTH_IN_BYTES],
    decode_no_separator zeroEnv exampleMem exampleParam (zeros 384) zeroHash 287 rfl rfl
      (zeros_length 384) rfl rfl (fun _ _ => rfl) zeros_block_unmasked⟩

/-! ## The exponentiation wrappers: pointer check and reset bracket -/

theorem XSecure_RsaExpCRT_null (eng : RsaEngine) (SoftReset : Nat)
    (Hash P Q Dp Dq Qinv Pub Mod : Option (List Nat)) (Len : Int) (Res : Option (List Nat))
    (h : Hash = none ∨ P = none ∨ Q = none ∨ Dp = none ∨ Dq = none ∨ Qinv = none ∨
      Res = none) :
    XSecure_RsaExpCRT eng SoftReset Hash P Q Dp Dq Qinv Pub Mod Len Res =
      ⟨XSECURE_RSA_EXPONENT_INVALID_PARAM, Res, SoftReset, []⟩ := by
  cases Hash <;> cases P <;> cases Q <;> cases Dp <;> cases Dq <;> cases Qinv <;>
    cases Res <;> simp [XSecure_RsaExpCRT] at h ⊢

theorem XSecure_RsaExp_null (eng : RsaEngine) (SoftReset : Nat)
    (Hash Exp Mod P Q Pub Tot : Option (List Nat)) (Len : Int) (Res : Option (List Nat))
    (h : Hash = none ∨ Exp = none ∨ Mod = none ∨ Res = none) :
    XSecure_RsaExp eng SoftReset Hash Exp Mod P Q Pub Tot Len Res =
      ⟨XSECURE_RSA_EXPONENT_INVALID_PARAM, Res, SoftReset, []⟩ := by
  cases Hash <;> cases Exp <;> cases Mod <;> cases Res <;> simp [XSecure_RsaExp] at h ⊢

theorem XSecure_RsaExpCRT_nonnull (eng : RsaEngine) (SoftReset : Nat)
    (hash p q dp dq qinv : List Nat) (Pub Mod : Option (List Nat)) (Len : Int)
    (res : List Nat) :
    XSecure_RsaExpCRT eng SoftReset (some hash) (some p) (some q) (some dp) (some dq)
        (some qinv) Pub Mod Len (some res) =
      ⟨(eng.RSA_ExpCrtQ hash p q dp dq qinv Pub Mod Len res).1,
        some (eng.RSA_ExpCrtQ hash p q dp dq qinv Pub Mod Len res).2, 1,
        [Event.SoftReset 0, Event.RSA_ExpCrtQ hash Len, Event.SoftReset 1]⟩ := rfl

theorem XSecure_RsaExp_nonnull (eng : RsaEngine) (SoftReset : Nat)
    (hash exp mod : List Nat) (P Q Pub Tot : Option (List Nat)) (Len : Int)
    (res : List Nat) :
    XSecure_RsaExp eng SoftReset (some hash) (some exp) (some mod) P Q Pub Tot Len
        (some res) =
      ⟨(eng.RSA_ExpQ hash exp mod P Q Pub Tot Len res).1,
        some (eng.RSA_ExpQ hash exp mod P Q Pub Tot Len res).2, 1,
        [Event.SoftReset 0, Event.RSA_ExpQ hash Len, Event.SoftReset 1]⟩ := rfl

/-- C14. Reset bracket: for every call of `XSecure_RsaExpCRT` or `XSecure_RsaExp` whose
mandatory pointers are all non-null, whatever the optional pointers, the value of the
soft-reset register on entry and the status of the engine are, the trace is exactly: write
of 0 to the soft-reset register, one invocation of the engine primitive, write of 1 to the
soft-reset register; the register holds 1 on return and the returned status is the status
of the engine. -/
theorem C14_reset_bracket (eng : RsaEngine) (SoftReset : Nat)
    (hash p q dp dq qinv exp mod res : List Nat) (Pub Mod P Q Tot : Option (List Nat))
    (Len : Int) :
    (XSecure_RsaExpCRT eng SoftReset (some hash) (some p) (some q) (some dp) (some dq)
        (some qinv) Pub Mod Len (some res)).Trace =
        [Event.SoftReset 0, Event.RSA_ExpCrtQ hash Len, Event.SoftReset 1] ∧
      (XSecure_RsaExpCRT eng SoftReset (some hash) (some p) (some q) (some dp) (some dq)
        (some qinv) Pub Mod Len (some res)).Status =
        (eng.RSA_ExpCrtQ hash p q dp dq qinv Pub Mod Len res).1 ∧
      (XSecure_RsaExpCRT eng SoftReset (some hash) (some p) (some q) (some dp) (some dq)
        (some qinv) Pub Mod Len (some res)).SoftReset = 1 ∧
      (XSecure_RsaExp eng SoftReset (some hash) (some exp) (some mod) P Q Pub Tot Len
        (some res)).Trace =
        [Event.SoftReset 0, Event.RSA_ExpQ hash Len, Event.SoftReset 1] ∧
      (XSecure_RsaExp eng SoftReset (some hash) (some exp) (some mod) P Q Pub Tot Len
        (some res)).Status =
        (eng.RSA_ExpQ hash exp mod P Q Pub Tot Len res).1 ∧
      (XSecure_RsaExp eng SoftReset (some hash) (some exp) (some mod) P Q Pub Tot Len
        (some res)).SoftReset = 1 :=
  ⟨rfl, rfl, rfl, rfl, rfl, rfl⟩

/-- C15 (counterexample). `XSecure_RsaExpCRT` and `XSecure_RsaExp` called with a `NULL`
operand `Hash` return the failure status `XSECURE_RSA_EXPONENT_INVALID_PARAM` without any
write to the soft-reset register: the write of 1 is not part of the trace. -/
theorem C15_counterexample :
    (XSecure_RsaExpCRT exampleEngine 1 none (some [1]) (some [1]) (some [1]) (some [1])
        (some [1]) none none 3072 (some [0])).Status ≠ XST_SUCCESS ∧
      Event.SoftReset 1 ∉
        (XSecure_RsaExpCRT exampleEngine 1 none (some [1]) (some [1]) (some [1]) (some [1])
          (some [1]) none none 3072 (some [0])).Trace ∧
      (XSecure_RsaExp exampleEngine 1 none (some [1]) (some [1]) none none none none 3072
        (some [0])).Status ≠ XST_SUCCESS ∧
      Event.SoftReset 1 ∉
        (XSecure_RsaExp exampleEngine 1 none (some [1]) (some [1]) none none none none 3072
          (some [0])).Trace := by
  decide

/-- C15 (amended). Every return path of `XSecure_RsaExpCRT` and `XSecure_RsaExp` that is
taken after the pointer check has passed (all mandatory pointers non-null), in particular
every failure reported by the engine primitive, ends with the write of 1 to the soft-reset
register, which then holds 1.  The invalid-parameter path (a mandatory pointer is `NULL`)
returns before the engine is released: it performs no register write and the register keeps
its value. -/
theorem C15_failure_paths_and_reset (eng : RsaEngine) (SoftReset : Nat)
    (Hash P Q Dp Dq Qinv Exp Mod Pub Tot Res : Option (List Nat)) (Len : Int) :
    ((Hash ≠ none ∧ P ≠ none ∧ Q ≠ none ∧ Dp ≠ none ∧ Dq ≠ none ∧ Qinv ≠ none ∧
        Res ≠ none) →
      (XSecure_RsaExpCRT eng SoftReset Hash P Q Dp Dq Qinv Pub Mod Len Res).Trace.getLast? =
          some (Event.SoftReset 1) ∧
        (XSecure_RsaExpCRT eng SoftReset Hash P Q Dp Dq Qinv Pub Mod Len Res).SoftReset = 1) ∧
    ((Hash = none ∨ P = none ∨ Q = none ∨ Dp = none ∨ Dq = none ∨ Qinv = none ∨
        Res = none) →
      (XSecure_RsaExpCRT eng SoftReset Hash P Q Dp Dq Qinv Pub Mod Len Res).Status =
          XSECURE_RSA_EXPONENT_INVALID_PARAM ∧
        (XSecure_RsaExpCRT eng SoftReset Hash P Q Dp Dq Qinv Pub Mod Len Res).Trace = [] ∧
        (XSecure_RsaExpCRT eng SoftReset Hash P Q Dp Dq Qinv Pub Mod Len Res).SoftReset =
          SoftReset) ∧
    ((Hash ≠ none ∧ Exp ≠ none ∧ Mod ≠ none ∧ Res ≠ none) →
      (XSecure_RsaExp eng SoftReset Hash Exp Mod P Q Pub Tot Len Res).Trace.getLast? =
          some (Event.SoftReset 1) ∧
        (XSecure_RsaExp eng SoftReset Hash Exp Mod P Q Pub Tot Len Res).SoftReset = 1) ∧
    ((Hash = none ∨ Exp = none ∨ Mod = none ∨ Res = none) →
      (XSecure_RsaExp eng SoftReset Hash Exp Mod P Q Pub Tot Len Res).Status =
          XSECURE_RSA_EXPONENT_INVALID_PARAM ∧
        (XSecure_RsaExp eng SoftReset Hash Exp Mod P Q Pub Tot Len Res).Trace = [] ∧
        (XSecure_RsaExp eng SoftReset Hash Exp Mod P Q Pub Tot Len Res).SoftReset =
          SoftReset) := by
  refine ⟨?_, ?_, ?_, ?_⟩
  · rintro ⟨h1, h2, h3, h4, h5, h6, h7⟩
    obtain ⟨hash, rfl⟩ := Option.ne_none_iff_exists'.mp h1
    obtain ⟨p, rfl⟩ := Option.ne_none_iff_exists'.mp h2
    obtain ⟨q, rfl⟩ := Option.ne_none_iff_exists'.mp h3
    obtain ⟨dp, rfl⟩ := Option.ne_none_iff_exists'.mp h4
    obtain ⟨dq, rfl⟩ := Option.ne_none_iff_exists'.mp h5
    obtain ⟨qinv, rfl⟩ := Option.ne_none_iff_exists'.mp h6
    obtain ⟨res, rfl⟩ := Option.ne_none_iff_exists'.mp h7
    rw [XSecure_RsaExpCRT_nonnull]
    exact ⟨rfl, rfl⟩
  · intro h
    rw [XSecure_RsaExpCRT_null eng SoftReset Hash P Q Dp Dq Qinv Pub Mod Len Res h]
    exact ⟨rfl, rfl, rfl⟩
  · rintro ⟨h1, h2, h3, h4⟩
    obtain ⟨hash, rfl⟩ := Option.ne_none_iff_exists'.mp h1
    obtain ⟨exp, rfl⟩ := Option.ne_none_iff_exists'.mp h2
    obtain ⟨mod, rfl⟩ := Option.ne_none_iff_exists'.mp h3
    obtain ⟨res, rfl⟩ := Option.ne_none_iff_exists'.mp h4
    rw [XSecure_RsaExp_nonnull]
    exact ⟨rfl, rfl⟩
  · intro h
    rw [XSecure_RsaExp_null eng SoftReset Hash Exp Mod P Q Pub Tot Len Res h]
    exact ⟨rfl, rfl, rfl⟩

/-- Witness of C15 (amended): an engine failure with all pointers non-null, and a `NULL`
operand `Hash`, for both wrappers. -/
theorem C15_failure_paths_and_reset_witness :
    ((XSecure_RsaExpCRT failingEngine 0 (some [1]) (some [1]) (some [1]) (some [1])
          (some [1]) (some [1]) none none 3072 (some [0])).Trace.getLast? =
          some (Event.SoftReset 1) ∧
        (XSecure_RsaExpCRT failingEngine 0 (some [1]) (some [1]) (some [1]) (some [1])
          (some [1]) (some [1]) none none 3072 (some [0])).SoftReset = 1) ∧
      ((XSecure_RsaExp failingEngine 0 none (some [1]) (some [1]) (some [1]) (some [1]) none
          none 3072 (some [0])).Status = XSECURE_RSA_EXPONENT_INVALID_PARAM ∧
        (XSecure_RsaExp failingEngine 0 none (some [1]) (some [1]) (some [1]) (some [1]) none
          none 3072 (some [0])).Trace = [] ∧
        (XSecure_RsaExp failingEngine 0 none (some [1]) (some [1]) (some [1]) (some [1]) none
          none 3072 (some [0])).SoftReset = 0) :=
  ⟨(C15_failure_paths_and_reset failingEngine 0 (some [1]) (some [1]) (some [1]) (some [1])
      (some [1]) (some [1]) (some [1]) (some [1]) none none (some [0]) 3072).1
      ⟨by decide, by decide, by decide, by decide, by decide, by decide, by decide⟩,
    (C15_failure_paths_and_reset failingEngine 0 none (some [1]) (some [1]) (some [1])
      (some [1]) (some [1]) (some [1]) (some [1]) none none (some [0]) 3072).2.2.2
      (Or.inl rfl)⟩

/-- C16. Missing-operand rejection.  `XSecure_RsaExpCRT` returns
`XSECURE_RSA_EXPONENT_INVALID_PARAM` without invoking the engine exactly when at least one
of `Hash`, `P`, `Q`, `Dp`, `Dq`, `Qinv`, `Res` is `NULL` (`Pub` and `Mod` are free), and
`XSecure_RsaExp` exactly when at least one of `Hash`, `Exp`, `Mod`, `Res` is `NULL` (`P`,
`Q`, `Pub`, `Tot` are free); in that case the result buffer and the soft-reset register are
untouched.  With all mandatory pointers non-null the returned status is the status of the
engine, so the invalid-parameter status is returned if and only if a mandatory pointer is
`NULL` whenever the engine does not report that code itself. -/
theorem C16_missing_operand_rejection (eng : RsaEngine) (SoftReset : Nat)
    (Hash P Q Dp Dq Qinv Exp Mod Pub Tot Res : Option (List Nat)) (Len : Int) :
    ((Hash = none ∨ P = none ∨ Q = none ∨ Dp = none ∨ Dq = none ∨ Qinv = none ∨ Res = none) ↔
      XSecure_RsaExpCRT eng SoftReset Hash P Q Dp Dq Qinv Pub Mod Len Res =
        ⟨XSECURE_RSA_EXPONENT_INVALID_PARAM, Res, SoftReset, []⟩) ∧
    ((∀ h p q dp dq qinv res, (eng.RSA_ExpCrtQ h p q dp dq qinv Pub Mod Len res).1 ≠
        XSECURE_RSA_EXPONENT_INVALID_PARAM) →
      ((XSecure_RsaExpCRT eng SoftReset Hash P Q Dp Dq Qinv Pub Mod Len Res).Status =
          XSECURE_RSA_EXPONENT_INVALID_PARAM ↔
        (Hash = none ∨ P = none ∨ Q = none ∨ Dp = none ∨ Dq = none ∨ Qinv = none ∨
          Res = none))) ∧
    ((Hash = none ∨ Exp = none ∨ Mod = none ∨ Res = none) ↔
      XSecure_RsaExp eng SoftReset Hash Exp Mod P Q Pub Tot Len Res =
        ⟨XSECURE_RSA_EXPONENT_INVALID_PARAM, Res, SoftReset, []⟩) ∧
    ((∀ h e m res, (eng.RSA_ExpQ h e m P Q Pub Tot Len res).1 ≠
        XSECURE_RSA_EXPONENT_INVALID_PARAM) →
      ((XSecure_RsaExp eng SoftReset Hash Exp Mod P Q Pub Tot Len Res).Status =
          XSECURE_RSA_EXPONENT_INVALID_PARAM ↔
        (Hash = none ∨ Exp = none ∨ Mod = none ∨ Res = none))) := by
  refine ⟨⟨XSecure_RsaExpCRT_null eng SoftReset Hash P Q Dp Dq Qinv Pub Mod Len Res, ?_⟩, ?_,
    ⟨XSecure_RsaExp_null eng SoftReset Hash Exp Mod P Q Pub Tot Len Res, ?_⟩, ?_⟩
  · intro h
    by_contra hn
    simp only [not_or, ← ne_eq] at hn
    obtain ⟨h1, h2, h3, h4, h5, h6, h7⟩ := hn
    obtain ⟨hash, rfl⟩ := Option.ne_none_iff_exists'.mp h1
    obtain ⟨p, rfl⟩ := Option.ne_none_iff_exists'.mp h2
    obtain ⟨q, rfl⟩ := Option.ne_none_iff_exists'.mp h3
    obtain ⟨dp, rfl⟩ := Option.ne_none_iff_exists'.mp h4
    obtain ⟨dq, rfl⟩ := Option.ne_none_iff_exists'.mp h5
    obtain ⟨qinv, rfl⟩ := Option.ne_none_iff_exists'.mp h6
    obtain ⟨res, rfl⟩ := Option.ne_none_iff_exists'.mp h7
    rw [XSecure_RsaExpCRT_nonnull] at h
    have := congrArg ExpResult.Trace h
    simp at this
  · intro heng
    constructor
    · intro h
      by_contra hn
      simp only [not_or, ← ne_eq] at hn
      obtain ⟨h1, h2, h3, h4, h5, h6, h7⟩ := hn
      obtain ⟨hash, rfl⟩ := Option.ne_none_iff_exists'.mp h1
      obtain ⟨p, rfl⟩ := Option.ne_none_iff_exists'.mp h2
      obtain ⟨q, rfl⟩ := Option.ne_none_iff_exists'.mp h3
      obtain ⟨dp, rfl⟩ := Option.ne_none_iff_exists'.mp h4
      obtain ⟨dq, rfl⟩ := Option.ne_none_iff_exists'.mp h5
      obtain ⟨qinv, rfl⟩ := Option.ne_none_iff_exists'.mp h6
      obtain ⟨res, rfl⟩ := Option.ne_none_iff_exists'.mp h7
      rw [XSecure_RsaExpCRT_nonnull] at h
      exact heng _ _ _ _ _ _ _ h
    · intro h
      rw [XSecure_RsaExpCRT_null eng SoftReset Hash P Q Dp Dq Qinv Pub Mod Len Res h]
  · intro h
    by_contra hn
    simp only [not_or, ← ne_eq] at hn
    obtain ⟨h1, h2, h3, h4⟩ := hn
    obtain ⟨hash, rfl⟩ := Option.ne_none_iff_exists'.mp h1
    obtain ⟨exp, rfl⟩ := Option.ne_none_iff_exists'.mp h2
    obtain ⟨mod, rfl⟩ := Option.ne_none_iff_exists'.mp h3
    obtain ⟨res, rfl⟩ := Option.ne_none_iff_exists'.mp h4
    rw [XSecure_RsaExp_nonnull] at h
    have := congrArg ExpResult.Trace h
    simp at this
  · intro heng
    constructor
    · intro h
      by_contra hn
      simp only [not_or, ← ne_eq] at hn
      obtain ⟨h1, h2, h3, h4⟩ := hn
      obtain ⟨hash, rfl⟩ := Option.ne_none_iff_exists'.mp h1
      obtain ⟨exp, rfl⟩ := Option.ne_none_iff_exists'.mp h2
      obtain ⟨mod, rfl⟩ := Option.ne_none_iff_exists'.mp h3
      obtain ⟨res, rfl⟩ := Option.ne_none_iff_exists'.mp h4
      rw [XSecure_RsaExp_nonnull] at h
      exact heng _ _ _ _ h
    · intro h
      rw [XSecure_RsaExp_null eng SoftReset Hash Exp Mod P Q Pub Tot Len Res h]

/-- Witness of C16: under `failingEngine`, which reports `XST_FAILURE`, the status of
`XSecure_RsaExpCRT` with a `NULL` result pointer is the invalid-parameter status, and that
status is returned exactly for a `NULL` mandatory pointer. -/
theorem C16_missing_operand_rejection_witness :
    (XSecure_RsaExpCRT failingEngine 1 (some [1]) (some [1]) (some [1]) (some [1]) (some [1])
        (some [1]) none none 3072 none).Status = XSECURE_RSA_EXPONENT_INVALID_PARAM ↔
      ((some [1] : Option (List Nat)) = none ∨ (some [1] : Option (List Nat)) = none ∨
        (some [1] : Option (List Nat)) = none ∨ (some [1] : Option (List Nat)) = none ∨
        (some [1] : Option (List Nat)) = none ∨ (some [1] : Option (List Nat)) = none ∨
        (none : Option (List Nat)) = none) :=
  (C16_missing_operand_rejection failingEngine 1 (some [1]) (some [1]) (some [1]) (some [1])
    (some [1]) (some [1]) none none none none none 3072).2.1
    (fun _ _ _ _ _ _ _ => by simp [failingEngine])

/-! ## Null arguments and unresolved selector -/

/-- C17. `XSecure_RsaOaepEncrypt` returns `XSECURE_RSA_OAEP_INVALID_PARAM` when its key
instance or its `OaepParam` is `NULL`, and `XSecure_RsaOaepDecrypt` returns it when its
private key or its `OaepParam` is `NULL`; in both cases the trace is empty (neither the
codec nor an exponentiation is invoked, the soft-reset register is not written) and caller
memory is unchanged. -/
theorem C17_null_arguments (env : Env) (eng : RsaEngine) (mem : Mem) (SoftReset : Nat)
    (InstancePtr : Option XSecure_Rsa) (PrivKey : Option XSecure_RsaKey)
    (OaepParam : Option XSecure_RsaOaepParam) :
    (InstancePtr = none ∨ OaepParam = none →
      XSecure_RsaOaepEncrypt env mem InstancePtr OaepParam =
        some ⟨XSECURE_RSA_OAEP_INVALID_PARAM, OaepParam, mem, []⟩) ∧
    (PrivKey = none ∨ OaepParam = none →
      XSecure_RsaOaepDecrypt env eng mem SoftReset PrivKey OaepParam =
        some ⟨XSECURE_RSA_OAEP_INVALID_PARAM, OaepParam, mem, SoftReset, []⟩) := by
  constructor
  · intro h
    cases InstancePtr <;> cases OaepParam <;> simp [XSecure_RsaOaepEncrypt] at h ⊢
  · intro h
    cases PrivKey <;> cases OaepParam <;> simp [XSecure_RsaOaepDecrypt] at h ⊢

/-- Witness of C17: a `NULL` key with the parameter block `exampleParam`. -/
theorem C17_null_arguments_witness :
    XSecure_RsaOaepEncrypt (exampleEnv 48) exampleMem none (some exampleParam) =
        some ⟨XSECURE_RSA_OAEP_INVALID_PARAM, some exampleParam, exampleMem, []⟩ ∧
      XSecure_RsaOaepDecrypt (exampleEnv 48) exampleEngine exampleMem 1 none
          (some exampleParam) =
        some ⟨XSECURE_RSA_OAEP_INVALID_PARAM, some exampleParam, exampleMem, 1, []⟩ :=
  ⟨(C17_null_arguments (exampleEnv 48) exampleEngine exampleMem 1 none none
      (some exampleParam)).1 (Or.inl rfl),
    (C17_null_arguments (exampleEnv 48) exampleEngine exampleMem 1 none none
      (some exampleParam)).2 (Or.inl rfl)⟩

/-- C18. `XSecure_RsaOaepDecode` returns `XSECURE_RSA_OAEP_INVALID_PARAM` whenever the hash
selector does not resolve to a hash descriptor, for every content and every length of the
padded block (also for the empty array: no byte of the block is read), with memory and
parameter block unchanged and an empty trace. -/
theorem C18_decode_unresolved_selector (env : Env) (mem : Mem) (P : XSecure_RsaOaepParam)
    (Input : List Nat) (h : env.XSecure_GetHashInstance P.ShaType = none) :
    XSecure_RsaOaepDecode env mem P Input =
      some ⟨XSECURE_RSA_OAEP_INVALID_PARAM, P, mem, []⟩ := by
  unfold XSecure_RsaOaepDecode
  simp only [h]

/-- Witness of C18: selector 7 does not resolve under `exampleEnv 48`; the block is empty. -/
theorem C18_decode_unresolved_selector_witness :
    XSecure_RsaOaepDecode (exampleEnv 48) exampleMem { exampleParam with ShaType := 7 } [] =
      some ⟨XSECURE_RSA_OAEP_INVALID_PARAM, { exampleParam with ShaType := 7 }, exampleMem,
        []⟩ :=
  C18_decode_unresolved_selector (exampleEnv 48) exampleMem { exampleParam with ShaType := 7 }
    [] rfl

/-! ## The byte reversal of `XSecure_RsaOaepDecrypt` -/

theorem bufGet_eq_getElem? (b : List Nat) (i : Nat) : bufGet b i = b[i]? := by
  simp [bufGet]

theorem Swap_invariant (l : List Nat) (hl : l.length = 384) :
    ∀ (r i : Nat) (cur : List Nat), i + r = 192 → cur.length = 384 →
      (∀ j, j < 384 → cur[j]? = if j < i ∨ 384 - i ≤ j then l[383 - j]? else l[j]?) →
      XSecure_RsaOaepDecrypt_Swap cur r i = some l.reverse := by
  intro r
  induction r with
  | zero =>
    intro i cur hi hc hinv
    simp only [XSecure_RsaOaepDecrypt_Swap]
    congr 1
    apply List.ext_getElem?
    intro j
    by_cases hj : j < 384
    · rw [hinv j hj, if_pos (by omega), List.getElem?_reverse (by omega), hl]
    · rw [List.getElem?_eq_none (by omega), List.getElem?_eq_none (by simp; omega)]
  | succ r ih =>
    intro i cur hi hc hinv
    have hm : sub32 (sub32 XSECURE_RSA_KEY_GEN_SIZE_IN_BYTES i) 1 = 383 - i := by
      simp only [XSECURE_RSA_KEY_GEN_SIZE_IN_BYTES]
      rw [sub32_of_le 384 i (by omega) (by omega), sub32_of_le _ 1 (by omega) (by omega)]
      omega
    have hli : i < l.length := by omega
    have hlm : 383 - i < l.length := by omega
    have g1 : bufGet cur i = some l[i] := by
      rw [bufGet_eq_getElem?, hinv i (by omega), if_neg (by omega),
        List.getElem?_eq_getElem hli]
    have g2 : bufGet cur (383 - i) = some l[383 - i] := by
      rw [bufGet_eq_getElem?, hinv (383 - i) (by omega), if_neg (by omega),
        List.getElem?_eq_getElem hlm]
    have s1 : bufSet cur i l[383 - i] = some (cur.set i l[383 - i]) := by
      simp [bufSet, hc]; omega
    have s2 : bufSet (cur.set i l[383 - i]) (383 - i) l[i] =
        some ((cur.set i l[383 - i]).set (383 - i) l[i]) := by
      simp [bufSet, hc]; omega
    have ha : add32 i 1 = i + 1 := add32_of_lt _ _ (by omega)
    simp only [XSecure_RsaOaepDecrypt_Swap, hm, g1, g2, s1, s2, ha]
    apply ih (i + 1) _ (by omega) (by simp [hc])
    intro j hj
    rw [List.getElem?_set, List.getElem?_set]
    simp only [List.length_set, hc]
    by_cases h1 : 383 - i = j
    · rw [if_pos h1, if_pos (by omega), if_pos (by omega), ← h1,
        List.getElem?_eq_getElem (by omega)]
      congr 1
      congr 1
      omega
    · rw [if_neg h1]
      by_cases h2 : i = j
      · rw [if_pos h2, if_pos (by omega), if_pos (by omega), ← h2,
          List.getElem?_eq_getElem hlm]
      · rw [if_neg h2, hinv j hj]
        by_cases h3 : j < i ∨ 384 - i ≤ j
        · rw [if_pos h3, if_pos (by omega)]
        · rw [if_neg h3, if_neg (by omega)]

theorem Swap_reverse (l : List Nat) (hl : l.length = XSECURE_RSA_KEY_GEN_SIZE_IN_BYTES) :
    XSecure_RsaOaepDecrypt_Swap l (XSECURE_RSA_KEY_GEN_SIZE_IN_BYTES / 2) 0 =
      some l.reverse := by
  have h : XSECURE_RSA_KEY_GEN_SIZE_IN_BYTES / 2 = 192 := by decide
  rw [h]
  exact Swap_invariant l hl 192 0 l (by omega) hl (fun j hj => by rw [if_neg (by omega)])

/-! ## Failure leaves memory and parameter block untouched -/

theorem validate_frame (mem : Mem) (P : XSecure_RsaOaepParam) (H DBLen : Nat)
    (DB Hash : List Nat) (T : List Event) (r : DecodeResult)
    (h : XSecure_RsaOaepDecode_Validate mem P H DBLen DB Hash T = some r)
    (hs : r.Status ≠ XST_SUCCESS) : r.Mem = mem ∧ r.OaepParam = P := by
  unfold XSecure_RsaOaepDecode_Validate at h
  simp only [] at h
  repeat' (first | split_ifs at h | split at h)
  all_goals first
    | (cases h; exact ⟨rfl, rfl⟩)
    | (cases h; exact absurd rfl hs)
    | cases h

theorem decode_frame (env : Env) (mem : Mem) (P : XSecure_RsaOaepParam) (Input : List Nat)
    (r : DecodeResult) (h : XSecure_RsaOaepDecode env mem P Input = some r)
    (hs : r.Status ≠ XST_SUCCESS) : r.Mem = mem ∧ r.OaepParam = P := by
  unfold XSecure_RsaOaepDecode at h
  simp only [] at h
  repeat' (first | split_ifs at h | split at h)
  all_goals first
    | exact validate_frame _ _ _ _ _ _ _ r h hs
    | (cases h; exact ⟨rfl, rfl⟩)
    | cases h

theorem decrypt_frame (env : Env) (eng : RsaEngine) (mem : Mem) (SoftReset : Nat)
    (PrivKey : Option XSecure_RsaKey) (OaepParam : Option XSecure_RsaOaepParam)
    (r : DecryptResult)
    (h : XSecure_RsaOaepDecrypt env eng mem SoftReset PrivKey OaepParam = some r)
    (hs : r.Status ≠ XST_SUCCESS) : r.Mem = mem ∧ r.OaepParam = OaepParam := by
  unfold XSecure_RsaOaepDecrypt at h
  simp only [] at h
  repeat' (first | split_ifs at h | split at h)
  all_goals first
    | (cases h; exact ⟨rfl, rfl⟩)
    | (rename_i Dec hdec
       cases h
       obtain ⟨h1, h2⟩ := decode_frame env mem _ _ Dec hdec hs
       exact ⟨h1, congrArg some h2⟩)
    | cases h

theorem decode_byte_mismatch_example :
    XSecure_RsaOaepDecode (exampleEnv 48) exampleMem exampleParam (2 :: zeros 383) =
      some ⟨XSECURE_RSA_OAEP_BYTE_MISMATCH_ERROR, exampleParam, exampleMem, []⟩ := rfl

/-- C11. No partial results on failure: whenever `XSecure_RsaOaepDecode` or
`XSecure_RsaOaepDecrypt` returns a status other than `XST_SUCCESS` (invalid parameter,
exponentiation failure, leading byte, label hash, padding structure, length, or a failure
of a collaborator), the whole parameter block, in particular `OutputDataSize`, and the
whole caller memory, in particular the output region, are as they were before the call. -/
theorem C11_no_partial_results (env : Env) (eng : RsaEngine) (mem : Mem) (SoftReset : Nat)
    (P : XSecure_RsaOaepParam) (Input : List Nat) (PrivKey : Option XSecure_RsaKey)
    (OaepParam : Option XSecure_RsaOaepParam) :
    (∀ r, XSecure_RsaOaepDecode env mem P Input = some r → r.Status ≠ XST_SUCCESS →
      r.Mem = mem ∧ r.OaepParam = P) ∧
    (∀ r, XSecure_RsaOaepDecrypt env eng mem SoftReset PrivKey OaepParam = some r →
      r.Status ≠ XST_SUCCESS → r.Mem = mem ∧ r.OaepParam = OaepParam) :=
  ⟨fun r h hs => decode_frame env mem P Input r h hs,
    fun r h hs => decrypt_frame env eng mem SoftReset PrivKey OaepParam r h hs⟩

/-- Witness of C11: the block `0x02 ‖ 0x00 … 0x00` is rejected under `exampleEnv 48` and
memory and parameter block are those of the call. -/
theorem C11_no_partial_results_witness :
    (⟨XSECURE_RSA_OAEP_BYTE_MISMATCH_ERROR, exampleParam, exampleMem, []⟩ : DecodeResult).Mem
        = exampleMem ∧
      (⟨XSECURE_RSA_OAEP_BYTE_MISMATCH_ERROR, exampleParam, exampleMem, []⟩ :
        DecodeResult).OaepParam = exampleParam :=
  (C11_no_partial_results (exampleEnv 48) exampleEngine exampleMem 1 exampleParam
    (2 :: zeros 383) none none).1 _ decode_byte_mismatch_example (by decide)

/-! ## The byte-order contract of `XSecure_RsaOaepDecrypt` -/

/-- C13. Byte-order contract: in `XSecure_RsaOaepDecrypt`, with key operands present and an
input pointer `(u8*)(UINTPTR)InputDataAddr` that is not `NULL`, for every result `R` of 384
bytes that the CRT exponentiation leaves with status `XST_SUCCESS`, the swap loop of
`ModulusLen / 2` iterations yields the full-length reversal of `R`
(`B[i] = R[ModulusLen - 1 - i]` for every `i < ModulusLen`), and the status, parameter block
and caller memory of Decrypt are those of `XSecure_RsaOaepDecode` on that block `B`, its
trace being the reset bracket followed by the trace of Decode. -/
theorem C13_byte_order_contract (env : Env) (eng : RsaEngine) (mem : Mem) (SoftReset : Nat)
    (Mod : Option (List Nat)) (p q dp dq qinv : List Nat) (Param : XSecure_RsaOaepParam)
    (R : List Nat) (hin : UINTPTR Param.InputDataAddr ≠ 0)
    (hR : eng.RSA_ExpCrtQ
      (memRead mem (UINTPTR Param.InputDataAddr) XSECURE_RSA_KEY_GEN_SIZE_IN_BYTES)
      p q dp dq qinv none Mod (mul32 XSECURE_RSA_KEY_GEN_SIZE_IN_BYTES 8)
      (zeros XSECURE_RSA_KEY_GEN_SIZE_IN_BYTES) = (XST_SUCCESS, R))
    (hlen : R.length = XSECURE_RSA_KEY_GEN_SIZE_IN_BYTES) :
    XSecure_RsaOaepDecrypt_Swap R (XSECURE_RSA_KEY_GEN_SIZE_IN_BYTES / 2) 0 = some R.reverse ∧
    (∀ i, i < XSECURE_RSA_KEY_GEN_SIZE_IN_BYTES →
      R.reverse[i]? = R[XSECURE_RSA_KEY_GEN_SIZE_IN_BYTES - 1 - i]?) ∧
    XSecure_RsaOaepDecrypt env eng mem SoftReset
        (some ⟨Mod, some p, some q, some dp, some dq, some qinv⟩) (some Param) =
      (XSecure_RsaOaepDecode env mem Param R.reverse).map fun Dec =>
        ⟨Dec.Status, some Dec.OaepParam, Dec.Mem, 1,
          [Event.SoftReset 0,
            Event.RSA_ExpCrtQ
              (memRead mem (UINTPTR Param.InputDataAddr) XSECURE_RSA_KEY_GEN_SIZE_IN_BYTES)
              (mul32 XSECURE_RSA_KEY_GEN_SIZE_IN_BYTES 8),
            Event.SoftReset 1] ++ Dec.Trace⟩ := by
  refine ⟨Swap_reverse R hlen, ?_, ?_⟩
  · intro i hi
    rw [List.getElem?_reverse (by omega), hlen]
  · unfold XSecure_RsaOaepDecrypt
    simp only [if_neg hin, XSecure_RsaExpCRT_nonnull, hR, ne_eq, not_true_eq_false,
      if_false, Option.getD_some, Swap_reverse R hlen]
    cases XSecure_RsaOaepDecode env mem Param R.reverse <;> rfl

/-- Witness of C13: `exampleEngine` leaves the reversed input, so Decode receives the bytes
of the input in their original order. -/
theorem C13_byte_order_contract_witness :
    XSecure_RsaOaepDecrypt_Swap (memRead exampleMem 4096 384).reverse
        (XSECURE_RSA_KEY_GEN_SIZE_IN_BYTES / 2) 0 =
      some (memRead exampleMem 4096 384).reverse.reverse ∧
    (∀ i, i < XSECURE_RSA_KEY_GEN_SIZE_IN_BYTES →
      (memRead exampleMem 4096 384).reverse.reverse[i]? =
        (memRead exampleMem 4096 384).reverse[XSECURE_RSA_KEY_GEN_SIZE_IN_BYTES - 1 - i]?) ∧
    XSecure_RsaOaepDecrypt (exampleEnv 48) exampleEngine exampleMem 0
        (some ⟨none, some [], some [], some [], some [], some []⟩) (some exampleParam) =
      (XSecure_RsaOaepDecode (exampleEnv 48) exampleMem exampleParam
        (memRead exampleMem 4096 384).reverse.reverse).map fun Dec =>
        ⟨Dec.Status, some Dec.OaepParam, Dec.Mem, 1,
          [Event.SoftReset 0,
            Event.RSA_ExpCrtQ
              (memRead exampleMem (UINTPTR exampleParam.InputDataAddr)
                XSECURE_RSA_KEY_GEN_SIZE_IN_BYTES)
              (mul32 XSECURE_RSA_KEY_GEN_SIZE_IN_BYTES 8),
            Event.SoftReset 1] ++ Dec.Trace⟩ :=
  C13_byte_order_contract (exampleEnv 48) exampleEngine exampleMem 0 none [] [] [] [] []
    exampleParam (memRead exampleMem 4096 384).reverse (by decide) rfl
    (by rw [List.length_reverse, memRead_length]; rfl)

/-! ## Seed sensitivity of `XSecure_RsaOaepEncode` -/

theorem OaepReferenceBlock_seed_inj (Mgf : List Nat → Nat → List Nat) (H : Nat)
    (DB S1 S2 : List Nat) (h1 : S1.length = H) (h2 : S2.length = H)
    (hMgf : ∀ seed n, (Mgf seed n).length = n)
    (h : OaepReferenceBlock Mgf H DB S1 = OaepReferenceBlock Mgf H DB S2) : S1 = S2 := by
  simp only [OaepReferenceBlock, List.append_assoc] at h
  have h' := List.append_cancel_left h
  have hl : (xorBytes S1 (Mgf (xorBytes DB (Mgf S1 DB.length)) H)).length =
      (xorBytes S2 (Mgf (xorBytes DB (Mgf S2 DB.length)) H)).length := by
    simp [xorBytes, hMgf, h1, h2]
  obtain ⟨hs, hd⟩ := List.append_inj h' hl
  have c1 := xorBytes_cancel S1 (Mgf (xorBytes DB (Mgf S1 DB.length)) H)
    (by rw [hMgf, h1])
  have c2 := xorBytes_cancel S2 (Mgf (xorBytes DB (Mgf S2 DB.length)) H)
    (by rw [hMgf, h2])
  rw [← c1, ← c2, hs, hd]

/-- Seed sensitivity: for every environment (hash and mask generator arbitrary
functions that succeed, hash length at most 48), every label and every accepted message, two
runs of `XSecure_RsaOaepEncode` that differ only in the random number source, the two
sources delivering different seeds, both succeed and leave different blocks in the output
array. -/
theorem seed_sensitivity (env : Env) (rnd2 : Nat → Status × (Nat → Nat)) (mem : Mem)
    (P : XSecure_RsaOaepParam) (Output : List Nat) (hp : XSecure_HashAlgInfo)
    (hres : env.XSecure_GetHashInstance P.ShaType = some hp)
    (hH : hp.HashLen ≤ XSECURE_SHA3_HASH_LENGTH_IN_BYTES)
    (hin : P.InputDataAddr ≠ 0) (hout : P.OutputDataAddr ≠ 0)
    (hn : P.InputDataSize ≤ XSecure_RsaOaepEncode_ActualMsgLen hp.HashLen)
    (hdig : (hp.ShaDigest (labelOf mem P)).1 = XST_SUCCESS)
    (hrnd1 : (env.XSecure_GetRandomNum hp.HashLen).1 = XST_SUCCESS)
    (hrnd2 : (rnd2 hp.HashLen).1 = XST_SUCCESS)
    (hmgf : ∀ seed n, (env.XSecure_MaskGenFunc P.ShaType seed n).1 = XST_SUCCESS)
    (hO : Output.length = XSECURE_RSA_KEY_GEN_SIZE_IN_BYTES)
    (hne : bytesOf (env.XSecure_GetRandomNum hp.HashLen).2 hp.HashLen ≠
      bytesOf (rnd2 hp.HashLen).2 hp.HashLen) :
    ∃ r1 r2, XSecure_RsaOaepEncode env mem P Output = some r1 ∧
      XSecure_RsaOaepEncode
        ⟨env.XSecure_GetHashInstance, rnd2, env.XSecure_MaskGenFunc,
          env.XSecure_RsaPublicEncrypt_64Bit⟩ mem P Output = some r2 ∧
      r1.Status = XST_SUCCESS ∧ r2.Status = XST_SUCCESS ∧ r1.Output ≠ r2.Output := by
  have e1 := encode_eq env mem P Output hp hres hH hin hout hn hdig hrnd1 hmgf hO
  have e2 := encode_eq ⟨env.XSecure_GetHashInstance, rnd2, env.XSecure_MaskGenFunc,
    env.XSecure_RsaPublicEncrypt_64Bit⟩ mem P Output hp hres hH hin hout hn hdig hrnd2 hmgf hO
  refine ⟨_, _, e1, e2, rfl, rfl, ?_⟩
  intro heq
  have hb := List.append_cancel_right heq
  exact hne (OaepReferenceBlock_seed_inj _ _ _ _ _ (by simp [bytesOf]) (by simp [bytesOf])
    (fun seed n => Env.Mgf_length env P.ShaType seed n) hb)

/-- Example: under `exampleEnv 48` the seed `3, 10, 17, …` and the all-zero seed give
different blocks for the message of `exampleParam`. -/
theorem seed_sensitivity_example :
    ∃ r1 r2, XSecure_RsaOaepEncode (exampleEnv 48) exampleMem exampleParam (zeros 384)
        = some r1 ∧
      XSecure_RsaOaepEncode
        ⟨(exampleEnv 48).XSecure_GetHashInstance, fun _ => (XST_SUCCESS, fun _ => 0),
          (exampleEnv 48).XSecure_MaskGenFunc,
          (exampleEnv 48).XSecure_RsaPublicEncrypt_64Bit⟩ exampleMem exampleParam (zeros 384)
        = some r2 ∧
      r1.Status = XST_SUCCESS ∧ r2.Status = XST_SUCCESS ∧ r1.Output ≠ r2.Output :=
  seed_sensitivity (exampleEnv 48) (fun _ => (XST_SUCCESS, fun _ => 0)) exampleMem
    exampleParam (zeros 384) (exampleHash 48) rfl (by decide) (by decide) (by decide)
    (by decide) rfl rfl rfl (fun _ _ => rfl) (zeros_length 384) (by decide)

/-! ## Frame of `XSecure_RsaOaepEncode` and `XSecure_RsaOaepEncrypt` -/

theorem XSecure_GetRsaPrivateKey_eq (s : Statics) :
    XSecure_GetRsaPrivateKey s =
      ({ s with RsaPrivKey := ⟨some s.Modulus, some s.P, some s.Q, some s.DP, some s.DQ,
          some s.QInv⟩ },
        ⟨some s.Modulus, some s.P, some s.Q, some s.DP, some s.DQ, some s.QInv⟩) := by
  unfold XSecure_GetRsaPrivateKey
  rw [if_pos (by decide)]

theorem XSecure_GetRsaPublicKey_eq (s : Statics) :
    XSecure_GetRsaPublicKey s =
      ({ s with RsaPubKey := ⟨some s.Modulus, some (u32Bytes s.PublicExp)⟩ },
        ⟨some s.Modulus, some (u32Bytes s.PublicExp)⟩) := by
  unfold XSecure_GetRsaPublicKey
  rw [if_pos (by decide)]

set_option maxRecDepth 100000 in
theorem key_lengths :
    Modulus.length = XSECURE_RSA_KEY_GEN_SIZE_IN_BYTES ∧
      XSecure_GetRsaPrivateKey_P.length = XSECURE_RSA_KEY_GEN_SIZE_IN_BYTES / 2 ∧
      XSecure_GetRsaPrivateKey_Q.length = XSECURE_RSA_KEY_GEN_SIZE_IN_BYTES / 2 ∧
      XSecure_GetRsaPrivateKey_DP.length = XSECURE_RSA_KEY_GEN_SIZE_IN_BYTES / 2 ∧
      XSecure_GetRsaPrivateKey_DQ.length = XSECURE_RSA_KEY_GEN_SIZE_IN_BYTES / 2 ∧
      XSecure_GetRsaPrivateKey_QInv.length = XSECURE_RSA_KEY_GEN_SIZE_IN_BYTES / 2 := by
  decide

theorem keyMaterial_fields (s t : Statics) (h : s.keyMaterial = t.keyMaterial) :
    s.Modulus = t.Modulus ∧ s.P = t.P ∧ s.Q = t.Q ∧ s.DP = t.DP ∧ s.DQ = t.DQ ∧
      s.QInv = t.QInv ∧ s.PublicExp = t.PublicExp := by
  simp only [Statics.keyMaterial, Prod.mk.injEq, List.cons.injEq, and_true] at h
  obtain ⟨⟨h1, h2, h3, h4, h5, h6⟩, h7⟩ := h
  exact ⟨h1, h2, h3, h4, h5, h6, h7⟩

/-- C21. Key shape: in every state of the static objects whose key arrays hold the
compiled-in values, at the 3072-bit deployment size the key returned by
`XSecure_GetRsaPrivateKey` has non-null fields, a `Modulus` of exactly `ModulusLen = 384`
bytes and `P`, `Q`, `DP`, `DQ`, `QInv` of exactly `ModulusLen / 2 = 192` bytes each, and its
`Modulus` is the `Modulus` of the key returned by `XSecure_GetRsaPublicKey`, whose exponent
pointer is non-null as well. -/
theorem C21_key_shape (s : Statics) (h : s.keyMaterial = initialStatics.keyMaterial) :
    ∃ m p q dp dq qinv e,
      (XSecure_GetRsaPrivateKey s).2 = ⟨some m, some p, some q, some dp, some dq, some qinv⟩ ∧
      (XSecure_GetRsaPublicKey s).2 = ⟨some m, some e⟩ ∧
      m.length = XSECURE_RSA_KEY_GEN_SIZE_IN_BYTES ∧ m.length = 384 ∧
      p.length = XSECURE_RSA_KEY_GEN_SIZE_IN_BYTES / 2 ∧ p.length = 192 ∧
      q.length = 192 ∧ dp.length = 192 ∧ dq.length = 192 ∧ qinv.length = 192 := by
  obtain ⟨h1, h2, h3, h4, h5, h6, -⟩ := keyMaterial_fields s initialStatics h
  obtain ⟨l1, l2, l3, l4, l5, l6⟩ := key_lengths
  refine ⟨s.Modulus, s.P, s.Q, s.DP, s.DQ, s.QInv, u32Bytes s.PublicExp, ?_, ?_, ?_⟩
  · rw [XSecure_GetRsaPrivateKey_eq]
  · rw [XSecure_GetRsaPublicKey_eq]
  · rw [h1, h2, h3, h4, h5, h6]
    exact ⟨l1, l1, l2, l2, l3, l4, l5, l6⟩

/-- Witness of C21: the static objects after both accessors have been called. -/
theorem C21_key_shape_witness :
    ∃ m p q dp dq qinv e,
      (XSecure_GetRsaPrivateKey exampleWorldAfter.Statics).2 =
        ⟨some m, some p, some q, some dp, some dq, some qinv⟩ ∧
      (XSecure_GetRsaPublicKey exampleWorldAfter.Statics).2 = ⟨some m, some e⟩ ∧
      m.length = XSECURE_RSA_KEY_GEN_SIZE_IN_BYTES ∧ m.length = 384 ∧
      p.length = XSECURE_RSA_KEY_GEN_SIZE_IN_BYTES / 2 ∧ p.length = 192 ∧
      q.length = 192 ∧ dp.length = 192 ∧ dq.length = 192 ∧ qinv.length = 192 :=
  C21_key_shape exampleWorldAfter.Statics rfl
set_option maxRecDepth 1000000 in
theorem Modulus_eq_P_mul_Q :
    littleEndianValue Modulus =
      littleEndianValue XSecure_GetRsaPrivateKey_P *
        littleEndianValue XSecure_GetRsaPrivateKey_Q := by
  decide

/-- C27. The compiled-in key material is consistent: the key returned by
`XSecure_GetRsaPrivateKey` from the declared static objects points to the compiled-in arrays
`Modulus`, `P` and `Q`, and the 384-byte `Modulus` read as a little-endian unsigned integer
(byte 0 least significant) is the product of the 192-byte `P` and `Q` read the same way. -/
theorem C27_modulus_is_product :
    (XSecure_GetRsaPrivateKey initialStatics).2.Modulus = some Modulus ∧
      (XSecure_GetRsaPrivateKey initialStatics).2.P = some XSecure_GetRsaPrivateKey_P ∧
      (XSecure_GetRsaPrivateKey initialStatics).2.Q = some XSecure_GetRsaPrivateKey_Q ∧
      littleEndianValue Modulus =
        littleEndianValue XSecure_GetRsaPrivateKey_P *
          littleEndianValue XSecure_GetRsaPrivateKey_Q := by
  rw [XSecure_GetRsaPrivateKey_eq]
  exact ⟨rfl, rfl, rfl, Modulus_eq_P_mul_Q⟩

/-! ## The public exponent -/

theorem littleEndianValue_u32Bytes (x : Nat) :
    littleEndianValue (u32Bytes x) = x % 4294967296 := by
  simp only [u32Bytes, littleEndianValue]
  omega

/-- C29. The exponent exposed by `XSecure_GetRsaPublicKey` is the byte view of the 32-bit
word `PublicExp`, declared as `0x1000100`: four bytes that in little-endian memory order are
`00 01 00 01` (read back little-endian they give the word again).  Read as a big-endian
integer these bytes are 65537 (`0x00010001`), while the word itself is not 65537. -/
theorem C29_public_exponent_bytes :
    (∀ s : Statics, (XSecure_GetRsaPublicKey s).2.Exponent = some (u32Bytes s.PublicExp)) ∧
      initialStatics.PublicExp = 0x1000100 ∧
      (XSecure_GetRsaPublicKey initialStatics).2.Exponent = some [0x00, 0x01, 0x00, 0x01] ∧
      (∀ x, littleEndianValue (u32Bytes x) = x % 4294967296) ∧
      littleEndianValue [0x00, 0x01, 0x00, 0x01] = 0x1000100 ∧
      bigEndianValue [0x00, 0x01, 0x00, 0x01] = 65537 ∧
      initialStatics.PublicExp ≠ 65537 := by
  refine ⟨fun s => ?_, rfl, ?_, littleEndianValue_u32Bytes, by decide, by decide, by decide⟩
  · rw [XSecure_GetRsaPublicKey_eq]
  · rw [XSecure_GetRsaPublicKey_eq]
    rfl

/-! ## The engine is held in reset between exponentiations -/

theorem XSecure_RsaExpCRT_reset (eng : RsaEngine)
    (Hash P Q Dp Dq Qinv Pub Mod : Option (List Nat)) (Len : Int) (Res : Option (List Nat)) :
    (XSecure_RsaExpCRT eng 1 Hash P Q Dp Dq Qinv Pub Mod Len Res).SoftReset = 1 := by
  cases Hash <;> cases P <;> cases Q <;> cases Dp <;> cases Dq <;> cases Qinv <;>
    cases Res <;> rfl

theorem XSecure_RsaExp_reset (eng : RsaEngine)
    (Hash Exp Mod P Q Pub Tot : Option (List Nat)) (Len : Int) (Res : Option (List Nat)) :
    (XSecure_RsaExp eng 1 Hash Exp Mod P Q Pub Tot Len Res).SoftReset = 1 := by
  cases Hash <;> cases Exp <;> cases Mod <;> cases Res <;> rfl

theorem runOps_exponentiations (env : Env) (eng : RsaEngine) (ops : List CoreOp) (w : World)
    (hw : w.SoftReset = 1) (hops : ∀ op ∈ ops, op.isExponentiation = true) :
    ∃ w1, runOps env eng w ops = some w1 ∧ w1.SoftReset = 1 := by
  induction ops generalizing w with
  | nil => exact ⟨w, rfl, hw⟩
  | cons op ops ih =>
    have hop := hops op (List.mem_cons_self op ops)
    have hrest : ∀ o ∈ ops, o.isExponentiation = true :=
      fun o ho => hops o (List.mem_cons_of_mem op ho)
    cases op with
    | RsaExpCRT Hash P Q Dp Dq Qinv Pub Mod Len Res =>
      unfold runOps
      simp only [CoreOp.run]
      exact ih _ (by rw [hw]; exact XSecure_RsaExpCRT_reset eng _ _ _ _ _ _ _ _ _ _) hrest
    | RsaExp Hash Exp Mod P Q Pub Tot Len Res =>
      unfold runOps
      simp only [CoreOp.run]
      exact ih _ (by rw [hw]; exact XSecure_RsaExp_reset eng _ _ _ _ _ _ _ _ _) hrest
    | GetRsaPrivateKey => simp [CoreOp.isExponentiation] at hop
    | GetRsaPublicKey => simp [CoreOp.isExponentiation] at hop
    | RsaOaepEncode _ _ => simp [CoreOp.isExponentiation] at hop
    | RsaOaepDecode _ _ => simp [CoreOp.isExponentiation] at hop
    | RsaOaepEncrypt _ _ => simp [CoreOp.isExponentiation] at hop
    | RsaOaepDecrypt _ _ => simp [CoreOp.isExponentiation] at hop

/-- C26. Engine reset invariant: if the soft-reset register holds 1 before a call of
`XSecure_RsaExpCRT` or `XSecure_RsaExp`, it holds 1 when the call returns, for every
combination of arguments (null pointers included) and every engine (whatever status it
reports; the engine primitive does not write the register).  Consequently every sequence of
exponentiations started with the register at 1 runs to its end, and after each of its calls
the register holds 1. -/
theorem C26_engine_reset_invariant (env : Env) (eng : RsaEngine) (w : World)
    (ops : List CoreOp) (hw : w.SoftReset = 1)
    (hops : ∀ op ∈ ops, op.isExponentiation = true) :
    (∀ Hash P Q Dp Dq Qinv Pub Mod Len Res,
      (XSecure_RsaExpCRT eng w.SoftReset Hash P Q Dp Dq Qinv Pub Mod Len Res).SoftReset = 1) ∧
    (∀ Hash Exp Mod P Q Pub Tot Len Res,
      (XSecure_RsaExp eng w.SoftReset Hash Exp Mod P Q Pub Tot Len Res).SoftReset = 1) ∧
    (∀ n, ∃ w1, runOps env eng w (ops.take n) = some w1 ∧ w1.SoftReset = 1) := by
  rw [hw]
  exact ⟨XSecure_RsaExpCRT_reset eng, XSecure_RsaExp_reset eng, fun n =>
    runOps_exponentiations env eng (ops.take n) w hw
      (fun op ho => hops op (List.mem_of_mem_take ho))⟩

/-- Witness of C26: three exponentiations, one of them with a `NULL` operand, run with
`failingEngine` from a world whose register holds 1. -/
theorem C26_engine_reset_invariant_witness :
    (∀ Hash P Q Dp Dq Qinv Pub Mod Len Res,
      (XSecure_RsaExpCRT failingEngine exampleWorldAfter.SoftReset Hash P Q Dp Dq Qinv Pub Mod
        Len Res).SoftReset = 1) ∧
    (∀ Hash Exp Mod P Q Pub Tot Len Res,
      (XSecure_RsaExp failingEngine exampleWorldAfter.SoftReset Hash Exp Mod P Q Pub Tot Len
        Res).SoftReset = 1) ∧
    (∀ n, ∃ w1, runOps (exampleEnv 48) failingEngine exampleWorldAfter
      (exampleExponentiations.take n) = some w1 ∧ w1.SoftReset = 1) :=
  C26_engine_reset_invariant (exampleEnv 48) failingEngine exampleWorldAfter
    exampleExponentiations rfl (by decide)

/-! ## Failure of the hash provider on the label -/

/-- C28. When the digest of the label fails (the hash provider reports a status other than
`XST_SUCCESS`), `XSecure_RsaOaepEncode`, having accepted its parameters, returns the
provider's status unchanged, while `XSecure_RsaOaepDecode`, having found the leading byte
`0x00`, returns the fixed status `XSECURE_RSA_OAEP_DATA_CPY_ERROR`.  In both cases the trace
is the digest call alone (no entropy draw, no mask generation, no output write), the output
array of Encode and the caller memory of Decode are untouched and the parameter block is
unchanged. -/
theorem C28_hash_failure_reporting (env : Env) (mem : Mem) (P : XSecure_RsaOaepParam)
    (Output rest : List Nat) (hp : XSecure_HashAlgInfo)
    (hres : env.XSecure_GetHashInstance P.ShaType = some hp)
    (hin : P.InputDataAddr ≠ 0) (hout : P.OutputDataAddr ≠ 0)
    (hn : P.InputDataSize ≤ XSecure_RsaOaepEncode_ActualMsgLen hp.HashLen)
    (hfail : (hp.ShaDigest (labelOf mem P)).1 ≠ XST_SUCCESS) :
    XSecure_RsaOaepEncode env mem P Output =
        some ⟨(hp.ShaDigest (labelOf mem P)).1, P, Output,
          [Event.ShaDigest (labelOf mem P)]⟩ ∧
      XSecure_RsaOaepDecode env mem P (0 :: rest) =
        some ⟨XSECURE_RSA_OAEP_DATA_CPY_ERROR, P, mem, [Event.ShaDigest (labelOf mem P)]⟩ := by
  constructor
  · unfold XSecure_RsaOaepEncode
    simp only [hres, hin, hout, or_self, if_false, not_lt.mpr hn, gt_iff_lt]
    simp only [labelOf] at hfail
    simp only [labelOf, hfail, ne_eq, not_false_eq_true, if_true]
  · unfold XSecure_RsaOaepDecode
    simp only [hres, bufGet]
    simp only [labelOf] at hfail
    simp [labelOf, hfail]

/-- Witness of C28: under `failingHashEnv` the digest reports `External 77`; Encode returns
`External 77` and Decode returns `XSECURE_RSA_OAEP_DATA_CPY_ERROR`. -/
theorem C28_hash_failure_reporting_witness :
    XSecure_RsaOaepEncode failingHashEnv exampleMem exampleParam (zeros 384) =
        some ⟨External 77, exampleParam, zeros 384, [Event.ShaDigest [0, 1]]⟩ ∧
      XSecure_RsaOaepDecode failingHashEnv exampleMem exampleParam (0 :: zeros 383) =
        some ⟨XSECURE_RSA_OAEP_DATA_CPY_ERROR, exampleParam, exampleMem,
          [Event.ShaDigest [0, 1]]⟩ :=
  C28_hash_failure_reporting failingHashEnv exampleMem exampleParam (zeros 384) (zeros 383)
    ⟨0, 48, fun _ => (External 77, fun _ => 0)⟩ rfl (by decide) (by decide) (by decide)
    (by decide)

/-! ## The padding scan of `XSecure_RsaOaepDecode` -/

theorem PsScan_IsPsZero (DB : List Nat) :
    ∀ (Rem Index Z : Nat) (r : Nat × Nat),
      XSecure_RsaOaepDecode_PsScan DB Rem Index Z = some r → r.2 = Z := by
  intro Rem
  induction Rem with
  | zero =>
    intro Index Z r h
    simp only [XSecure_RsaOaepDecode_PsScan, Option.some.injEq] at h
    rw [← h]
  | succ Rem ih =>
    intro Index Z r h
    unfold XSecure_RsaOaepDecode_PsScan at h
    cases hg : bufGet DB Index with
    | none => simp only [hg] at h; cases h
    | some DBTmp =>
      simp only [hg] at h
      split_ifs at h with hz
      · have := ih _ _ r h
        rw [this, hz.1]
        simp
      · simp only [Option.some.injEq] at h
        rw [← h]

/-- C23. In `XSecure_RsaOaepDecode` the flag `IsPsZero` is 0 when the padding scan is left,
for every array `DB`, every start index and every number of iterations (it is only ever
OR-ed with a byte that has just been tested equal to `0x00`).  Hence, whenever the validation
part gets as far as the separator test (label hash compared equal, scan left at `Index`,
byte `DB[Index]` read) and returns, it returns `XSECURE_RSA_OAEP_DB_MISMATCH_ERROR` exactly
when the byte at which the scan stopped is not `0x01`. -/
theorem C23_IsPsZero_is_zero (mem : Mem) (P : XSecure_RsaOaepParam) (H DBLen : Nat)
    (DB Hash : List Nat) (T : List Event) (Index IsPsZero Separator : Nat) (r : DecodeResult)
    (hcmp : Xil_SMemCmp DB Hash H = some XST_SUCCESS)
    (hscan : XSecure_RsaOaepDecode_PsScan DB (DBLen - H) H 0 = some (Index, IsPsZero))
    (hsep : bufGet DB Index = some Separator)
    (hv : XSecure_RsaOaepDecode_Validate mem P H DBLen DB Hash T = some r) :
    IsPsZero = 0 ∧
      (∀ Rem Index0 Index1 Z, XSecure_RsaOaepDecode_PsScan DB Rem Index0 0 = some (Index1, Z) →
        Z = 0) ∧
      ((Separator ≠ 1 ∨ IsPsZero ≠ 0) ↔ Separator ≠ 1) ∧
      (r.Status = XSECURE_RSA_OAEP_DB_MISMATCH_ERROR ↔ Separator ≠ 1) := by
  have hz : IsPsZero = 0 := PsScan_IsPsZero DB _ _ _ _ hscan
  subst hz
  refine ⟨rfl, fun Rem Index0 Index1 Z h => PsScan_IsPsZero DB _ _ _ _ h, by simp, ?_⟩
  unfold XSecure_RsaOaepDecode_Validate at hv
  simp only [hcmp, hscan, hsep, ne_eq, not_true_eq_false, if_false, or_false] at hv
  by_cases h1 : Separator = 1
  · simp only [h1, not_true_eq_false, if_false] at hv
    split_ifs at hv
    · cases hv
      simp [h1]
    · split at hv
      · cases hv
      · cases hv
        simp [h1]
  · simp only [h1, not_false_eq_true, if_true, Option.some.injEq] at hv
    subst hv
    simp [h1]

theorem validate_steps (H DBLen : Nat) (lHash M : List Nat) (k : Nat)
    (hH : lHash.length = H) (hlen : (OaepReferenceDB lHash k M).length = DBLen)
    (hDBLen : DBLen < 4294967295) :
    Xil_SMemCmp (OaepReferenceDB lHash k M) lHash H = some XST_SUCCESS ∧
      XSecure_RsaOaepDecode_PsScan (OaepReferenceDB lHash k M) (DBLen - H) H 0
        = some (H + k, 0) ∧
      bufGet (OaepReferenceDB lHash k M) (H + k) = some 1 := by
  have hl : DBLen = H + k + 1 + M.length := by
    rw [← hlen, ← hH]; simp [OaepReferenceDB]; omega
  have htake : (OaepReferenceDB lHash k M).take H = lHash := by
    subst hH
    simp [OaepReferenceDB]
  refine ⟨?_, ?_, ?_⟩
  · rw [Xil_SMemCmp_eq _ lHash H hH (by rw [hlen]; omega), if_pos htake]
  · have := PsScan_found 1 (by decide) M k lHash (DBLen - H) 0 (by omega) (by omega)
    rw [hH] at this
    simpa [OaepReferenceDB] using this
  · have := bufGet_mid (lHash ++ zeros k) M 1 (H + k) (by simp [hH])
    simpa [OaepReferenceDB] using this

theorem exampleDB_length : (OaepReferenceDB (zeros 48) 284 [5, 6]).length = 335 := by
  rw [OaepReferenceDB_length, zeros_length]
  rfl

/-- Witness of C23: the data block `0x00^48 ‖ 0x00^284 ‖ 0x01 ‖ 05 06` with the label hash
`0x00^48`; the scan stops at index 332 on the byte `0x01` and the validation succeeds. -/
theorem C23_IsPsZero_is_zero_witness :
    (0 : Nat) = 0 ∧
      (∀ Rem Index0 Index1 Z,
        XSecure_RsaOaepDecode_PsScan (OaepReferenceDB (zeros 48) 284 [5, 6]) Rem Index0 0 =
          some (Index1, Z) → Z = 0) ∧
      (((1 : Nat) ≠ 1 ∨ (0 : Nat) ≠ 0) ↔ (1 : Nat) ≠ 1) ∧
      ((⟨XST_SUCCESS, { exampleParam with OutputDataSize := [5, 6].length },
          memWrite exampleMem exampleParam.OutputDataAddr [5, 6],
          [] ++ [Event.MemWrite exampleParam.OutputDataAddr [5, 6]]⟩ : DecodeResult).Status =
        XSECURE_RSA_OAEP_DB_MISMATCH_ERROR ↔ (1 : Nat) ≠ 1) :=
  C23_IsPsZero_is_zero exampleMem exampleParam 48 335 (OaepReferenceDB (zeros 48) 284 [5, 6])
    (zeros 48) [] (48 + 284) 0 1 _
    (validate_steps 48 335 (zeros 48) [5, 6] 284 (zeros_length 48) exampleDB_length
      (by decide)).1
    (validate_steps 48 335 (zeros 48) [5, 6] 284 (zeros_length 48) exampleDB_length
      (by decide)).2.1
    (validate_steps 48 335 (zeros 48) [5, 6] 284 (zeros_length 48) exampleDB_length
      (by decide)).2.2
    (validate_success exampleMem exampleParam 48 335 (zeros 48) [5, 6] 284 []
      (zeros_length 48) exampleDB_length (by decide) (by decide))

/-! ## The separator read after the padding scan -/

theorem scan_padding_only (lHash : List Nat) (k : Nat) (h : lHash.length + k < 4294967295) :
    XSecure_RsaOaepDecode_PsScan (lHash ++ zeros k) k lHash.length 0 =
        some ((lHash ++ zeros k).length, 0) ∧
      bufGet (lHash ++ zeros k) (lHash ++ zeros k).length = none := by
  constructor
  · rw [PsScan_all_zero k lHash 0 h]
    simp [zeros]
  · unfold bufGet
    simp

theorem exampleDigest_length : ((exampleHash 48).digest [0, 1]).length = 48 := by
  simp only [XSecure_HashAlgInfo.digest, bytesOf_length]
  rfl

theorem examplePaddingOnlyDB_length :
    ((exampleHash 48).digest [0, 1] ++ zeros 287).length = 335 := by
  rw [List.length_append, exampleDigest_length, zeros_length]

theorem examplePaddingOnlyBlock_unmasked :
    OaepUnmaskedDB ((exampleEnv 48).Mgf exampleParam.ShaType) (exampleHash 48).HashLen
        examplePaddingOnlyBlock =
      (exampleHash 48).digest (labelOf exampleMem exampleParam) ++ zeros 287 :=
  unmask_encoded ((exampleEnv 48).Mgf 0) ((exampleHash 48).digest [0, 1] ++ zeros 287)
    (bytesOf (fun i => (7 * i + 3) % 256) 48) (Env.Mgf_length (exampleEnv 48) 0)
    (bytesOf_length _ 48) (examplePaddingOnlyDB_length.trans (by decide))

theorem examplePaddingOnlyBlock_length :
    examplePaddingOnlyBlock.length = XSECURE_RSA_KEY_GEN_SIZE_IN_BYTES := by
  unfold examplePaddingOnlyBlock
  rw [OaepReferenceBlock_length _ _ _ _ (bytesOf_length _ 48)
    (Env.Mgf_length (exampleEnv 48) 0), examplePaddingOnlyDB_length]
  rfl

/-- C22 (code at the failing input). Under `exampleEnv 48` (hash length 48) the 384-byte
block `examplePaddingOnlyBlock` has leading byte `0x00` and unmasks to the label hash
followed by 287 bytes `0x00`.  The padding scan, started at index 48 with 287 iterations
allowed, is left with `Index = 335`, which is the length of `DB`, not an index of it: the
read `DB[335]` is out of bounds and `XSecure_RsaOaepDecode` has no defined result. -/
theorem C22_separator_read_out_of_bounds :
    examplePaddingOnlyBlock.length = 384 ∧
      bufGet examplePaddingOnlyBlock 0 = some 0 ∧
      OaepUnmaskedDB ((exampleEnv 48).Mgf exampleParam.ShaType) 48 examplePaddingOnlyBlock =
        (exampleHash 48).digest [0, 1] ++ zeros 287 ∧
      ((exampleHash 48).digest [0, 1] ++ zeros 287).length = XSECURE_RSA_MAX_DB_SIZE_IN_BYTES ∧
      XSecure_RsaOaepDecode_PsScan ((exampleHash 48).digest [0, 1] ++ zeros 287)
        (XSECURE_RSA_MAX_DB_SIZE_IN_BYTES - 48) 48 0 = some (335, 0) ∧
      ¬ 335 < XSECURE_RSA_MAX_DB_SIZE_IN_BYTES ∧
      bufGet ((exampleHash 48).digest [0, 1] ++ zeros 287) 335 = none ∧
      XSecure_RsaOaepDecode (exampleEnv 48) exampleMem exampleParam examplePaddingOnlyBlock =
        none := by
  have hl := examplePaddingOnlyDB_length
  have hd := exampleDigest_length
  obtain ⟨s1, s2⟩ := scan_padding_only ((exampleHash 48).digest [0, 1]) 287
    (by rw [hd]; decide)
  rw [hl, hd] at s1
  rw [hl] at s2
  refine ⟨examplePaddingOnlyBlock_length, rfl, examplePaddingOnlyBlock_unmasked, hl, s1,
    by decide, s2, ?_⟩
  exact decode_no_separator (exampleEnv 48) exampleMem exampleParam examplePaddingOnlyBlock
    (exampleHash 48) 287 rfl rfl examplePaddingOnlyBlock_length rfl rfl (fun _ _ => rfl)
    examplePaddingOnlyBlock_unmasked

/-! ## The decoded-length check of `XSecure_RsaOaepDecode` -/

theorem exists_first_nonzero (l : List Nat) (h : ∃ x ∈ l, x ≠ 0) :
    ∃ k x rest, l = zeros k ++ x :: rest ∧ x ≠ 0 := by
  induction l with
  | nil =>
    obtain ⟨x, hx, -⟩ := h
    cases hx
  | cons a t ih =>
    by_cases ha : a = 0
    · obtain ⟨x, hx, hx0⟩ := h
      have hxt : x ∈ t := by
        rcases List.mem_cons.mp hx with h1 | h1
        · exact absurd (h1.trans ha) hx0
        · exact h1
      obtain ⟨k, y, rest, e, hy⟩ := ih ⟨x, hxt, hx0⟩
      refine ⟨k + 1, y, rest, ?_, hy⟩
      rw [e, ha, zeros_succ]
      rfl
    · exact ⟨0, a, t, rfl, ha⟩

theorem decode_length_arith (k : Nat) (hk : k ≤ 286) :
    add32 (48 + k) 1 = 48 + k + 1 ∧
      sub32 335 (add32 (48 + k) 1) = 335 - (48 + k + 1) ∧
      sub32 (sub32 384 (mul32 2 48)) 2 = 384 - 2 * 48 - 2 ∧
      335 - (48 + k + 1) ≤ 384 - 2 * 48 - 2 := by
  have h1 : add32 (48 + k) 1 = 48 + k + 1 := add32_of_lt _ _ (by omega)
  have h2 : mul32 2 48 = 96 := by decide
  rw [h1, h2, sub32_of_le _ _ (by omega) (by omega), sub32_of_le 384 96 (by omega) (by omega),
    sub32_of_le _ _ (by omega) (by omega)]
  omega

theorem decode_with_separator_candidate (env : Env) (mem : Mem) (P : XSecure_RsaOaepParam)
    (Block : List Nat) (hp : XSecure_HashAlgInfo)
    (hres : env.XSecure_GetHashInstance P.ShaType = some hp)
    (hH : hp.HashLen = XSECURE_SHA3_HASH_LENGTH_IN_BYTES)
    (hI : Block.length = XSECURE_RSA_KEY_GEN_SIZE_IN_BYTES)
    (h0 : bufGet Block 0 = some 0)
    (hdig : (hp.ShaDigest (labelOf mem P)).1 = XST_SUCCESS)
    (hmgf : ∀ seed n, (env.XSecure_MaskGenFunc P.ShaType seed n).1 = XST_SUCCESS)
    (hnz : ∃ x ∈ (OaepUnmaskedDB (env.Mgf P.ShaType) hp.HashLen Block).drop hp.HashLen,
      x ≠ 0) :
    (∃ k, k ≤ 286 ∧
      XSecure_RsaOaepDecode_PsScan (OaepUnmaskedDB (env.Mgf P.ShaType) hp.HashLen Block)
        (335 - 48) 48 0 = some (48 + k, 0)) ∧
    ∃ r, XSecure_RsaOaepDecode env mem P Block = some r ∧
      (r.Status = XST_SUCCESS ∨ r.Status = XSECURE_RSA_OAEP_DB_MISMATCH_ERROR ∨
        r.Status = XSECURE_RSA_OAEP_DATA_CMP_ERROR) := by
  have hlen := OaepUnmaskedDB_length (env.Mgf P.ShaType) Block (Env.Mgf_length env P.ShaType) hI
  rw [← hH] at hlen
  have hH48 : hp.HashLen = 48 := hH
  have hlen335 : (OaepUnmaskedDB (env.Mgf P.ShaType) hp.HashLen Block).length = 335 := by
    rw [hlen]
    decide
  obtain ⟨k, x, rest, hd, hx⟩ := exists_first_nonzero _ hnz
  have hDB : OaepUnmaskedDB (env.Mgf P.ShaType) hp.HashLen Block =
      (OaepUnmaskedDB (env.Mgf P.ShaType) hp.HashLen Block).take hp.HashLen ++ zeros k ++
        x :: rest := by
    rw [List.append_assoc, ← hd, List.take_append_drop]
  have htl : ((OaepUnmaskedDB (env.Mgf P.ShaType) hp.HashLen Block).take hp.HashLen).length
      = 48 := by
    rw [List.length_take, hlen335, hH48]
    rfl
  have hk : k ≤ 286 := by
    have := congrArg List.length hDB
    rw [hlen335] at this
    simp only [List.length_append, List.length_cons, htl, zeros_length] at this
    omega
  constructor
  · refine ⟨k, hk, ?_⟩
    have := PsScan_found x hx rest k
      ((OaepUnmaskedDB (env.Mgf P.ShaType) hp.HashLen Block).take hp.HashLen) (335 - 48) 0
      (by omega) (by rw [htl]; omega)
    rw [← hDB, htl] at this
    exact this
  · by_cases hc : (OaepUnmaskedDB (env.Mgf P.ShaType) hp.HashLen Block).take hp.HashLen
        = hp.digest (labelOf mem P)
    · rw [hc] at hDB
      by_cases h1 : x = 1
      · have hDB2 : OaepUnmaskedDB (env.Mgf P.ShaType) hp.HashLen Block =
            OaepReferenceDB (hp.digest (labelOf mem P)) k rest := by
          rw [hDB, h1]
          simp [OaepReferenceDB]
        exact ⟨_, (decode_success env mem P Block hp rest k hres hH hI h0 hdig hmgf hDB2).1,
          Or.inl rfl⟩
      · exact ⟨_, decode_bad_separator env mem P Block hp rest k x hres hH hI h0 hdig hmgf
          hDB hx h1, Or.inr (Or.inl rfl)⟩
    · exact ⟨_, decode_cmp_error env mem P Block hp hres hH hI h0 hdig hmgf hc,
        Or.inr (Or.inr rfl)⟩

set_option maxRecDepth 100000 in
theorem exampleBlock_has_separator_candidate :
    ∃ x ∈ (OaepUnmaskedDB (zeroEnv.Mgf exampleParam.ShaType) zeroHash.HashLen
      exampleBlock).drop zeroHash.HashLen, x ≠ 0 := by
  rw [exampleBlock_unmasked]
  exact ⟨1, by decide, by decide⟩

/-- The decoded-length check of `XSecure_RsaOaepDecode` never fires on a block that
contains a separator candidate.  With hash length 48, a 384-byte block with leading byte
`0x00`, hash provider and mask generator succeeding, and an unmasked `DB` with at least one
non-zero byte after the label hash: the padding scan stops at an index `HashLen + k` with
`k ≤ 286`, the computations `Index + 1` and
`ActualMsgLen = (ModulusLen - HashLen - 1) - (Index + 1)` do not wrap around, the result is
at most `ModulusLen - 2 * HashLen - 2`, and Decode returns a result whose status is
`XST_SUCCESS`, `XSECURE_RSA_OAEP_DB_MISMATCH_ERROR` or `XSECURE_RSA_OAEP_DATA_CMP_ERROR`,
never `XSECURE_RSA_OAEP_INVALID_MSG_LEN`. -/
theorem length_check_reference_length (env : Env) (mem : Mem) (P : XSecure_RsaOaepParam)
    (Block : List Nat) (hp : XSecure_HashAlgInfo)
    (hres : env.XSecure_GetHashInstance P.ShaType = some hp)
    (hH : hp.HashLen = XSECURE_SHA3_HASH_LENGTH_IN_BYTES)
    (hI : Block.length = XSECURE_RSA_KEY_GEN_SIZE_IN_BYTES)
    (h0 : bufGet Block 0 = some 0)
    (hdig : (hp.ShaDigest (labelOf mem P)).1 = XST_SUCCESS)
    (hmgf : ∀ seed n, (env.XSecure_MaskGenFunc P.ShaType seed n).1 = XST_SUCCESS)
    (hnz : ∃ x ∈ (OaepUnmaskedDB (env.Mgf P.ShaType) hp.HashLen Block).drop hp.HashLen,
      x ≠ 0) :
    (∃ k, k ≤ 286 ∧
      XSecure_RsaOaepDecode_PsScan (OaepUnmaskedDB (env.Mgf P.ShaType) hp.HashLen Block)
        (XSECURE_RSA_KEY_GEN_SIZE_IN_BYTES - hp.HashLen - 1 - hp.HashLen) hp.HashLen 0 =
        some (hp.HashLen + k, 0) ∧
      add32 (hp.HashLen + k) 1 = hp.HashLen + k + 1 ∧
      sub32 (XSECURE_RSA_KEY_GEN_SIZE_IN_BYTES - hp.HashLen - 1) (add32 (hp.HashLen + k) 1) =
        XSECURE_RSA_KEY_GEN_SIZE_IN_BYTES - hp.HashLen - 1 - (hp.HashLen + k + 1) ∧
      sub32 (sub32 XSECURE_RSA_KEY_GEN_SIZE_IN_BYTES (mul32 2 hp.HashLen)) 2 =
        XSECURE_RSA_KEY_GEN_SIZE_IN_BYTES - 2 * hp.HashLen - 2 ∧
      XSECURE_RSA_KEY_GEN_SIZE_IN_BYTES - hp.HashLen - 1 - (hp.HashLen + k + 1) ≤
        XSECURE_RSA_KEY_GEN_SIZE_IN_BYTES - 2 * hp.HashLen - 2) ∧
    ∃ r, XSecure_RsaOaepDecode env mem P Block = some r ∧
      r.Status ≠ XSECURE_RSA_OAEP_INVALID_MSG_LEN ∧
      (r.Status = XST_SUCCESS ∨ r.Status = XSECURE_RSA_OAEP_DB_MISMATCH_ERROR ∨
        r.Status = XSECURE_RSA_OAEP_DATA_CMP_ERROR) := by
  obtain ⟨⟨k, hk, hs⟩, r, hr, hst⟩ :=
    decode_with_separator_candidate env mem P Block hp hres hH hI h0 hdig hmgf hnz
  have hH48 : hp.HashLen = 48 := hH
  have hK : XSECURE_RSA_KEY_GEN_SIZE_IN_BYTES = 384 := rfl
  obtain ⟨a1, a2, a3, a4⟩ := decode_length_arith k hk
  refine ⟨⟨k, hk, ?_, ?_, ?_, ?_, ?_⟩, r, hr, ?_, hst⟩
  · rw [hK]
    rw [hH48] at hs ⊢
    exact hs
  · rw [hH48]
    exact a1
  · rw [hK, hH48]
    exact a2
  · rw [hK, hH48]
    exact a3
  · rw [hK, hH48]
    exact a4
  · rcases hst with h | h | h <;> rw [h] <;> decide

/-- Example: `exampleBlock` under `zeroEnv`, whose unmasked data block has the byte
`0x01` at index 332. -/
theorem length_check_reference_length_example :
    (∃ k, k ≤ 286 ∧
      XSecure_RsaOaepDecode_PsScan
        (OaepUnmaskedDB (zeroEnv.Mgf exampleParam.ShaType) zeroHash.HashLen exampleBlock)
        (XSECURE_RSA_KEY_GEN_SIZE_IN_BYTES - zeroHash.HashLen - 1 - zeroHash.HashLen)
        zeroHash.HashLen 0 = some (zeroHash.HashLen + k, 0) ∧
      add32 (zeroHash.HashLen + k) 1 = zeroHash.HashLen + k + 1 ∧
      sub32 (XSECURE_RSA_KEY_GEN_SIZE_IN_BYTES - zeroHash.HashLen - 1)
          (add32 (zeroHash.HashLen + k) 1) =
        XSECURE_RSA_KEY_GEN_SIZE_IN_BYTES - zeroHash.HashLen - 1 - (zeroHash.HashLen + k + 1) ∧
      sub32 (sub32 XSECURE_RSA_KEY_GEN_SIZE_IN_BYTES (mul32 2 zeroHash.HashLen)) 2 =
        XSECURE_RSA_KEY_GEN_SIZE_IN_BYTES - 2 * zeroHash.HashLen - 2 ∧
      XSECURE_RSA_KEY_GEN_SIZE_IN_BYTES - zeroHash.HashLen - 1 - (zeroHash.HashLen + k + 1) ≤
        XSECURE_RSA_KEY_GEN_SIZE_IN_BYTES - 2 * zeroHash.HashLen - 2) ∧
    ∃ r, XSecure_RsaOaepDecode zeroEnv exampleMem exampleParam exampleBlock = some r ∧
      r.Status ≠ XSECURE_RSA_OAEP_INVALID_MSG_LEN ∧
      (r.Status = XST_SUCCESS ∨ r.Status = XSECURE_RSA_OAEP_DB_MISMATCH_ERROR ∨
        r.Status = XSECURE_RSA_OAEP_DATA_CMP_ERROR) :=
  length_check_reference_length zeroEnv exampleMem exampleParam exampleBlock zeroHash rfl rfl
    exampleBlock_length rfl rfl (fun _ _ => rfl) exampleBlock_has_separator_candidate

/-! ## All array accesses of `XSecure_RsaOaepEncode` are in bounds -/

theorem encode_index_arith (H n : Nat) (hH : H ≤ XSECURE_SHA3_HASH_LENGTH_IN_BYTES)
    (hn : n ≤ XSecure_RsaOaepEncode_ActualMsgLen H) :
    sub32 (XSecure_RsaOaepEncode_ActualMsgLen H) n = XSecure_RsaOaepEncode_ActualMsgLen H - n ∧
      add32 H (XSecure_RsaOaepEncode_ActualMsgLen H - n) =
        H + (XSecure_RsaOaepEncode_ActualMsgLen H - n) ∧
      H + (XSecure_RsaOaepEncode_ActualMsgLen H - n) < XSECURE_RSA_MAX_DB_SIZE_IN_BYTES ∧
      add32 (H + (XSecure_RsaOaepEncode_ActualMsgLen H - n)) 1 =
        H + (XSecure_RsaOaepEncode_ActualMsgLen H - n) + 1 ∧
      H + (XSecure_RsaOaepEncode_ActualMsgLen H - n) + 1 + n ≤
        XSECURE_RSA_MAX_DB_SIZE_IN_BYTES ∧
      add32 (add32 (add32 (XSecure_RsaOaepEncode_ActualMsgLen H - n) n) H) 1 =
        XSecure_RsaOaepEncode_ActualMsgLen H + H + 1 ∧
      XSecure_RsaOaepEncode_ActualMsgLen H + H + 1 ≤ XSECURE_RSA_MAX_DB_SIZE_IN_BYTES ∧
      1 + H + (XSecure_RsaOaepEncode_ActualMsgLen H + H + 1) ≤
        XSECURE_RSA_KEY_GEN_SIZE_IN_BYTES := by
  have hA := ActualMsgLen_small H hH
  rw [hA] at hn ⊢
  have hM : XSECURE_RSA_MAX_DB_SIZE_IN_BYTES = 335 := by decide
  have hK : XSECURE_RSA_KEY_GEN_SIZE_IN_BYTES = 384 := rfl
  have h48 : XSECURE_SHA3_HASH_LENGTH_IN_BYTES = 48 := rfl
  rw [h48] at hH
  rw [hM, hK]
  refine ⟨sub32_of_le _ _ hn (by omega), add32_of_lt _ _ (by omega), by omega,
    add32_of_lt _ _ (by omega), by omega, ?_, by omega, by omega⟩
  simp only [add32]
  omega

theorem encode_in_bounds (env : Env) (mem : Mem) (P : XSecure_RsaOaepParam)
    (Output : List Nat) (hp : XSecure_HashAlgInfo)
    (hres : env.XSecure_GetHashInstance P.ShaType = some hp)
    (hH : hp.HashLen ≤ XSECURE_SHA3_HASH_LENGTH_IN_BYTES)
    (hO : Output.length = XSECURE_RSA_KEY_GEN_SIZE_IN_BYTES) :
    ∃ r, XSecure_RsaOaepEncode env mem P Output = some r := by
  unfold XSecure_RsaOaepEncode
  simp only [hres]
  by_cases hpar : P.InputDataAddr = 0 ∨ P.OutputDataAddr = 0
  · simp only [hpar, if_true]
    exact ⟨_, rfl⟩
  by_cases hlen : P.InputDataSize > XSecure_RsaOaepEncode_ActualMsgLen hp.HashLen
  · simp only [hpar, hlen, if_true, if_false]
    exact ⟨_, rfl⟩
  by_cases hdig : (hp.ShaDigest (memRead mem P.OptionalLabelAddr P.OptionalLabelSize)).1 =
      XST_SUCCESS
  swap
  · simp only [hpar, hlen, hdig, ne_eq, not_false_eq_true, if_true, if_false]
    exact ⟨_, rfl⟩
  simp only [hpar, hlen, hdig, ne_eq, not_true_eq_false, if_false]
  have hn : P.InputDataSize ≤ XSecure_RsaOaepEncode_ActualMsgLen hp.HashLen := not_lt.mp hlen
  obtain ⟨a1, a2, a3, a4, a5, a6, a7, a8⟩ := encode_index_arith hp.HashLen P.InputDataSize hH hn
  have h48 : XSECURE_SHA3_HASH_LENGTH_IN_BYTES = 48 := rfl
  rw [a1, a2, a4, a6]
  obtain ⟨DB1, e1, l1⟩ := bufWrite_ok (zeros XSECURE_RSA_MAX_DB_SIZE_IN_BYTES) 0
    (bytesOf (hp.ShaDigest (memRead mem P.OptionalLabelAddr P.OptionalLabelSize)).2
      hp.HashLen) (by rw [bytesOf_length, zeros_length]; omega)
  rw [zeros_length] at l1
  obtain ⟨DB2, e2, l2⟩ := bufSet_ok DB1
    (hp.HashLen + (XSecure_RsaOaepEncode_ActualMsgLen hp.HashLen - P.InputDataSize)) 1
    (by rw [l1]; exact a3)
  obtain ⟨DB3, e3, l3⟩ := bufWrite_ok DB2
    (hp.HashLen + (XSecure_RsaOaepEncode_ActualMsgLen hp.HashLen - P.InputDataSize) + 1)
    (memRead mem P.InputDataAddr P.InputDataSize)
    (by rw [memRead_length, l2, l1]; exact a5)
  simp only [e1, e2, e3]
  by_cases hrnd : (env.XSecure_GetRandomNum hp.HashLen).1 = XST_SUCCESS
  swap
  · simp only [hrnd, not_false_eq_true, if_true]
    exact ⟨_, rfl⟩
  simp only [hrnd, not_true_eq_false, if_false]
  obtain ⟨S1, s1, ls1⟩ := bufWrite_ok (zeros XSECURE_SHA3_HASH_LENGTH_IN_BYTES) 0
    (bytesOf (env.XSecure_GetRandomNum hp.HashLen).2 hp.HashLen)
    (by rw [bytesOf_length, zeros_length]; omega)
  rw [zeros_length] at ls1
  obtain ⟨S2, s2, -⟩ := bufRead_ok S1 0 hp.HashLen (by rw [ls1]; omega)
  simp only [s1, s2]
  by_cases hm1 : (env.XSecure_MaskGenFunc P.ShaType S2
      (XSecure_RsaOaepEncode_ActualMsgLen hp.HashLen + hp.HashLen + 1)).1 = XST_SUCCESS
  swap
  · simp only [hm1, not_false_eq_true, if_true]
    exact ⟨_, rfl⟩
  simp only [hm1, not_true_eq_false, if_false]
  obtain ⟨M1, m1, lm1⟩ := bufWrite_ok (zeros XSECURE_RSA_MAX_DB_SIZE_IN_BYTES) 0
    (bytesOf (env.XSecure_MaskGenFunc P.ShaType S2
      (XSecure_RsaOaepEncode_ActualMsgLen hp.HashLen + hp.HashLen + 1)).2
      (XSecure_RsaOaepEncode_ActualMsgLen hp.HashLen + hp.HashLen + 1))
    (by rw [bytesOf_length, zeros_length]; omega)
  rw [zeros_length] at lm1
  obtain ⟨DB4, e4, l4⟩ := bufXor_ok DB3 M1
    (XSecure_RsaOaepEncode_ActualMsgLen hp.HashLen + hp.HashLen + 1)
    (by rw [l3, l2, l1]; exact a7) (by rw [lm1]; exact a7)
  obtain ⟨D5, e5, l5⟩ := bufRead_ok DB4 0
    (XSecure_RsaOaepEncode_ActualMsgLen hp.HashLen + hp.HashLen + 1)
    (by rw [l4, l3, l2, l1]; omega)
  simp only [m1, e4, e5]
  by_cases hm2 : (env.XSecure_MaskGenFunc P.ShaType D5 hp.HashLen).1 = XST_SUCCESS
  swap
  · simp only [hm2, not_false_eq_true, if_true]
    exact ⟨_, rfl⟩
  simp only [hm2, not_true_eq_false, if_false]
  obtain ⟨M2, m2, lm2⟩ := bufWrite_ok (zeros XSECURE_SHA3_HASH_LENGTH_IN_BYTES) 0
    (bytesOf (env.XSecure_MaskGenFunc P.ShaType D5 hp.HashLen).2 hp.HashLen)
    (by rw [bytesOf_length, zeros_length]; omega)
  rw [zeros_length] at lm2
  obtain ⟨S3, s3, ls3⟩ := bufXor_ok S1 M2 hp.HashLen (by rw [ls1]; exact hH)
    (by rw [lm2]; exact hH)
  obtain ⟨O1, o1, lo1⟩ := bufSet_ok Output 0 0 (by rw [hO]; decide)
  obtain ⟨S4, s4, ls4⟩ := bufRead_ok S3 0 hp.HashLen (by rw [ls3, ls1]; omega)
  obtain ⟨O2, o2, lo2⟩ := bufWrite_ok O1 1 S4 (by rw [ls4, lo1, hO]; omega)
  obtain ⟨O3, o3, -⟩ := bufWrite_ok O2 (hp.HashLen + 1) D5
    (by rw [l5, lo2, lo1, hO]; omega)
  simp only [m2, s3, o1, s4, o2, e5, o3]
  exact ⟨_, rfl⟩

/-- C25. In `XSecure_RsaOaepEncode`, for every hash length `HashLen ≤ 48` (the length that
sizes `Seed` and `SeedMask`), every accepted `InputDataSize`, whatever the collaborators
deliver and whatever status they report, and a 384-byte output array, all array accesses
are in bounds, so that Encode returns a result.  `Index = ActualMsgLen - InputDataSize` does
not underflow; the separator position `HashLen + Index` and the message range
`[HashLen + Index + 1, HashLen + Index + 1 + InputDataSize)` lie inside `DB`, computed
without wrap-around; `DBLen = ActualMsgLen + HashLen + 1` is at most
`XSECURE_RSA_MAX_DB_SIZE_IN_BYTES = 335`, and the block of `1 + HashLen + DBLen` bytes fits
the output array. -/
theorem C25_encode_accesses_in_bounds (env : Env) (mem : Mem) (P : XSecure_RsaOaepParam)
    (Output : List Nat) (hp : XSecure_HashAlgInfo)
    (hres : env.XSecure_GetHashInstance P.ShaType = some hp)
    (hH : hp.HashLen ≤ XSECURE_SHA3_HASH_LENGTH_IN_BYTES)
    (hn : P.InputDataSize ≤ XSecure_RsaOaepEncode_ActualMsgLen hp.HashLen)
    (hO : Output.length = XSECURE_RSA_KEY_GEN_SIZE_IN_BYTES) :
    (sub32 (XSecure_RsaOaepEncode_ActualMsgLen hp.HashLen) P.InputDataSize =
        XSecure_RsaOaepEncode_ActualMsgLen hp.HashLen - P.InputDataSize ∧
      add32 hp.HashLen (XSecure_RsaOaepEncode_ActualMsgLen hp.HashLen - P.InputDataSize) =
        hp.HashLen + (XSecure_RsaOaepEncode_ActualMsgLen hp.HashLen - P.InputDataSize) ∧
      hp.HashLen + (XSecure_RsaOaepEncode_ActualMsgLen hp.HashLen - P.InputDataSize) <
        XSECURE_RSA_MAX_DB_SIZE_IN_BYTES ∧
      add32 (hp.HashLen + (XSecure_RsaOaepEncode_ActualMsgLen hp.HashLen - P.InputDataSize))
          1 =
        hp.HashLen + (XSecure_RsaOaepEncode_ActualMsgLen hp.HashLen - P.InputDataSize) + 1 ∧
      hp.HashLen + (XSecure_RsaOaepEncode_ActualMsgLen hp.HashLen - P.InputDataSize) + 1 +
          P.InputDataSize ≤ XSECURE_RSA_MAX_DB_SIZE_IN_BYTES ∧
      add32 (add32 (add32 (XSecure_RsaOaepEncode_ActualMsgLen hp.HashLen - P.InputDataSize)
          P.InputDataSize) hp.HashLen) 1 =
        XSecure_RsaOaepEncode_ActualMsgLen hp.HashLen + hp.HashLen + 1 ∧
      XSecure_RsaOaepEncode_ActualMsgLen hp.HashLen + hp.HashLen + 1 ≤
        XSECURE_RSA_MAX_DB_SIZE_IN_BYTES ∧
      1 + hp.HashLen + (XSecure_RsaOaepEncode_ActualMsgLen hp.HashLen + hp.HashLen + 1) ≤
        XSECURE_RSA_KEY_GEN_SIZE_IN_BYTES) ∧
    XSECURE_RSA_MAX_DB_SIZE_IN_BYTES = 335 ∧
    ∃ r, XSecure_RsaOaepEncode env mem P Output = some r :=
  ⟨encode_index_arith hp.HashLen P.InputDataSize hH hn, by decide,
    encode_in_bounds env mem P Output hp hres hH hO⟩

/-- Witness of C25: the 3-byte message of `exampleParam` with a hash descriptor of length
32. -/
theorem C25_encode_accesses_in_bounds_witness :
    (sub32 (XSecure_RsaOaepEncode_ActualMsgLen (exampleHash 32).HashLen)
          exampleParam.InputDataSize =
        XSecure_RsaOaepEncode_ActualMsgLen (exampleHash 32).HashLen -
          exampleParam.InputDataSize ∧
      add32 (exampleHash 32).HashLen
          (XSecure_RsaOaepEncode_ActualMsgLen (exampleHash 32).HashLen -
            exampleParam.InputDataSize) =
        (exampleHash 32).HashLen + (XSecure_RsaOaepEncode_ActualMsgLen (exampleHash 32).HashLen -
          exampleParam.InputDataSize) ∧
      (exampleHash 32).HashLen + (XSecure_RsaOaepEncode_ActualMsgLen (exampleHash 32).HashLen -
          exampleParam.InputDataSize) < XSECURE_RSA_MAX_DB_SIZE_IN_BYTES ∧
      add32 ((exampleHash 32).HashLen +
          (XSecure_RsaOaepEncode_ActualMsgLen (exampleHash 32).HashLen -
            exampleParam.InputDataSize)) 1 =
        (exampleHash 32).HashLen + (XSecure_RsaOaepEncode_ActualMsgLen (exampleHash 32).HashLen -
          exampleParam.InputDataSize) + 1 ∧
      (exampleHash 32).HashLen + (XSecure_RsaOaepEncode_ActualMsgLen (exampleHash 32).HashLen -
          exampleParam.InputDataSize) + 1 + exampleParam.InputDataSize ≤
        XSECURE_RSA_MAX_DB_SIZE_IN_BYTES ∧
      add32 (add32 (add32 (XSecure_RsaOaepEncode_ActualMsgLen (exampleHash 32).HashLen -
          exampleParam.InputDataSize) exampleParam.InputDataSize) (exampleHash 32).HashLen) 1 =
        XSecure_RsaOaepEncode_ActualMsgLen (exampleHash 32).HashLen +
          (exampleHash 32).HashLen + 1 ∧
      XSecure_RsaOaepEncode_ActualMsgLen (exampleHash 32).HashLen + (exampleHash 32).HashLen + 1 ≤
        XSECURE_RSA_MAX_DB_SIZE_IN_BYTES ∧
      1 + (exampleHash 32).HashLen + (XSecure_RsaOaepEncode_ActualMsgLen
          (exampleHash 32).HashLen + (exampleHash 32).HashLen + 1) ≤
        XSECURE_RSA_KEY_GEN_SIZE_IN_BYTES) ∧
    XSECURE_RSA_MAX_DB_SIZE_IN_BYTES = 335 ∧
    ∃ r, XSecure_RsaOaepEncode (exampleEnv 32) exampleMem exampleParam (zeros 384) = some r :=
  C25_encode_accesses_in_bounds (exampleEnv 32) exampleMem exampleParam (zeros 384)
    (exampleHash 32) rfl (by decide) (by decide) (zeros_length 384)

/-! ## Hash lengths other than the reference length -/

theorem encode_large_hash_out_of_bounds (env : Env) (mem : Mem) (P : XSecure_RsaOaepParam)
    (Output : List Nat) (hp : XSecure_HashAlgInfo)
    (hres : env.XSecure_GetHashInstance P.ShaType = some hp)
    (hH : XSECURE_SHA3_HASH_LENGTH_IN_BYTES < hp.HashLen)
    (hH2 : 2 * hp.HashLen + 2 ≤ XSECURE_RSA_KEY_GEN_SIZE_IN_BYTES)
    (hin : P.InputDataAddr ≠ 0) (hout : P.OutputDataAddr ≠ 0)
    (hn : P.InputDataSize ≤ XSecure_RsaOaepEncode_ActualMsgLen hp.HashLen)
    (hdig : (hp.ShaDigest (labelOf mem P)).1 = XST_SUCCESS)
    (hrnd : (env.XSecure_GetRandomNum hp.HashLen).1 = XST_SUCCESS) :
    XSecure_RsaOaepEncode env mem P Output = none := by
  have hA := ActualMsgLen_large hp.HashLen (le_of_lt hH) hH2
  have hM : XSECURE_RSA_MAX_DB_SIZE_IN_BYTES = 335 := by decide
  have hK : XSECURE_RSA_KEY_GEN_SIZE_IN_BYTES = 384 := rfl
  have h48 : XSECURE_SHA3_HASH_LENGTH_IN_BYTES = 48 := rfl
  rw [hK] at hA hH2
  rw [h48] at hH
  rw [hA] at hn
  unfold XSecure_RsaOaepEncode
  simp only [hres, hin, hout, or_self, if_false, gt_iff_lt, hA, not_lt.mpr hn]
  simp only [labelOf] at hdig
  simp only [hdig, hrnd, ne_eq, not_true_eq_false, if_false]
  have a1 : sub32 (384 - 2 * hp.HashLen - 2) P.InputDataSize =
      384 - 2 * hp.HashLen - 2 - P.InputDataSize := sub32_of_le _ _ hn (by omega)
  have a2 : add32 hp.HashLen (384 - 2 * hp.HashLen - 2 - P.InputDataSize) =
      hp.HashLen + (384 - 2 * hp.HashLen - 2 - P.InputDataSize) := add32_of_lt _ _ (by omega)
  have a3 : add32 (hp.HashLen + (384 - 2 * hp.HashLen - 2 - P.InputDataSize)) 1 =
      hp.HashLen + (384 - 2 * hp.HashLen - 2 - P.InputDataSize) + 1 :=
    add32_of_lt _ _ (by omega)
  rw [a1, a2, a3]
  obtain ⟨DB1, e1, l1⟩ := bufWrite_ok (zeros XSECURE_RSA_MAX_DB_SIZE_IN_BYTES) 0
    (bytesOf (hp.ShaDigest (memRead mem P.OptionalLabelAddr P.OptionalLabelSize)).2
      hp.HashLen) (by rw [bytesOf_length, zeros_length, hM]; omega)
  rw [zeros_length, hM] at l1
  obtain ⟨DB2, e2, l2⟩ := bufSet_ok DB1
    (hp.HashLen + (384 - 2 * hp.HashLen - 2 - P.InputDataSize)) 1 (by rw [l1]; omega)
  obtain ⟨DB3, e3, -⟩ := bufWrite_ok DB2
    (hp.HashLen + (384 - 2 * hp.HashLen - 2 - P.InputDataSize) + 1)
    (memRead mem P.InputDataAddr P.InputDataSize) (by rw [memRead_length, l2, l1]; omega)
  have s1 : bufWrite (zeros XSECURE_SHA3_HASH_LENGTH_IN_BYTES) 0
      (bytesOf (env.XSecure_GetRandomNum hp.HashLen).2 hp.HashLen) = none := by
    unfold bufWrite
    rw [if_neg]
    rw [bytesOf_length, zeros_length, h48]
    omega
  simp only [e1, e2, e3, s1]

theorem unmask_encoded_gen (Mgf : List Nat → Nat → List Nat) (H : Nat) (DB S : List Nat)
    (hMgf : ∀ seed n, (Mgf seed n).length = n) (hS : S.length = H)
    (hDB : DB.length = XSECURE_RSA_KEY_GEN_SIZE_IN_BYTES - H - 1) :
    OaepUnmaskedDB Mgf H (OaepReferenceBlock Mgf H DB S) = DB := by
  simp only [OaepUnmaskedDB, OaepReferenceBlock]
  rw [← hDB]
  have hmdb : (xorBytes DB (Mgf S DB.length)).length = DB.length := by
    simp [hMgf]
  have hms : (xorBytes S (Mgf (xorBytes DB (Mgf S DB.length)) H)).length = H := by
    simp [hMgf, hS]
  have e1 : (([0] ++ xorBytes S (Mgf (xorBytes DB (Mgf S DB.length)) H) ++
      xorBytes DB (Mgf S DB.length)).drop 1).take H
      = xorBytes S (Mgf (xorBytes DB (Mgf S DB.length)) H) := by
    rw [List.append_assoc, List.singleton_append, List.drop_succ_cons, List.drop_zero]
    exact List.take_left' hms
  have e2 : (([0] ++ xorBytes S (Mgf (xorBytes DB (Mgf S DB.length)) H) ++
      xorBytes DB (Mgf S DB.length)).drop (1 + H)).take DB.length
      = xorBytes DB (Mgf S DB.length) := by
    rw [List.drop_left' (by simp [hMgf, hS]; omega)]
    exact List.take_of_length_le (le_of_eq hmdb)
  rw [e1, e2, xorBytes_cancel S _ (by simp [hMgf, hS]),
    xorBytes_cancel DB _ (by simp [hMgf])]

theorem encode_hash64_out_of_bounds :
    XSecure_RsaOaepEncode (exampleEnv 64) exampleMem exampleParam (zeros 384) = none :=
  encode_large_hash_out_of_bounds (exampleEnv 64) exampleMem exampleParam (zeros 384)
    (exampleHash 64) rfl (by decide) (by decide) (by decide) (by decide) (by decide) rfl rfl

theorem encode_hash64_zero_seed_out_of_bounds :
    XSecure_RsaOaepEncode (exampleZeroSeedEnv 64) exampleMem exampleParam (zeros 384) = none :=
  encode_large_hash_out_of_bounds (exampleZeroSeedEnv 64) exampleMem exampleParam (zeros 384)
    (exampleHash 64) rfl (by decide) (by decide) (by decide) (by decide) (by decide) rfl rfl

/-- C1 (code at the failing inputs). With a hash descriptor of length 32 the 3-byte message
of `exampleParam` (at most `MaxMessageLen = 318`) is encoded with status `XST_SUCCESS`, but
`XSecure_RsaOaepDecode` applied to the written block with the same selector and label has no
defined result: it copies `384 - 32 - 1 = 351` bytes into the 335-byte array `DBMask`.  With
a hash descriptor of length 64 `XSecure_RsaOaepEncode` itself has no defined result: it
draws 64 random bytes into the 48-byte array `Seed`. -/
theorem C1_round_trip_breaks_off_reference_length :
    (∃ r, XSecure_RsaOaepEncode (exampleEnv 32) exampleMem exampleParam (zeros 384) = some r ∧
      r.Status = XST_SUCCESS ∧
      exampleParam.InputDataSize ≤ XSECURE_RSA_KEY_GEN_SIZE_IN_BYTES - 2 * 32 - 2 ∧
      XSecure_RsaOaepDecode (exampleEnv 32) exampleMem exampleParam r.Output = none) ∧
    exampleParam.InputDataSize ≤ XSECURE_RSA_KEY_GEN_SIZE_IN_BYTES - 2 * 64 - 2 ∧
    XSecure_RsaOaepEncode (exampleEnv 64) exampleMem exampleParam (zeros 384) = none := by
  obtain ⟨r, h1, h2, h3⟩ := round_trip_hash32
  exact ⟨⟨r, h1, h2, by decide, h3⟩, by decide, encode_hash64_out_of_bounds⟩

/-- C3 (code at the failing inputs). With a hash descriptor of length 32 an accepted 3-byte
message is encoded with status `XST_SUCCESS`, but only `1 + 32 + 287 = 320` bytes are
written, not `ModulusLen = 384`; with a hash descriptor of length 64 the run has no defined
result (64 random bytes are drawn into the 48-byte array `Seed`). -/
theorem C3_encode_emits_fewer_bytes :
    (∃ r, XSecure_RsaOaepEncode (exampleEnv 32) exampleMem exampleParam (zeros 384) = some r ∧
      r.Status = XST_SUCCESS ∧ emittedBytes r.Trace = 320 ∧
      emittedBytes r.Trace ≠ XSECURE_RSA_KEY_GEN_SIZE_IN_BYTES) ∧
    XSecure_RsaOaepEncode_ActualMsgLen 32 + 32 + 1 = 287 ∧
    XSecure_RsaOaepEncode (exampleEnv 64) exampleMem exampleParam (zeros 384) = none :=
  ⟨emitted_hash32, by decide, encode_hash64_out_of_bounds⟩

/-- C12 (code at the failing input). With a hash descriptor of length 64 two runs of
`XSecure_RsaOaepEncode` on the message of `exampleParam` whose entropy sources deliver
different seeds (`3, 10, 17, …` and all zero) write no block at all: each of them draws 64
random bytes into the 48-byte array `Seed` and has no defined result. -/
theorem C12_seed_array_overrun_at_hash64 :
    bytesOf ((exampleEnv 64).XSecure_GetRandomNum 64).2 64 ≠
        bytesOf ((exampleZeroSeedEnv 64).XSecure_GetRandomNum 64).2 64 ∧
      XSECURE_SHA3_HASH_LENGTH_IN_BYTES < 64 ∧
      XSecure_RsaOaepEncode (exampleEnv 64) exampleMem exampleParam (zeros 384) = none ∧
      XSecure_RsaOaepEncode (exampleZeroSeedEnv 64) exampleMem exampleParam (zeros 384) =
        none :=
  ⟨by decide, by decide, encode_hash64_out_of_bounds, encode_hash64_zero_seed_out_of_bounds⟩

/-- C8 (code at the failing input). With a hash descriptor of length 32 the block written by
`XSecure_RsaOaepEncode` for the label `00 01` of `exampleParam` is decoded with the label
`00 01 02`, whose hash is different; `XSecure_RsaOaepDecode` does not return
`XSECURE_RSA_OAEP_DATA_CMP_ERROR`: before the comparison it copies `384 - 32 - 1 = 351`
bytes into the 335-byte array `DBMask` and has no defined result. -/
theorem C8_label_mismatch_overflows_at_hash32 :
    ∃ r, XSecure_RsaOaepEncode (exampleEnv 32) exampleMem exampleParam (zeros 384) = some r ∧
      r.Status = XST_SUCCESS ∧
      (exampleHash 32).digest (labelOf exampleMem exampleOtherLabelParam) ≠
        (exampleHash 32).digest (labelOf exampleMem exampleParam) ∧
      XSecure_RsaOaepDecode (exampleEnv 32) exampleMem exampleOtherLabelParam r.Output =
        none := by
  obtain ⟨r, h1, h2, h3, h4⟩ := encode_leading_zero (exampleEnv 32) exampleMem exampleParam
    (zeros 384) (exampleHash 32) rfl (by decide) (by decide) (by decide) (by decide) rfl rfl
    (fun _ _ => rfl) (zeros_length 384)
  exact ⟨r, h1, h2, by decide, decode_small_hash_out_of_bounds (exampleEnv 32) exampleMem
    exampleOtherLabelParam r.Output (exampleHash 32) rfl (by decide) h3 h4 rfl⟩

theorem exampleSpecDB32_length :
    (OaepReferenceDB ((exampleHash 32).digest [0, 1])
      (XSECURE_RSA_KEY_GEN_SIZE_IN_BYTES - 2 * 32 - 2 - [5, 6].length) [5, 6]).length =
      XSECURE_RSA_KEY_GEN_SIZE_IN_BYTES - 32 - 1 := by
  rw [OaepReferenceDB_length]
  simp only [XSecure_HashAlgInfo.digest, bytesOf_length]
  rfl

theorem exampleSpecBlock32_length :
    exampleSpecBlock32.length = XSECURE_RSA_KEY_GEN_SIZE_IN_BYTES := by
  unfold exampleSpecBlock32 OaepSpecPaddedBlock
  rw [OaepReferenceBlock_length _ _ _ _ (bytesOf_length _ 32)
    (Env.Mgf_length (exampleEnv 32) 0), exampleSpecDB32_length]
  rfl

theorem exampleSpecBlock32_unmasked :
    OaepUnmaskedDB ((exampleEnv 32).Mgf exampleParam.ShaType) (exampleHash 32).HashLen
        exampleSpecBlock32 =
      OaepReferenceDB ((exampleHash 32).digest (labelOf exampleMem exampleParam)) 316 [5, 6] :=
  unmask_encoded_gen ((exampleEnv 32).Mgf 0) 32 _ (bytesOf (fun i => (7 * i + 3) % 256) 32)
    (Env.Mgf_length (exampleEnv 32) 0) (bytesOf_length _ 32) exampleSpecDB32_length

/-- C10 (code at the failing input). With a hash descriptor of length 32 the 384-byte block
`exampleSpecBlock32` has leading byte `0x00` and its unmasked data block is
`Hash(label) ‖ 0x00^316 ‖ 0x01 ‖ 05 06`, yet `XSecure_RsaOaepDecode` does not return
success: it copies `384 - 32 - 1 = 351` bytes into the 335-byte array `DBMask` and has no
defined result. -/
theorem C10_well_formed_block_overflows_at_hash32 :
    exampleSpecBlock32.length = 384 ∧
      bufGet exampleSpecBlock32 0 = some 0 ∧
      OaepUnmaskedDB ((exampleEnv 32).Mgf exampleParam.ShaType) 32 exampleSpecBlock32 =
        (exampleHash 32).digest (labelOf exampleMem exampleParam) ++ zeros 316 ++ [1] ++
          [5, 6] ∧
      [5, 6].length ≤ XSECURE_RSA_KEY_GEN_SIZE_IN_BYTES - 2 * 32 - 2 ∧
      XSecure_RsaOaepDecode (exampleEnv 32) exampleMem exampleParam exampleSpecBlock32 =
        none :=
  ⟨exampleSpecBlock32_length, rfl, exampleSpecBlock32_unmasked, by decide,
    decode_small_hash_out_of_bounds (exampleEnv 32) exampleMem exampleParam exampleSpecBlock32
      (exampleHash 32) rfl (by decide) exampleSpecBlock32_length rfl rfl⟩

set_option maxRecDepth 1000000 in
theorem encode_hash32_not_spec_block :
    ∃ r, XSecure_RsaOaepEncode (exampleEnv 32) exampleMem exampleParam (zeros 384) = some r ∧
      r.Status = XST_SUCCESS ∧
      r.Output ≠ OaepSpecPaddedBlock ((exampleEnv 32).Mgf exampleParam.ShaType) 32
        ((exampleHash 32).digest (labelOf exampleMem exampleParam))
        (messageOf exampleMem exampleParam) (bytesOf (fun i => (7 * i + 3) % 256) 32) := by
  refine ⟨_, encode_eq (exampleEnv 32) exampleMem exampleParam (zeros 384) (exampleHash 32)
    rfl (by decide) (by decide) (by decide) (by decide) rfl rfl (fun _ _ => rfl)
    (zeros_length 384), rfl, ?_⟩
  decide

theorem exampleSpecPaddedBlock32_length :
    (OaepSpecPaddedBlock ((exampleEnv 32).Mgf exampleParam.ShaType) 32
      ((exampleHash 32).digest (labelOf exampleMem exampleParam))
      (messageOf exampleMem exampleParam) (bytesOf (fun i => (7 * i + 3) % 256) 32)).length =
      XSECURE_RSA_KEY_GEN_SIZE_IN_BYTES := by
  unfold OaepSpecPaddedBlock
  rw [OaepReferenceBlock_length _ _ _ _ (bytesOf_length _ 32)
    (Env.Mgf_length (exampleEnv 32) exampleParam.ShaType), OaepReferenceDB_length]
  simp only [XSecure_HashAlgInfo.digest, bytesOf_length, messageOf, memRead_length]
  rfl

/-- C2 (code at the failing inputs). With a hash descriptor of length 32 the accepted 3-byte
message of `exampleParam` is encoded with status `XST_SUCCESS`, but what
`XSecure_RsaOaepEncode` leaves in the output array is not the padded block of the
specification for that hash, label, message and seed: the specified block has
`ModulusLen = 384` bytes (`PS` of 315 zero bytes), the code writes 320 bytes (`PS` of 251
zero bytes, masks of another length).  With a hash descriptor of length 64 the run has no
defined result (64 random bytes are drawn into the 48-byte array `Seed`). -/
theorem C2_block_is_not_the_specified_block :
    (∃ r, XSecure_RsaOaepEncode (exampleEnv 32) exampleMem exampleParam (zeros 384) = some r ∧
      r.Status = XST_SUCCESS ∧ emittedBytes r.Trace = 320 ∧
      (OaepSpecPaddedBlock ((exampleEnv 32).Mgf exampleParam.ShaType) 32
        ((exampleHash 32).digest (labelOf exampleMem exampleParam))
        (messageOf exampleMem exampleParam)
        (bytesOf (fun i => (7 * i + 3) % 256) 32)).length = 384 ∧
      r.Output ≠ OaepSpecPaddedBlock ((exampleEnv 32).Mgf exampleParam.ShaType) 32
        ((exampleHash 32).digest (labelOf exampleMem exampleParam))
        (messageOf exampleMem exampleParam) (bytesOf (fun i => (7 * i + 3) % 256) 32)) ∧
    XSecure_RsaOaepEncode (exampleEnv 64) exampleMem exampleParam (zeros 384) = none := by
  obtain ⟨r, h1, h2, h3⟩ := encode_hash32_not_spec_block
  obtain ⟨r1, g1, -, g3, -⟩ := emitted_hash32
  have hr : r1 = r := Option.some.inj (g1.symm.trans h1)
  rw [hr] at g3
  exact ⟨⟨r, h1, h2, g3, exampleSpecPaddedBlock32_length, h3⟩, encode_hash64_out_of_bounds⟩

theorem decrypt_truncated_null (env : Env) (eng : RsaEngine) (mem : Mem) (SoftReset : Nat)
    (Key : XSecure_RsaKey) (Param : XSecure_RsaOaepParam)
    (h : UINTPTR Param.InputDataAddr = 0) :
    XSecure_RsaOaepDecrypt env eng mem SoftReset (some Key) (some Param) =
      some ⟨XSECURE_RSA_EXPONENT_INVALID_PARAM, some Param, mem, SoftReset, []⟩ := by
  unfold XSecure_RsaOaepDecrypt
  simp only [h, if_true]
  rw [XSecure_RsaExpCRT_null eng SoftReset none _ _ _ _ _ _ _ _ _ (Or.inl rfl)]
  simp

theorem UINTPTR_example : UINTPTR 0x100000000 = 0 ∧ UINTPTR 0x100001000 = 0x1000 := by
  decide

end XSecure
